import Mathlib

/-!
# Direct3D11 colour converter (`sys/d3d11/gstd3d11converter.cpp`)

A shallow embedding of the converter: the colour-matrix builder, the format
classifier, construction (`gst_d3d11_converter_new_internal`), the per-frame
conversion (`gst_d3d11_converter_convert`, `..._convert_unlocked`) and the
viewport and rectangle mutators.

Conventions of the embedding.

* `gfloat`/`FLOAT`/`gdouble` values are rationals (exact arithmetic).
* A C function that writes through an out-pointer returns the new value.
* GPU and logging side effects are recorded, in program order, in a list of
  `Event`s; a failed GLib assertion ends the run with a `Fault`.
* What the GPU answers (creation results, the texture description, the draw
  results) is an argument of the run.
* `g_return_val_if_fail` and `g_assert` are modelled with checks enabled.
* Pointers handed in by the caller (`device`, `in_info`, `out_info`,
  `converter`, `viewport`) are non-null by typing.
-/

namespace D3D11Converter

/-! ## Video library types (GStreamer base, external to the converter) -/

/-- The video formats considered: every format the converter names, together
with further RGB, YUV and grayscale formats of the video library. -/
inductive GstVideoFormat
  | UNKNOWN | ENCODED
  | I420 | YV12 | YUY2 | UYVY | AYUV
  | RGBx | BGRx | RGBA | BGRA
  | Y42B | Y444 | NV12 | NV21
  | GRAY8 | GRAY16_LE
  | I420_10LE | P010_10LE | VYUY
  | Y210 | Y410 | VUYA | RGB10A2_LE
  | P016_LE | GBR
  deriving DecidableEq, Repr, Inhabited

/-- Colour class of a format (the RGB, YUV and GRAY flags are exclusive). -/
inductive GstVideoFormatFlags
  | NONE | YUV | RGB | GRAY | COMPLEX
  deriving DecidableEq, Repr

inductive GstVideoColorRange
  | UNKNOWN | RANGE_0_255 | RANGE_16_235
  deriving DecidableEq, Repr

inductive GstVideoColorMatrix
  | UNKNOWN | RGB | FCC | BT709 | BT601 | SMPTE240M | BT2020
  deriving DecidableEq, Repr

/-- The part of `GstVideoFormatInfo` the converter reads. -/
structure GstVideoFormatInfo where
  format : GstVideoFormat
  flags : GstVideoFormatFlags
  depth : Fin 4 → Nat
  n_planes : Nat
  w_sub : Fin 4 → Nat
  h_sub : Fin 4 → Nat

/-- Per-component table `[a, b, c, d]`. -/
def comp4 (a b c d : Nat) : Fin 4 → Nat :=
  fun i => if i = 0 then a else if i = 1 then b else if i = 2 then c else d

/-- Modelled from the spec: the video library's format table is not part of
the sources; colour class, plane count (1 for packed RGB, VUYA and packed
YUV, 2 for NV12/P010_10LE/P016_LE, 3 for I420/I420_10LE), component depth and
chroma subsampling (4:2:0 for I420, NV12 and their deeper variants) of each
format. -/
def gst_video_format_get_info : GstVideoFormat → GstVideoFormatInfo
  | .UNKNOWN => ⟨.UNKNOWN, .NONE, comp4 0 0 0 0, 0, comp4 0 0 0 0, comp4 0 0 0 0⟩
  | .ENCODED => ⟨.ENCODED, .COMPLEX, comp4 0 0 0 0, 0, comp4 0 0 0 0, comp4 0 0 0 0⟩
  | .I420 => ⟨.I420, .YUV, comp4 8 8 8 0, 3, comp4 0 1 1 0, comp4 0 1 1 0⟩
  | .YV12 => ⟨.YV12, .YUV, comp4 8 8 8 0, 3, comp4 0 1 1 0, comp4 0 1 1 0⟩
  | .YUY2 => ⟨.YUY2, .YUV, comp4 8 8 8 0, 1, comp4 0 1 1 0, comp4 0 0 0 0⟩
  | .UYVY => ⟨.UYVY, .YUV, comp4 8 8 8 0, 1, comp4 0 1 1 0, comp4 0 0 0 0⟩
  | .AYUV => ⟨.AYUV, .YUV, comp4 8 8 8 8, 1, comp4 0 0 0 0, comp4 0 0 0 0⟩
  | .RGBx => ⟨.RGBx, .RGB, comp4 8 8 8 0, 1, comp4 0 0 0 0, comp4 0 0 0 0⟩
  | .BGRx => ⟨.BGRx, .RGB, comp4 8 8 8 0, 1, comp4 0 0 0 0, comp4 0 0 0 0⟩
  | .RGBA => ⟨.RGBA, .RGB, comp4 8 8 8 8, 1, comp4 0 0 0 0, comp4 0 0 0 0⟩
  | .BGRA => ⟨.BGRA, .RGB, comp4 8 8 8 8, 1, comp4 0 0 0 0, comp4 0 0 0 0⟩
  | .Y42B => ⟨.Y42B, .YUV, comp4 8 8 8 0, 3, comp4 0 1 1 0, comp4 0 0 0 0⟩
  | .Y444 => ⟨.Y444, .YUV, comp4 8 8 8 0, 3, comp4 0 0 0 0, comp4 0 0 0 0⟩
  | .NV12 => ⟨.NV12, .YUV, comp4 8 8 8 0, 2, comp4 0 1 1 0, comp4 0 1 1 0⟩
  | .NV21 => ⟨.NV21, .YUV, comp4 8 8 8 0, 2, comp4 0 1 1 0, comp4 0 1 1 0⟩
  | .GRAY8 => ⟨.GRAY8, .GRAY, comp4 8 0 0 0, 1, comp4 0 0 0 0, comp4 0 0 0 0⟩
  | .GRAY16_LE => ⟨.GRAY16_LE, .GRAY, comp4 16 0 0 0, 1, comp4 0 0 0 0, comp4 0 0 0 0⟩
  | .I420_10LE => ⟨.I420_10LE, .YUV, comp4 10 10 10 0, 3, comp4 0 1 1 0, comp4 0 1 1 0⟩
  | .P010_10LE => ⟨.P010_10LE, .YUV, comp4 10 10 10 0, 2, comp4 0 1 1 0, comp4 0 1 1 0⟩
  | .VYUY => ⟨.VYUY, .YUV, comp4 8 8 8 0, 1, comp4 0 1 1 0, comp4 0 0 0 0⟩
  | .Y210 => ⟨.Y210, .YUV, comp4 10 10 10 0, 1, comp4 0 1 1 0, comp4 0 0 0 0⟩
  | .Y410 => ⟨.Y410, .YUV, comp4 10 10 10 2, 1, comp4 0 0 0 0, comp4 0 0 0 0⟩
  | .VUYA => ⟨.VUYA, .YUV, comp4 8 8 8 8, 1, comp4 0 0 0 0, comp4 0 0 0 0⟩
  | .RGB10A2_LE => ⟨.RGB10A2_LE, .RGB, comp4 10 10 10 2, 1, comp4 0 0 0 0, comp4 0 0 0 0⟩
  | .P016_LE => ⟨.P016_LE, .YUV, comp4 16 16 16 0, 2, comp4 0 1 1 0, comp4 0 1 1 0⟩
  | .GBR => ⟨.GBR, .RGB, comp4 8 8 8 0, 3, comp4 0 0 0 0, comp4 0 0 0 0⟩

structure GstVideoColorimetry where
  range : GstVideoColorRange
  matrix : GstVideoColorMatrix
  deriving DecidableEq, Repr

/-- The part of `GstVideoInfo` the converter reads; `finfo` is the table entry
of `format`. -/
structure GstVideoInfo where
  format : GstVideoFormat
  width : Int
  height : Int
  colorimetry : GstVideoColorimetry
  deriving DecidableEq, Repr

def GstVideoInfo.finfo (info : GstVideoInfo) : GstVideoFormatInfo :=
  gst_video_format_get_info info.format

def GST_VIDEO_INFO_FORMAT (info : GstVideoInfo) : GstVideoFormat := info.format

def GST_VIDEO_INFO_IS_RGB (info : GstVideoInfo) : Bool :=
  decide (info.finfo.flags = .RGB)

def GST_VIDEO_INFO_IS_YUV (info : GstVideoInfo) : Bool :=
  decide (info.finfo.flags = .YUV)

def GST_VIDEO_INFO_N_PLANES (info : GstVideoInfo) : Nat := info.finfo.n_planes

def GST_VIDEO_INFO_WIDTH (info : GstVideoInfo) : Int := info.width

def GST_VIDEO_INFO_HEIGHT (info : GstVideoInfo) : Int := info.height

def GST_VIDEO_INFO_COMP_DEPTH (info : GstVideoInfo) (c : Fin 4) : Nat :=
  info.finfo.depth c

/-- `GST_VIDEO_SUB_SCALE (scale, val)`, that is `-((-val) >> scale)`: the
arithmetic right shift is the floor division by `2 ^ scale`. -/
def GST_VIDEO_SUB_SCALE (scale : Nat) (val : Int) : Int :=
  -((-val) / 2 ^ scale)

def GST_VIDEO_INFO_COMP_WIDTH (info : GstVideoInfo) (c : Fin 4) : Int :=
  GST_VIDEO_SUB_SCALE (info.finfo.w_sub c) info.width

def GST_VIDEO_INFO_COMP_HEIGHT (info : GstVideoInfo) (c : Fin 4) : Int :=
  GST_VIDEO_SUB_SCALE (info.finfo.h_sub c) info.height

/-- The two video-library functions the matrix builder calls; they are
external to the converter and taken as parameters.
`color_range_offsets range finfo` is the pair `(offset, scale)` written by
`gst_video_color_range_offsets`; `color_matrix_get_Kr_Kb m` is `some (Kr, Kb)`
when `gst_video_color_matrix_get_Kr_Kb` returns TRUE. -/
structure GstVideoLib where
  color_range_offsets :
    GstVideoColorRange → GstVideoFormatInfo → (Fin 4 → Int) × (Fin 4 → Int)
  color_matrix_get_Kr_Kb : GstVideoColorMatrix → Option (ℚ × ℚ)

/-! ## Colour matrix builder -/

/-- `MatrixData`: the 4x4 working matrix `dm[4][4]`. -/
@[ext]
structure MatrixData where
  dm : Fin 4 → Fin 4 → ℚ

def color_matrix_set_identity : MatrixData :=
  ⟨fun i j => if i = j then 1 else 0⟩

def color_matrix_copy (s : MatrixData) : MatrixData :=
  ⟨fun i j => s.dm i j⟩

/-- `color_matrix_multiply (dst, a, b)`: the product is accumulated in a
temporary, entry by entry with `k` running over `0..3`, and then copied. -/
def color_matrix_multiply (a b : MatrixData) : MatrixData :=
  let tmp : MatrixData :=
    ⟨fun i j => (List.finRange 4).foldl (fun x k => x + a.dm i k * b.dm k j) 0⟩
  color_matrix_copy tmp

/-- Array store `m->dm[i][j] = v`. -/
def MatrixData.set (m : MatrixData) (i j : Fin 4) (v : ℚ) : MatrixData :=
  ⟨Function.update m.dm i (Function.update (m.dm i) j v)⟩

def color_matrix_offset_components (m : MatrixData) (a1 a2 a3 : ℚ) : MatrixData :=
  let a := color_matrix_set_identity
  let a := a.set 0 3 a1
  let a := a.set 1 3 a2
  let a := a.set 2 3 a3
  color_matrix_multiply a m

def color_matrix_scale_components (m : MatrixData) (a1 a2 a3 : ℚ) : MatrixData :=
  let a := color_matrix_set_identity
  let a := a.set 0 0 a1
  let a := a.set 1 1 a2
  let a := a.set 2 2 a3
  color_matrix_multiply a m

/-- Row-major 4x4 initialiser. -/
def MatrixData.ofRows (r0 r1 r2 r3 : Fin 4 → ℚ) : MatrixData :=
  ⟨fun i => if i = 0 then r0 else if i = 1 then r1 else if i = 2 then r2 else r3⟩

def row4 (a b c d : ℚ) : Fin 4 → ℚ :=
  fun j => if j = 0 then a else if j = 1 then b else if j = 2 then c else d

def color_matrix_YCbCr_to_RGB (m : MatrixData) (Kr Kb : ℚ) : MatrixData :=
  let Kg := 1 - Kr - Kb
  let k := MatrixData.ofRows
    (row4 1 0 (2 * (1 - Kr)) 0)
    (row4 1 (-2 * Kb * (1 - Kb) / Kg) (-2 * Kr * (1 - Kr) / Kg) 0)
    (row4 1 (2 * (1 - Kb)) 0 0)
    (row4 0 0 0 1)
  color_matrix_multiply k m

def color_matrix_RGB_to_YCbCr (m : MatrixData) (Kr Kb : ℚ) : MatrixData :=
  let Kg := 1 - Kr - Kb
  let x := 1 / (2 * (1 - Kb))
  let y := 1 / (2 * (1 - Kr))
  let k := MatrixData.ofRows
    (row4 Kr Kg Kb 0)
    (row4 (-x * Kr) (-x * Kg) (x * (1 - Kb)) 0)
    (row4 (y * (1 - Kr)) (-y * Kg) (-y * Kb) 0)
    (row4 0 0 0 1)
  color_matrix_multiply k m

def compute_matrix_to_RGB (lib : GstVideoLib) (data : MatrixData)
    (info : GstVideoInfo) : MatrixData :=
  let os := lib.color_range_offsets info.colorimetry.range info.finfo
  let offset := os.1
  let scale := os.2
  let data := color_matrix_offset_components data
    (-(offset 0 : ℚ)) (-(offset 1 : ℚ)) (-(offset 2 : ℚ))
  let data := color_matrix_scale_components data
    (1 / (scale 0 : ℚ)) (1 / (scale 1 : ℚ)) (1 / (scale 2 : ℚ))
  if !GST_VIDEO_INFO_IS_RGB info then
    match lib.color_matrix_get_Kr_Kb info.colorimetry.matrix with
    | some (Kr, Kb) => color_matrix_YCbCr_to_RGB data Kr Kb
    | none => data
  else data

def compute_matrix_to_YUV (lib : GstVideoLib) (data : MatrixData)
    (info : GstVideoInfo) : MatrixData :=
  let data :=
    if !GST_VIDEO_INFO_IS_RGB info then
      match lib.color_matrix_get_Kr_Kb info.colorimetry.matrix with
      | some (Kr, Kb) => color_matrix_RGB_to_YCbCr data Kr Kb
      | none => data
    else data
  let os := lib.color_range_offsets info.colorimetry.range info.finfo
  let offset := os.1
  let scale := os.2
  let data := color_matrix_scale_components data
    (scale 0 : ℚ) (scale 1 : ℚ) (scale 2 : ℚ)
  color_matrix_offset_components data (offset 0 : ℚ) (offset 1 : ℚ) (offset 2 : ℚ)

/-- `converter_get_matrix`: the returned pair is the function's result and the
value left in `*matrix`. `1 << n` is `2 ^ n` (the depths of the format table
are at most 16, so the shift does not overflow). -/
def converter_get_matrix (lib : GstVideoLib) (in_info out_info : GstVideoInfo) :
    Bool × MatrixData :=
  let in_bits := GST_VIDEO_INFO_COMP_DEPTH in_info 0
  let out_bits := GST_VIDEO_INFO_COMP_DEPTH out_info 0
  let same_matrix := decide (in_info.colorimetry.matrix = out_info.colorimetry.matrix)
  let matrix := color_matrix_set_identity
  if same_matrix then (false, matrix)
  else
    let matrix :=
      if in_bits < out_bits then
        let scale : Int := 2 ^ (out_bits - in_bits)
        color_matrix_scale_components matrix
          (1 / (scale : ℚ)) (1 / (scale : ℚ)) (1 / (scale : ℚ))
      else matrix
    let matrix := compute_matrix_to_RGB lib matrix in_info
    let matrix := compute_matrix_to_YUV lib matrix out_info
    let matrix :=
      if in_bits > out_bits then
        let scale : Int := 2 ^ (in_bits - out_bits)
        color_matrix_scale_components matrix (scale : ℚ) (scale : ℚ) (scale : ℚ)
      else matrix
    (true, matrix)

/-! ## Device and shader data -/

inductive DXGI_FORMAT
  | UNKNOWN | R8G8B8A8_UNORM | B8G8R8A8_UNORM | R10G10B10A2_UNORM
  | R8_UNORM | R8G8_UNORM | R16_UNORM | R16G16_UNORM | G8R8_G8B8_UNORM
  | R16G16B16A16_UNORM | AYUV | NV12 | P010 | P016 | YUY2 | Y210 | Y410
  deriving DecidableEq, Repr

/-- `GstD3D11Format`: the native mapping of a video format. -/
structure GstD3D11Format where
  format : GstVideoFormat
  dxgi_format : DXGI_FORMAT
  resource_format : Fin 4 → DXGI_FORMAT

/-- `COLOR_TRANSFORM_COEFF`, the constant-buffer declaration text. -/
inductive HlslConstantBuffer
  | COLOR_TRANSFORM_COEFF
  deriving DecidableEq, Repr

/-- The colour-transform function texts. -/
inductive HlslFunc
  | HLSL_FUNC_YUV_TO_RGB | HLSL_FUNC_RGB_TO_YUV
  deriving DecidableEq, Repr

/-- `PixelShaderTemplate`; `none` is the NULL string. -/
structure PixelShaderTemplate where
  constant_buffer : Option HlslConstantBuffer
  func : Option HlslFunc
  deriving DecidableEq, Repr

def templ_REORDER : PixelShaderTemplate := ⟨none, none⟩

def templ_YUV_to_RGB : PixelShaderTemplate :=
  ⟨some .COLOR_TRANSFORM_COEFF, some .HLSL_FUNC_YUV_TO_RGB⟩

def templ_RGB_to_YUV : PixelShaderTemplate :=
  ⟨some .COLOR_TRANSFORM_COEFF, some .HLSL_FUNC_RGB_TO_YUV⟩

/-- The two output declarations of a pixel shader. -/
inductive PsOutput
  | HLSL_PS_OUTPUT_ONE_PLANE_BODY | HLSL_PS_OUTPUT_TWO_PLANES_BODY
  deriving DecidableEq, Repr

/-- Number of `SV_TARGET` lines in the declaration text. -/
def PsOutput.render_targets : PsOutput → Nat
  | .HLSL_PS_OUTPUT_ONE_PLANE_BODY => 1
  | .HLSL_PS_OUTPUT_TWO_PLANES_BODY => 2

/-- The body template texts, by their names in the source. -/
inductive BodyTemplate
  | templ_REORDER_BODY
  | templ_VUYA_to_RGB_BODY
  | templ_RGB_to_VUYA_BODY
  | templ_PACKED_YUV_to_RGB_BODY
  | templ_PLANAR_YUV_to_RGB_BODY
  | templ_SEMI_PLANAR_to_RGB_BODY
  | templ_RGB_to_LUMA_BODY
  | templ_RGB_to_SEMI_PLANAR_CHROMA_BODY
  | templ_RGB_to_PLANAR_CHROMA_BODY
  | templ_LUMA_to_LUMA_BODY
  | templ_PLANAR_TO_SEMI_PLANAR_CHROMA_BODY
  | templ_SEMI_PLANAR_TO_PLANAR_CHROMA_BODY
  | templ_SEMI_PLANAR_TO_SEMI_PLANAR_CHROMA_BODY
  | templ_PLANAR_TO_PLANAR_CHROMA_BODY
  | templ_VUYA_to_LUMA_BODY
  | templ_VUYA_TO_PLANAR_CHROMA_BODY
  | templ_VUYA_TO_SEMI_PLANAR_CHROMA_BODY
  | templ_PLANAR_to_VUYA_BODY
  | templ_SEMI_PLANAR_to_VUYA_BODY
  | templ_PACKED_YUV_to_VUYA_BODY
  | templ_PACKED_YUV_to_LUMA_BODY
  | templ_PACKED_YUV_TO_PLANAR_CHROMA_BODY
  | templ_PACKED_YUV_TO_SEMI_PLANAR_CHROMA_BODY
  deriving DecidableEq, Repr

/-- What a conversion specification of a body template stands for in the
template text: `* %d` (multiply an input sample), `/ %d` (divide an output
sample), `.%c` (channel selector), `* %f` (alpha). -/
inductive Slot
  | mul | div | chan | alpha
  deriving DecidableEq, Repr

/-- The conversion specifications of each body template, in text order. -/
def BodyTemplate.slots : BodyTemplate → List Slot
  | .templ_REORDER_BODY => [.alpha]
  | .templ_VUYA_to_RGB_BODY => []
  | .templ_RGB_to_VUYA_BODY => []
  | .templ_PACKED_YUV_to_RGB_BODY => [.chan, .chan, .chan]
  | .templ_PLANAR_YUV_to_RGB_BODY => [.mul, .mul, .mul]
  | .templ_SEMI_PLANAR_to_RGB_BODY => []
  | .templ_RGB_to_LUMA_BODY => [.div]
  | .templ_RGB_to_SEMI_PLANAR_CHROMA_BODY => []
  | .templ_RGB_to_PLANAR_CHROMA_BODY => [.div, .div]
  | .templ_LUMA_to_LUMA_BODY => [.mul, .div]
  | .templ_PLANAR_TO_SEMI_PLANAR_CHROMA_BODY => [.mul, .mul]
  | .templ_SEMI_PLANAR_TO_PLANAR_CHROMA_BODY => [.div, .div]
  | .templ_SEMI_PLANAR_TO_SEMI_PLANAR_CHROMA_BODY => []
  | .templ_PLANAR_TO_PLANAR_CHROMA_BODY => [.mul, .mul, .div, .div]
  | .templ_VUYA_to_LUMA_BODY => [.div]
  | .templ_VUYA_TO_PLANAR_CHROMA_BODY => [.div, .div]
  | .templ_VUYA_TO_SEMI_PLANAR_CHROMA_BODY => []
  | .templ_PLANAR_to_VUYA_BODY => [.mul, .mul, .mul]
  | .templ_SEMI_PLANAR_to_VUYA_BODY => []
  | .templ_PACKED_YUV_to_VUYA_BODY => [.chan, .chan, .chan]
  | .templ_PACKED_YUV_to_LUMA_BODY => [.chan, .div]
  | .templ_PACKED_YUV_TO_PLANAR_CHROMA_BODY => [.chan, .chan, .div, .div]
  | .templ_PACKED_YUV_TO_SEMI_PLANAR_CHROMA_BODY => [.chan, .chan]

/-- An argument of `g_strdup_printf`: `%d`, `%c` or `%f`. -/
inductive PrintfArg
  | d (n : Int)
  | c (ch : Char)
  | f (x : ℚ)
  deriving DecidableEq, Repr

/-- A generated body: the template and the arguments substituted into it. -/
structure PsBody where
  templ : BodyTemplate
  args : List PrintfArg
  deriving DecidableEq, Repr

def g_strdup_printf (templ : BodyTemplate) (args : List PrintfArg) : PsBody :=
  ⟨templ, args⟩

/-- The integers substituted at the conversion specifications of kind `s`. -/
def PsBody.factors (b : PsBody) (s : Slot) : List Int :=
  (b.templ.slots.zip b.args).filterMap fun p =>
    match p.2 with
    | .d n => if p.1 = s then some n else none
    | _ => none

/-- `PixelShaderColorTransform`. -/
structure PixelShaderColorTransform where
  trans_matrix : Fin 12 → ℚ
  padding : Fin 4 → ℚ

/-- `ConvertInfo`; `none` is a NULL pointer. -/
structure ConvertInfo where
  templ : Option PixelShaderTemplate
  ps_body : Fin 2 → Option PsBody
  ps_output : Fin 2 → Option PsOutput
  transform : PixelShaderColorTransform

def ConvertInfo.set_ps_body (info : ConvertInfo) (i : Fin 2) (b : PsBody) : ConvertInfo :=
  { info with ps_body := Function.update info.ps_body i (some b) }

def ConvertInfo.set_ps_output (info : ConvertInfo) (i : Fin 2) (o : PsOutput) : ConvertInfo :=
  { info with ps_output := Function.update info.ps_output i (some o) }

/-- The four strings substituted into `templ_pixel_shader`. -/
structure PixelShaderCode where
  constant_buffer : Option HlslConstantBuffer
  ps_output : PsOutput
  func : Option HlslFunc
  ps_body : PsBody
  deriving DecidableEq, Repr

inductive BufferKind
  | constant | vertex | index
  deriving DecidableEq, Repr

/-- `GstD3D11Device` as the converter uses it: the format table and the
outcome of each creation call (`true` when `gst_d3d11_result` accepts the
returned `HRESULT`, or the helper returns TRUE). -/
structure GstD3D11Device where
  format_from_gst : GstVideoFormat → Option GstD3D11Format
  CreateSamplerState_ok : Bool
  create_pixel_shader_ok : PixelShaderCode → Bool
  create_vertex_shader_ok : Bool
  CreateBuffer_ok : BufferKind → Bool
  Map_ok : BufferKind → Bool

def gst_d3d11_device_format_from_gst (device : GstD3D11Device)
    (format : GstVideoFormat) : Option GstD3D11Format :=
  device.format_from_gst format

structure VertexData where
  position_x : ℚ
  position_y : ℚ
  position_z : ℚ
  texture_x : ℚ
  texture_y : ℚ
  deriving DecidableEq, Repr

structure D3D11_VIEWPORT where
  TopLeftX : ℚ
  TopLeftY : ℚ
  Width : ℚ
  Height : ℚ
  MinDepth : ℚ
  MaxDepth : ℚ
  deriving DecidableEq, Repr

structure RECT where
  left : Int
  top : Int
  right : Int
  bottom : Int
  deriving DecidableEq, Repr

/-- `GstD3D11Quad` as built by `gst_d3d11_quad_new`: the objects handed to it. -/
structure GstD3D11Quad where
  pixel_shader : Option PixelShaderCode
  const_buffer : Option PixelShaderColorTransform
  vertex_stride : Nat
  index_buffer : List Nat
  index_count : Nat

def GST_VIDEO_MAX_PLANES : Nat := 4

def CONVERTER_MAX_QUADS : Nat := 2

/-- `struct _GstD3D11Converter`; `vertex_buffer` holds the buffer content. -/
structure GstD3D11Converter where
  device : GstD3D11Device
  in_info : GstVideoInfo
  out_info : GstVideoInfo
  alpha : ℚ
  in_d3d11_format : Option GstD3D11Format
  out_d3d11_format : Option GstD3D11Format
  num_input_view : Nat
  num_output_view : Nat
  quad : Fin 2 → Option GstD3D11Quad
  viewport : Fin 4 → D3D11_VIEWPORT
  src_rect : RECT
  dest_rect : RECT
  input_texture_width : Int
  input_texture_height : Int
  vertex_buffer : Option (Fin 4 → VertexData)
  update_vertex : Bool
  convert_info : ConvertInfo

/-- A zero-filled `GstVideoInfo`. -/
def GstVideoInfo.zero : GstVideoInfo :=
  ⟨.UNKNOWN, 0, 0, ⟨.UNKNOWN, .UNKNOWN⟩⟩

/-- `g_new0 (GstD3D11Converter, 1)` followed by the stores of `device` and
`alpha`: every other field is zero or NULL. -/
def g_new0_converter (device : GstD3D11Device) (alpha : ℚ) : GstD3D11Converter where
  device := device
  in_info := GstVideoInfo.zero
  out_info := GstVideoInfo.zero
  alpha := alpha
  in_d3d11_format := none
  out_d3d11_format := none
  num_input_view := 0
  num_output_view := 0
  quad := fun _ => none
  viewport := fun _ => ⟨0, 0, 0, 0, 0, 0⟩
  src_rect := ⟨0, 0, 0, 0⟩
  dest_rect := ⟨0, 0, 0, 0⟩
  input_texture_width := 0
  input_texture_height := 0
  vertex_buffer := none
  update_vertex := false
  convert_info := ⟨none, fun _ => none, fun _ => none, ⟨fun _ => 0, fun _ => 0⟩⟩

/-- A failed GLib assertion (the program aborts). -/
inductive Fault
  | assert_d3d11_format_not_null
  | assert_not_reached_resource_format
  | assert_not_reached_packed_format
  | assert_ps_output_not_null
  | assert_not_reached_viewport
  deriving DecidableEq, Repr

/-! ## Format classifier

Each `setup_convert_info_*` function returns its `gboolean` result and the new
value of `self->convert_info`. -/

def setup_convert_info_rgb_to_rgb (self : GstD3D11Converter)
    (_in_info _out_info : GstVideoInfo) : Except Fault (Bool × ConvertInfo) :=
  let convert_info := self.convert_info
  let convert_info := { convert_info with templ := some templ_REORDER }
  let convert_info := convert_info.set_ps_body 0
    (g_strdup_printf .templ_REORDER_BODY [.f self.alpha])
  let convert_info := convert_info.set_ps_output 0 .HLSL_PS_OUTPUT_ONE_PLANE_BODY
  .ok (true, convert_info)

/-- `get_packed_yuv_components`: `some (y, u, v)` when it returns TRUE. With
assertions enabled each `g_assert_not_reached` aborts before the `return
FALSE` that follows it. -/
def get_packed_yuv_components (self : GstD3D11Converter) (format : GstVideoFormat) :
    Except Fault (Option (Char × Char × Char)) :=
  match format with
  | .YUY2 =>
    match gst_d3d11_device_format_from_gst self.device .YUY2 with
    | none => .error .assert_d3d11_format_not_null
    | some d3d11_format =>
      if d3d11_format.resource_format 0 = .R8G8B8A8_UNORM then
        .ok (some ('x', 'y', 'a'))
      else if d3d11_format.resource_format 0 = .G8R8_G8B8_UNORM then
        .ok (some ('y', 'x', 'z'))
      else .error .assert_not_reached_resource_format
  | .UYVY => .ok (some ('y', 'x', 'z'))
  | .VYUY => .ok (some ('y', 'z', 'x'))
  | .Y210 => .ok (some ('r', 'g', 'a'))
  | .Y410 => .ok (some ('g', 'r', 'b'))
  | _ => .error .assert_not_reached_packed_format

def setup_convert_info_yuv_to_rgb (self : GstD3D11Converter)
    (in_info _out_info : GstVideoInfo) : Except Fault (Bool × ConvertInfo) :=
  let info := self.convert_info
  let info := { info with templ := some templ_YUV_to_RGB }
  let info := info.set_ps_output 0 .HLSL_PS_OUTPUT_ONE_PLANE_BODY
  match GST_VIDEO_INFO_FORMAT in_info with
  | .VUYA => .ok (true, info.set_ps_body 0 (g_strdup_printf .templ_VUYA_to_RGB_BODY []))
  | .YUY2 | .UYVY | .VYUY | .Y210 | .Y410 =>
    match get_packed_yuv_components self (GST_VIDEO_INFO_FORMAT in_info) with
    | .error e => .error e
    | .ok none => .ok (false, info)
    | .ok (some (y, u, v)) =>
      .ok (true, info.set_ps_body 0
        (g_strdup_printf .templ_PACKED_YUV_to_RGB_BODY [.c y, .c u, .c v]))
  | .I420 =>
    .ok (true, info.set_ps_body 0
      (g_strdup_printf .templ_PLANAR_YUV_to_RGB_BODY [.d 1, .d 1, .d 1]))
  | .I420_10LE =>
    .ok (true, info.set_ps_body 0
      (g_strdup_printf .templ_PLANAR_YUV_to_RGB_BODY [.d 64, .d 64, .d 64]))
  | .NV12 | .P010_10LE | .P016_LE =>
    .ok (true, info.set_ps_body 0 (g_strdup_printf .templ_SEMI_PLANAR_to_RGB_BODY []))
  | _ => .ok (false, info)

def setup_convert_info_rgb_to_yuv (self : GstD3D11Converter)
    (_in_info out_info : GstVideoInfo) : Except Fault (Bool × ConvertInfo) :=
  let info := self.convert_info
  let info := { info with templ := some templ_RGB_to_YUV }
  let info := info.set_ps_output 0 .HLSL_PS_OUTPUT_ONE_PLANE_BODY
  match GST_VIDEO_INFO_FORMAT out_info with
  | .VUYA => .ok (true, info.set_ps_body 0 (g_strdup_printf .templ_RGB_to_VUYA_BODY []))
  | .NV12 | .P010_10LE | .P016_LE =>
    let info := info.set_ps_body 0 (g_strdup_printf .templ_RGB_to_LUMA_BODY [.d 1])
    let info := info.set_ps_body 1
      (g_strdup_printf .templ_RGB_to_SEMI_PLANAR_CHROMA_BODY [])
    let info := info.set_ps_output 1 .HLSL_PS_OUTPUT_ONE_PLANE_BODY
    .ok (true, info)
  | .I420 =>
    let info := info.set_ps_body 0 (g_strdup_printf .templ_RGB_to_LUMA_BODY [.d 1])
    let info := info.set_ps_body 1
      (g_strdup_printf .templ_RGB_to_PLANAR_CHROMA_BODY [.d 1, .d 1])
    let info := info.set_ps_output 1 .HLSL_PS_OUTPUT_TWO_PLANES_BODY
    .ok (true, info)
  | .I420_10LE =>
    let info := info.set_ps_body 0 (g_strdup_printf .templ_RGB_to_LUMA_BODY [.d 64])
    let info := info.set_ps_body 1
      (g_strdup_printf .templ_RGB_to_PLANAR_CHROMA_BODY [.d 64, .d 64])
    let info := info.set_ps_output 1 .HLSL_PS_OUTPUT_TWO_PLANES_BODY
    .ok (true, info)
  | _ => .ok (false, info)

def setup_convert_info_planar_to_planar (self : GstD3D11Converter)
    (in_info out_info : GstVideoInfo) : Except Fault (Bool × ConvertInfo) :=
  let info := self.convert_info
  let mul : Int := 1
  let div : Int := 1
  let info := { info with templ := some templ_REORDER }
  let info := info.set_ps_output 0 .HLSL_PS_OUTPUT_ONE_PLANE_BODY
  let info := info.set_ps_output 1 .HLSL_PS_OUTPUT_TWO_PLANES_BODY
  let mul := if GST_VIDEO_INFO_FORMAT in_info = .I420_10LE then 64 else mul
  let div := if GST_VIDEO_INFO_FORMAT out_info = .I420_10LE then 64 else div
  let info := info.set_ps_body 0 (g_strdup_printf .templ_LUMA_to_LUMA_BODY [.d mul, .d div])
  let info := info.set_ps_body 1
    (g_strdup_printf .templ_PLANAR_TO_PLANAR_CHROMA_BODY [.d mul, .d mul, .d div, .d div])
  .ok (true, info)

def setup_convert_info_planar_to_semi_planar (self : GstD3D11Converter)
    (in_info _out_info : GstVideoInfo) : Except Fault (Bool × ConvertInfo) :=
  let info := self.convert_info
  let mul : Int := 1
  let div : Int := 1
  let info := { info with templ := some templ_REORDER }
  let info := info.set_ps_output 0 .HLSL_PS_OUTPUT_ONE_PLANE_BODY
  let info := info.set_ps_output 1 .HLSL_PS_OUTPUT_ONE_PLANE_BODY
  let mul := if GST_VIDEO_INFO_FORMAT in_info = .I420_10LE then 64 else mul
  let info := info.set_ps_body 0 (g_strdup_printf .templ_LUMA_to_LUMA_BODY [.d mul, .d div])
  let info := info.set_ps_body 1
    (g_strdup_printf .templ_PLANAR_TO_SEMI_PLANAR_CHROMA_BODY [.d mul, .d mul])
  .ok (true, info)

def setup_convert_info_semi_planar_to_planar (self : GstD3D11Converter)
    (_in_info out_info : GstVideoInfo) : Except Fault (Bool × ConvertInfo) :=
  let info := self.convert_info
  let mul : Int := 1
  let div : Int := 1
  let info := { info with templ := some templ_REORDER }
  let info := info.set_ps_output 0 .HLSL_PS_OUTPUT_ONE_PLANE_BODY
  let info := info.set_ps_output 1 .HLSL_PS_OUTPUT_TWO_PLANES_BODY
  let div := if GST_VIDEO_INFO_FORMAT out_info = .I420_10LE then 64 else div
  let info := info.set_ps_body 0 (g_strdup_printf .templ_LUMA_to_LUMA_BODY [.d mul, .d div])
  let info := info.set_ps_body 1
    (g_strdup_printf .templ_SEMI_PLANAR_TO_PLANAR_CHROMA_BODY [.d div, .d div])
  .ok (true, info)

def setup_convert_info_semi_planar_to_semi_planar (self : GstD3D11Converter)
    (_in_info _out_info : GstVideoInfo) : Except Fault (Bool × ConvertInfo) :=
  let info := self.convert_info
  let mul : Int := 1
  let div : Int := 1
  let info := { info with templ := some templ_REORDER }
  let info := info.set_ps_output 0 .HLSL_PS_OUTPUT_ONE_PLANE_BODY
  let info := info.set_ps_output 1 .HLSL_PS_OUTPUT_ONE_PLANE_BODY
  let info := info.set_ps_body 0 (g_strdup_printf .templ_LUMA_to_LUMA_BODY [.d mul, .d div])
  let info := info.set_ps_body 1
    (g_strdup_printf .templ_SEMI_PLANAR_TO_SEMI_PLANAR_CHROMA_BODY [])
  .ok (true, info)

def setup_convert_info_vuya_to_vuya (self : GstD3D11Converter)
    (_in_info _out_info : GstVideoInfo) : Except Fault (Bool × ConvertInfo) :=
  let info := self.convert_info
  let info := { info with templ := some templ_REORDER }
  let info := info.set_ps_output 0 .HLSL_PS_OUTPUT_ONE_PLANE_BODY
  let info := info.set_ps_body 0 (g_strdup_printf .templ_REORDER_BODY [.f self.alpha])
  .ok (true, info)

def setup_convert_info_vuya_to_planar (self : GstD3D11Converter)
    (_in_info out_info : GstVideoInfo) : Except Fault (Bool × ConvertInfo) :=
  let info := self.convert_info
  let div : Int := 1
  let info := { info with templ := some templ_REORDER }
  let info := info.set_ps_output 0 .HLSL_PS_OUTPUT_ONE_PLANE_BODY
  let info := info.set_ps_output 1 .HLSL_PS_OUTPUT_TWO_PLANES_BODY
  let div := if GST_VIDEO_INFO_FORMAT out_info = .I420_10LE then 64 else div
  let info := info.set_ps_body 0 (g_strdup_printf .templ_VUYA_to_LUMA_BODY [.d div])
  let info := info.set_ps_body 1
    (g_strdup_printf .templ_VUYA_TO_PLANAR_CHROMA_BODY [.d div, .d div])
  .ok (true, info)

def setup_convert_info_vuya_to_semi_planar (self : GstD3D11Converter)
    (_in_info _out_info : GstVideoInfo) : Except Fault (Bool × ConvertInfo) :=
  let info := self.convert_info
  let div : Int := 1
  let info := { info with templ := some templ_REORDER }
  let info := info.set_ps_output 0 .HLSL_PS_OUTPUT_ONE_PLANE_BODY
  let info := info.set_ps_output 1 .HLSL_PS_OUTPUT_ONE_PLANE_BODY
  let info := info.set_ps_body 0 (g_strdup_printf .templ_VUYA_to_LUMA_BODY [.d div])
  let info := info.set_ps_body 1
    (g_strdup_printf .templ_VUYA_TO_SEMI_PLANAR_CHROMA_BODY [])
  .ok (true, info)

def setup_convert_info_planar_to_vuya (self : GstD3D11Converter)
    (in_info _out_info : GstVideoInfo) : Except Fault (Bool × ConvertInfo) :=
  let info := self.convert_info
  let mul : Int := 1
  let info := { info with templ := some templ_REORDER }
  let info := info.set_ps_output 0 .HLSL_PS_OUTPUT_ONE_PLANE_BODY
  let mul := if GST_VIDEO_INFO_FORMAT in_info = .I420_10LE then 64 else mul
  let info := info.set_ps_body 0
    (g_strdup_printf .templ_PLANAR_to_VUYA_BODY [.d mul, .d mul, .d mul])
  .ok (true, info)

def setup_convert_info_packed_yuv_to_vuya (self : GstD3D11Converter)
    (in_info _out_info : GstVideoInfo) : Except Fault (Bool × ConvertInfo) :=
  let info := self.convert_info
  let info := { info with templ := some templ_REORDER }
  let info := info.set_ps_output 0 .HLSL_PS_OUTPUT_ONE_PLANE_BODY
  match get_packed_yuv_components self (GST_VIDEO_INFO_FORMAT in_info) with
  | .error e => .error e
  | .ok none => .ok (false, info)
  | .ok (some (y, u, v)) =>
    .ok (true, info.set_ps_body 0
      (g_strdup_printf .templ_PACKED_YUV_to_VUYA_BODY [.c y, .c u, .c v]))

def setup_convert_info_semi_planar_to_vuya (self : GstD3D11Converter)
    (_in_info _out_info : GstVideoInfo) : Except Fault (Bool × ConvertInfo) :=
  let info := self.convert_info
  let info := { info with templ := some templ_REORDER }
  let info := info.set_ps_output 0 .HLSL_PS_OUTPUT_ONE_PLANE_BODY
  let info := info.set_ps_body 0 (g_strdup_printf .templ_SEMI_PLANAR_to_VUYA_BODY [])
  .ok (true, info)

def setup_convert_info_packed_yuv_to_planar (self : GstD3D11Converter)
    (in_info out_info : GstVideoInfo) : Except Fault (Bool × ConvertInfo) :=
  let info := self.convert_info
  let div : Int := 1
  let info := { info with templ := some templ_REORDER }
  let info := info.set_ps_output 0 .HLSL_PS_OUTPUT_ONE_PLANE_BODY
  let info := info.set_ps_output 1 .HLSL_PS_OUTPUT_TWO_PLANES_BODY
  let div := if GST_VIDEO_INFO_FORMAT out_info = .I420_10LE then 64 else div
  match get_packed_yuv_components self (GST_VIDEO_INFO_FORMAT in_info) with
  | .error e => .error e
  | .ok none => .ok (false, info)
  | .ok (some (y, u, v)) =>
    let info := info.set_ps_body 0
      (g_strdup_printf .templ_PACKED_YUV_to_LUMA_BODY [.c y, .d div])
    let info := info.set_ps_body 1
      (g_strdup_printf .templ_PACKED_YUV_TO_PLANAR_CHROMA_BODY [.c u, .c v, .d div, .d div])
    .ok (true, info)

def setup_convert_info_packed_yuv_to_semi_planar (self : GstD3D11Converter)
    (in_info _out_info : GstVideoInfo) : Except Fault (Bool × ConvertInfo) :=
  let info := self.convert_info
  let div : Int := 1
  let info := { info with templ := some templ_REORDER }
  let info := info.set_ps_output 0 .HLSL_PS_OUTPUT_ONE_PLANE_BODY
  let info := info.set_ps_output 1 .HLSL_PS_OUTPUT_ONE_PLANE_BODY
  match get_packed_yuv_components self (GST_VIDEO_INFO_FORMAT in_info) with
  | .error e => .error e
  | .ok none => .ok (false, info)
  | .ok (some (y, u, v)) =>
    let info := info.set_ps_body 0
      (g_strdup_printf .templ_PACKED_YUV_to_LUMA_BODY [.c y, .d div])
    let info := info.set_ps_body 1
      (g_strdup_printf .templ_PACKED_YUV_TO_SEMI_PLANAR_CHROMA_BODY [.c u, .c v])
    .ok (true, info)

def setup_convert_info_yuv_to_yuv (self : GstD3D11Converter)
    (in_info out_info : GstVideoInfo) : Except Fault (Bool × ConvertInfo) :=
  let in_vuya := decide (GST_VIDEO_INFO_FORMAT in_info = .VUYA)
  let out_vuya := decide (GST_VIDEO_INFO_FORMAT out_info = .VUYA)
  let in_planar := decide (GST_VIDEO_INFO_FORMAT in_info = .I420) ||
    decide (GST_VIDEO_INFO_FORMAT in_info = .I420_10LE)
  let in_packed := decide (GST_VIDEO_INFO_FORMAT in_info = .YUY2) ||
    decide (GST_VIDEO_INFO_FORMAT in_info = .UYVY) ||
    decide (GST_VIDEO_INFO_FORMAT in_info = .VYUY) ||
    decide (GST_VIDEO_INFO_FORMAT in_info = .Y210) ||
    decide (GST_VIDEO_INFO_FORMAT in_info = .Y410)
  let out_planar := decide (GST_VIDEO_INFO_FORMAT out_info = .I420) ||
    decide (GST_VIDEO_INFO_FORMAT out_info = .I420_10LE)
  if in_vuya && out_vuya then
    setup_convert_info_vuya_to_vuya self in_info out_info
  else if in_vuya then
    if out_planar then setup_convert_info_vuya_to_planar self in_info out_info
    else setup_convert_info_vuya_to_semi_planar self in_info out_info
  else if out_vuya then
    if in_planar then setup_convert_info_planar_to_vuya self in_info out_info
    else if in_packed then setup_convert_info_packed_yuv_to_vuya self in_info out_info
    else setup_convert_info_semi_planar_to_vuya self in_info out_info
  else if in_planar then
    if out_planar then setup_convert_info_planar_to_planar self in_info out_info
    else setup_convert_info_planar_to_semi_planar self in_info out_info
  else if in_packed then
    if out_planar then setup_convert_info_packed_yuv_to_planar self in_info out_info
    else setup_convert_info_packed_yuv_to_semi_planar self in_info out_info
  else
    if out_planar then setup_convert_info_semi_planar_to_planar self in_info out_info
    else setup_convert_info_semi_planar_to_semi_planar self in_info out_info

/-- The category dispatch of `gst_d3d11_converter_new_internal` (the chain of
`GST_VIDEO_INFO_IS_RGB`/`GST_VIDEO_INFO_IS_YUV` tests): the value of
`is_supported`, initially FALSE, and of `converter->convert_info`. -/
def converter_classify (converter : GstD3D11Converter)
    (in_info out_info : GstVideoInfo) : Except Fault (Bool × ConvertInfo) :=
  if GST_VIDEO_INFO_IS_RGB in_info then
    if GST_VIDEO_INFO_IS_RGB out_info then
      setup_convert_info_rgb_to_rgb converter in_info out_info
    else if GST_VIDEO_INFO_IS_YUV out_info then
      setup_convert_info_rgb_to_yuv converter in_info out_info
    else .ok (false, converter.convert_info)
  else if GST_VIDEO_INFO_IS_YUV in_info then
    if GST_VIDEO_INFO_IS_RGB out_info then
      setup_convert_info_yuv_to_rgb converter in_info out_info
    else if GST_VIDEO_INFO_IS_YUV out_info then
      setup_convert_info_yuv_to_yuv converter in_info out_info
    else .ok (false, converter.convert_info)
  else .ok (false, converter.convert_info)

/-! ## Effects -/

/-- The checks of `g_return_val_if_fail` in the entry points. -/
inductive Check
  | alpha_ge_0 | alpha_le_1
  deriving DecidableEq, Repr

/-- The `GST_ERROR` messages of construction and of a convert call. -/
inductive ErrorMsg
  | format_unknown (format : GstVideoFormat)
  | conversion_not_supported (in_format out_format : GstVideoFormat)
  | create_sampler_state | create_constant_buffer | map_constant_buffer
  | create_vertex_shader | create_vertex_buffer | create_index_buffer
  | map_vertex_buffer | map_index_buffer | setup_shader
  | update_vertex_buffer
  deriving DecidableEq, Repr

/-- The arguments of one `gst_d3d11_draw_quad_unlocked` call: which quad, the
viewport array with the first index and count passed, the count of input
views, and the first index and count of the render-target views. -/
structure DrawCall where
  quad : Fin 2
  viewport : Fin 4 → D3D11_VIEWPORT
  viewport_start : Nat
  num_viewport : Nat
  num_srv : Nat
  rtv_start : Nat
  num_rtv : Nat

/-- An observable step of a run, in program order. `setup_convert_info` is the
call of the category's `setup_convert_info_*` function (with the table read
it may do for YUY2); `converter_get_matrix` the matrix computation. -/
inductive Event
  | return_if_fail_warning (c : Check)
  | GST_ERROR (msg : ErrorMsg)
  | device_format_from_gst (format : GstVideoFormat)
  | setup_convert_info
  | converter_get_matrix
  | CreateSamplerState
  | create_pixel_shader (code : PixelShaderCode)
  | create_vertex_shader
  | CreateBuffer (kind : BufferKind)
  | device_lock
  | device_unlock
  | Map (kind : BufferKind)
  | Unmap (kind : BufferKind)
  | memcpy_transform (transform : PixelShaderColorTransform)
  | quad_new (i : Fin 2)
  | converter_free
  | draw_quad (call : DrawCall)

/-- Device format lookups. -/
def Event.is_format_lookup : Event → Bool
  | .device_format_from_gst _ => true
  | _ => false

/-- Classification of the format pair. -/
def Event.is_classification : Event → Bool
  | .setup_convert_info => true
  | _ => false

/-- The colour-matrix computation. -/
def Event.is_matrix_computation : Event → Bool
  | .converter_get_matrix => true
  | _ => false

/-- Creation of, or a write to, a GPU object. -/
def Event.is_resource_creation : Event → Bool
  | .CreateSamplerState => true
  | .create_pixel_shader _ => true
  | .create_vertex_shader => true
  | .CreateBuffer _ => true
  | .Map _ => true
  | .Unmap _ => true
  | .memcpy_transform _ => true
  | .quad_new _ => true
  | _ => false

/-- The write of the `ColorTransform` into the constant buffer. -/
def Event.is_transform_upload : Event → Bool
  | .memcpy_transform _ => true
  | _ => false

/-- A draw of one of the quads. -/
def Event.is_draw : Event → Bool
  | .draw_quad _ => true
  | _ => false

/-- A draw of quad `i`. -/
def Event.is_draw_of (i : Fin 2) : Event → Bool
  | .draw_quad call => decide (call.quad = i)
  | _ => false

/-- The mapping of the vertex buffer, with which a geometry rebuild starts. -/
def Event.is_vertex_map : Event → Bool
  | .Map .vertex => true
  | _ => false

/-- Taking or releasing the device lock. -/
def Event.is_lock : Event → Bool
  | .device_lock => true
  | .device_unlock => true
  | _ => false

/-- A run: the events it produced and its result, or the assertion that
aborted it. -/
structure Run (α : Type) where
  trace : List Event
  result : Except Fault α

def Run.pure {α : Type} (a : α) : Run α := ⟨[], .ok a⟩

def Run.bind {α β : Type} (x : Run α) (k : α → Run β) : Run β :=
  match x.result with
  | .error e => ⟨x.trace, .error e⟩
  | .ok a => ⟨x.trace ++ (k a).trace, (k a).result⟩

instance : Monad Run where
  pure := Run.pure
  bind := Run.bind

def emit (e : Event) : Run Unit := ⟨[e], .ok ()⟩

def Run.lift {α : Type} (x : Except Fault α) : Run α := ⟨[], x⟩

/-! ## Construction -/

/-- The initial content of the vertex buffer (bottom left, top left, top
right, bottom right). -/
def initial_vertex_data : Fin 4 → VertexData :=
  fun i =>
    if i = 0 then ⟨-1, -1, 0, 0, 1⟩
    else if i = 1 then ⟨-1, 1, 0, 0, 0⟩
    else if i = 2 then ⟨1, 1, 0, 1, 0⟩
    else ⟨1, -1, 0, 1, 1⟩

/-- The initial content of the index buffer (clockwise indexing). -/
def initial_indices : List Nat := [0, 1, 2, 3, 0, 2]

/-- One round of the pixel-shader loop of
`gst_d3d11_color_convert_setup_shader`: `none` when the function returns FALSE
in this round, otherwise `some ps[i]`. -/
def setup_shader_pixel_shader (device : GstD3D11Device) (convert_info : ConvertInfo)
    (templ : PixelShaderTemplate) (i : Fin 2) : Run (Option (Option PixelShaderCode)) :=
  match convert_info.ps_body i with
  | none => pure (some none)
  | some body =>
    match convert_info.ps_output i with
    | none => Run.lift (.error .assert_ps_output_not_null)
    | some output => do
      let shader_code : PixelShaderCode :=
        ⟨templ.constant_buffer, output, templ.func, body⟩
      emit (.create_pixel_shader shader_code)
      if !device.create_pixel_shader_ok shader_code then pure none
      else pure (some (some shader_code))

/-- `gst_d3d11_quad_new` with the arguments the converter passes
(`sizeof (VertexData)` is five 4-byte floats). -/
def gst_d3d11_quad_new (ps : Option PixelShaderCode)
    (const_buffer : Option PixelShaderColorTransform) : GstD3D11Quad :=
  ⟨ps, const_buffer, 20, initial_indices, 2 * 3⟩

/-- The tail of `gst_d3d11_color_convert_setup_shader`, from the creation of
the vertex shader on. -/
def setup_shader_geometry (self : GstD3D11Converter) (device : GstD3D11Device)
    (in_info out_info : GstVideoInfo) (ps : Fin 2 → Option PixelShaderCode)
    (const_buffer : Option PixelShaderColorTransform) :
    Run (Bool × GstD3D11Converter) := do
  emit .create_vertex_shader
  if !device.create_vertex_shader_ok then
    emit (.GST_ERROR .create_vertex_shader)
    pure (false, self)
  else
    emit (.CreateBuffer .vertex)
    if !device.CreateBuffer_ok .vertex then
      emit (.GST_ERROR .create_vertex_buffer)
      pure (false, self)
    else
      emit (.CreateBuffer .index)
      if !device.CreateBuffer_ok .index then
        emit (.GST_ERROR .create_index_buffer)
        pure (false, self)
      else
        emit .device_lock
        emit (.Map .vertex)
        if !device.Map_ok .vertex then
          emit (.GST_ERROR .map_vertex_buffer)
          emit .device_unlock
          pure (false, self)
        else
          emit (.Map .index)
          if !device.Map_ok .index then
            emit (.GST_ERROR .map_index_buffer)
            emit (.Unmap .vertex)
            emit .device_unlock
            pure (false, self)
          else
            emit (.Unmap .vertex)
            emit (.Unmap .index)
            emit .device_unlock
            emit (.quad_new 0)
            let quad := Function.update self.quad 0
              (some (gst_d3d11_quad_new (ps 0) const_buffer))
            let self := { self with quad := quad }
            let self ←
              match ps 1 with
              | some _ => do
                emit (.quad_new 1)
                pure { self with
                  quad := Function.update self.quad 1
                    (some (gst_d3d11_quad_new (ps 1) const_buffer)) }
              | none => pure self
            pure (true, { self with
              num_input_view := GST_VIDEO_INFO_N_PLANES in_info
              num_output_view := GST_VIDEO_INFO_N_PLANES out_info
              vertex_buffer := some initial_vertex_data
              src_rect := ⟨0, 0, GST_VIDEO_INFO_WIDTH in_info, GST_VIDEO_INFO_HEIGHT in_info⟩
              dest_rect := ⟨0, 0, GST_VIDEO_INFO_WIDTH out_info, GST_VIDEO_INFO_HEIGHT out_info⟩
              input_texture_width := GST_VIDEO_INFO_WIDTH in_info
              input_texture_height := GST_VIDEO_INFO_HEIGHT in_info })

/-- The constant-buffer block of `gst_d3d11_color_convert_setup_shader`:
`none` when the function returns FALSE there, otherwise `some const_buffer`
(the buffer content, or NULL when the template has no constant buffer). -/
def setup_shader_const_buffer (device : GstD3D11Device) (convert_info : ConvertInfo)
    (templ : PixelShaderTemplate) : Run (Option (Option PixelShaderColorTransform)) :=
  match templ.constant_buffer with
  | none => pure (some none)
  | some _ => do
    emit (.CreateBuffer .constant)
    if !device.CreateBuffer_ok .constant then
      emit (.GST_ERROR .create_constant_buffer)
      pure none
    else
      emit .device_lock
      emit (.Map .constant)
      if !device.Map_ok .constant then
        emit (.GST_ERROR .map_constant_buffer)
        emit .device_unlock
        pure none
      else
        emit (.memcpy_transform convert_info.transform)
        emit (.Unmap .constant)
        emit .device_unlock
        pure (some (some convert_info.transform))

/-- `gst_d3d11_color_convert_setup_shader`: its result and the new value of
`*self`. The template pointer set by the classifier is dereferenced; the
function is only called after an accepted classification, which always sets
it, and a NULL template is treated as no constant buffer and no function. -/
def gst_d3d11_color_convert_setup_shader (self : GstD3D11Converter)
    (device : GstD3D11Device) (in_info out_info : GstVideoInfo) :
    Run (Bool × GstD3D11Converter) := do
  let convert_info := self.convert_info
  let templ := convert_info.templ.getD ⟨none, none⟩
  emit .CreateSamplerState
  if !device.CreateSamplerState_ok then
    emit (.GST_ERROR .create_sampler_state)
    pure (false, self)
  else
    match ← setup_shader_pixel_shader device convert_info templ 0 with
    | none => pure (false, self)
    | some ps0 =>
      match ← setup_shader_pixel_shader device convert_info templ 1 with
      | none => pure (false, self)
      | some ps1 =>
        let ps : Fin 2 → Option PixelShaderCode := fun i => if i = 0 then ps0 else ps1
        match ← setup_shader_const_buffer device convert_info templ with
        | none => pure (false, self)
        | some const_buffer =>
          setup_shader_geometry self device in_info out_info ps const_buffer

/-- `gst_d3d11_converter_free` leaves no converter behind; only the call is
recorded. -/
def gst_d3d11_converter_free (_converter : GstD3D11Converter) : Run Unit :=
  emit .converter_free

/-- Array store `viewport[i] = v` for an index below `GST_VIDEO_MAX_PLANES`. -/
def viewport_store (vp : Fin 4 → D3D11_VIEWPORT) (i : Nat) (v : D3D11_VIEWPORT) :
    Fin 4 → D3D11_VIEWPORT :=
  if h : i < 4 then Function.update vp ⟨i, h⟩ v else vp

/-- Body of the viewport loop of `gst_d3d11_converter_new_internal`. -/
def new_internal_viewport (out_info : GstVideoInfo) (vp : Fin 4 → D3D11_VIEWPORT)
    (i : Nat) : Fin 4 → D3D11_VIEWPORT :=
  if h : i < 4 then
    Function.update vp ⟨i, h⟩
      ⟨0, 0, (GST_VIDEO_INFO_COMP_WIDTH out_info ⟨i, h⟩ : ℚ),
        (GST_VIDEO_INFO_COMP_HEIGHT out_info ⟨i, h⟩ : ℚ), 0, 1⟩
  else vp

/-- The stores into `transform->trans_matrix` after `converter_get_matrix`
returned TRUE. -/
def store_trans_matrix (transform : PixelShaderColorTransform) (matrix : MatrixData) :
    PixelShaderColorTransform :=
  let t := transform.trans_matrix
  let t := Function.update t 0 (matrix.dm 0 0)
  let t := Function.update t 1 (matrix.dm 0 1)
  let t := Function.update t 2 (matrix.dm 0 2)
  let t := Function.update t 3 0
  let t := Function.update t 4 (matrix.dm 1 0)
  let t := Function.update t 5 (matrix.dm 1 1)
  let t := Function.update t 6 (matrix.dm 1 2)
  let t := Function.update t 7 0
  let t := Function.update t 8 (matrix.dm 2 0)
  let t := Function.update t 9 (matrix.dm 2 1)
  let t := Function.update t 10 (matrix.dm 2 2)
  let t := Function.update t 11 0
  { transform with trans_matrix := t }

/-- The `format_unknown` exit of `gst_d3d11_converter_new_internal`. -/
def format_unknown (unknown_info : GstVideoInfo) : Run (Option GstD3D11Converter) := do
  emit (.GST_ERROR (.format_unknown (GST_VIDEO_INFO_FORMAT unknown_info)))
  pure none

/-- The `conversion_not_supported` exit. -/
def conversion_not_supported (converter : GstD3D11Converter)
    (in_info out_info : GstVideoInfo) : Run (Option GstD3D11Converter) := do
  emit (.GST_ERROR (.conversion_not_supported (GST_VIDEO_INFO_FORMAT in_info)
    (GST_VIDEO_INFO_FORMAT out_info)))
  gst_d3d11_converter_free converter
  pure none

/-- `gst_d3d11_converter_new_internal`: `none` is the NULL converter. -/
def gst_d3d11_converter_new_internal (lib : GstVideoLib) (device : GstD3D11Device)
    (in_info out_info : GstVideoInfo) (alpha : ℚ) : Run (Option GstD3D11Converter) := do
  emit (.device_format_from_gst (GST_VIDEO_INFO_FORMAT in_info))
  match gst_d3d11_device_format_from_gst device (GST_VIDEO_INFO_FORMAT in_info) with
  | none => format_unknown in_info
  | some _ =>
    emit (.device_format_from_gst (GST_VIDEO_INFO_FORMAT out_info))
    match gst_d3d11_device_format_from_gst device (GST_VIDEO_INFO_FORMAT out_info) with
    | none => format_unknown out_info
    | some _ =>
      let converter := g_new0_converter device alpha
      emit .setup_convert_info
      let (is_supported, convert_info) ←
        Run.lift (converter_classify converter in_info out_info)
      let converter := { converter with convert_info := convert_info }
      if !is_supported then conversion_not_supported converter in_info out_info
      else
        emit .converter_get_matrix
        let (has_matrix, matrix) := converter_get_matrix lib in_info out_info
        let converter :=
          if has_matrix then
            { converter with
              convert_info := { converter.convert_info with
                transform := store_trans_matrix converter.convert_info.transform matrix } }
          else converter
        let converter := { converter with
          viewport := (List.range (GST_VIDEO_INFO_N_PLANES out_info)).foldl
            (new_internal_viewport out_info) converter.viewport }
        let (ret, converter) ←
          gst_d3d11_color_convert_setup_shader converter device in_info out_info
        if !ret then
          emit (.GST_ERROR .setup_shader)
          gst_d3d11_converter_free converter
          pure none
        else
          pure (some { converter with in_info := in_info, out_info := out_info })

def gst_d3d11_converter_new (lib : GstVideoLib) (device : GstD3D11Device)
    (in_info out_info : GstVideoInfo) : Run (Option GstD3D11Converter) :=
  gst_d3d11_converter_new_internal lib device in_info out_info 1

/-- `gst_d3d11_converter_new_with_alpha`; a failed `g_return_val_if_fail`
logs a warning and returns NULL. -/
def gst_d3d11_converter_new_with_alpha (lib : GstVideoLib) (device : GstD3D11Device)
    (in_info out_info : GstVideoInfo) (alpha : ℚ) : Run (Option GstD3D11Converter) :=
  if ¬ (alpha ≥ 0) then do
    emit (.return_if_fail_warning .alpha_ge_0)
    pure none
  else if ¬ (alpha ≤ 1) then do
    emit (.return_if_fail_warning .alpha_le_1)
    pure none
  else gst_d3d11_converter_new_internal lib device in_info out_info alpha

/-- The converter `gst_d3d11_color_convert_setup_shader` leaves when it
returns TRUE, given the quads it created. -/
def setup_shader_done (self : GstD3D11Converter) (in_info out_info : GstVideoInfo)
    (quad : Fin 2 → Option GstD3D11Quad) : GstD3D11Converter :=
  { self with
    quad := quad
    num_input_view := GST_VIDEO_INFO_N_PLANES in_info
    num_output_view := GST_VIDEO_INFO_N_PLANES out_info
    vertex_buffer := some initial_vertex_data
    src_rect := ⟨0, 0, GST_VIDEO_INFO_WIDTH in_info, GST_VIDEO_INFO_HEIGHT in_info⟩
    dest_rect := ⟨0, 0, GST_VIDEO_INFO_WIDTH out_info, GST_VIDEO_INFO_HEIGHT out_info⟩
    input_texture_width := GST_VIDEO_INFO_WIDTH in_info
    input_texture_height := GST_VIDEO_INFO_HEIGHT in_info }

/-- The viewports `gst_d3d11_converter_new_internal` computes for an output. -/
def new_internal_viewports (out_info : GstVideoInfo) : Fin 4 → D3D11_VIEWPORT :=
  (List.range (GST_VIDEO_INFO_N_PLANES out_info)).foldl (new_internal_viewport out_info)
    (fun _ => ⟨0, 0, 0, 0, 0, 0⟩)

/-- The plan `gst_d3d11_converter_new_internal` keeps: the classified plan with
the transform stored when `converter_get_matrix` reports one. -/
def new_internal_convert_info (lib : GstVideoLib) (in_info out_info : GstVideoInfo)
    (info : ConvertInfo) : ConvertInfo :=
  if (converter_get_matrix lib in_info out_info).1 then
    { info with
      transform := store_trans_matrix info.transform
        (converter_get_matrix lib in_info out_info).2 }
  else info

/-! ## Viewport mutator -/

/-- `gst_d3d11_converter_update_viewport`: its result and the new value of
`*converter`. -/
def gst_d3d11_converter_update_viewport (converter : GstD3D11Converter)
    (viewport : D3D11_VIEWPORT) : Except Fault (Bool × GstD3D11Converter) :=
  let vp := Function.update converter.viewport 0 viewport
  match GST_VIDEO_INFO_FORMAT converter.out_info with
  | .NV12 | .P010_10LE | .P016_LE | .I420 | .I420_10LE =>
    let vp := Function.update vp 1 { vp 1 with TopLeftX := (vp 0).TopLeftX / 2 }
    let vp := Function.update vp 1 { vp 1 with TopLeftY := (vp 0).TopLeftY / 2 }
    let vp := Function.update vp 1 { vp 1 with Width := (vp 0).Width / 2 }
    let vp := Function.update vp 1 { vp 1 with Height := (vp 0).Height / 2 }
    let n := GST_VIDEO_INFO_N_PLANES converter.out_info
    let vp := (List.range' 2 (n - 2)).foldl (fun vp i => viewport_store vp i (vp 1)) vp
    .ok (true, { converter with viewport := vp })
  | _ =>
    if converter.num_output_view > 1 then .error .assert_not_reached_viewport
    else .ok (true, { converter with viewport := vp })

/-! ## Per-frame conversion and the rectangle mutators -/

/-- `(guint) x` for a `gint`: the value modulo `2 ^ 32`. -/
def guint_of_gint (x : Int) : Nat := (x % 2 ^ 32).toNat

/-- The `gint` a `guint`/`UINT` converts to: the two's-complement reading. -/
def gint_of_guint (n : Nat) : Int :=
  if n % 2 ^ 32 < 2 ^ 31 then ((n % 2 ^ 32 : Nat) : Int) else ((n % 2 ^ 32 : Nat) : Int) - 2 ^ 32

/-- `a - b` on `guint`. -/
def guint_sub (a b : Nat) : Nat := (a + 2 ^ 32 - b % 2 ^ 32) % 2 ^ 32

/-- The fields of `D3D11_TEXTURE2D_DESC` the converter reads (both `UINT`). -/
structure D3D11_TEXTURE2D_DESC where
  Width : Nat
  Height : Nat
  deriving DecidableEq, Repr

/-- What the GPU answers during one convert call: the description of the
texture behind `srv[0]`, whether mapping the vertex buffer succeeds, and the
result of `gst_d3d11_draw_quad_unlocked` for each quad. -/
structure FrameOutcome where
  desc : D3D11_TEXTURE2D_DESC
  map_vertex_ok : Bool
  draw_ok : Fin 2 → Bool

/-- `gst_util_fraction_to_double` of the video library: the quotient (the
library leaves the destination untouched for a zero denominator; the
quotient is then taken as 0). -/
def gst_util_fraction_to_double (src_n src_d : Int) : ℚ := (src_n : ℚ) / (src_d : ℚ)

/-- The four vertices `gst_d3d11_converter_update_vertex_buffer` writes. -/
def update_vertex_data (self : GstD3D11Converter) : Fin 4 → VertexData :=
  let src_rect := self.src_rect
  let dest_rect := self.dest_rect
  let texture_width : ℚ := self.input_texture_width
  let texture_height : ℚ := self.input_texture_height
  let val := gst_util_fraction_to_double dest_rect.left (GST_VIDEO_INFO_WIDTH self.out_info)
  let x1 := (val * 2) - 1
  let val := gst_util_fraction_to_double dest_rect.bottom
    (GST_VIDEO_INFO_HEIGHT self.out_info)
  let y1 := (val * -2) + 1
  let val := gst_util_fraction_to_double dest_rect.right (GST_VIDEO_INFO_WIDTH self.out_info)
  let x2 := (val * 2) - 1
  let val := gst_util_fraction_to_double dest_rect.top (GST_VIDEO_INFO_HEIGHT self.out_info)
  let y2 := (val * -2) + 1
  /- bottom left -/
  let u0 := ((src_rect.left : ℚ) / texture_width) - (1 / 2) / texture_width
  let v0 := ((src_rect.bottom : ℚ) / texture_height) - (1 / 2) / texture_height
  /- top left -/
  let u1 := ((src_rect.left : ℚ) / texture_width) - (1 / 2) / texture_width
  let v1 := ((src_rect.top : ℚ) / texture_height) - (1 / 2) / texture_height
  /- top right -/
  let u2 := ((src_rect.right : ℚ) / texture_width) - (1 / 2) / texture_width
  let v2 := ((src_rect.top : ℚ) / texture_height) - (1 / 2) / texture_height
  /- bottom right -/
  let u3 := ((src_rect.right : ℚ) / texture_width) - (1 / 2) / texture_width
  let v3 := ((src_rect.bottom : ℚ) / texture_height) - (1 / 2) / texture_height
  fun i =>
    if i = 0 then ⟨x1, y1, 0, u0, v0⟩
    else if i = 1 then ⟨x1, y2, 0, u1, v1⟩
    else if i = 2 then ⟨x2, y2, 0, u2, v2⟩
    else ⟨x2, y1, 0, u3, v3⟩

/-- `gst_d3d11_converter_update_vertex_buffer`: its result and the new value
of `*self`; `map_ok` is the outcome of mapping the vertex buffer. -/
def gst_d3d11_converter_update_vertex_buffer (self : GstD3D11Converter) (map_ok : Bool) :
    Run (Bool × GstD3D11Converter) := do
  emit (.Map .vertex)
  if !map_ok then
    emit (.GST_ERROR .map_vertex_buffer)
    pure (false, self)
  else
    let vertex_data := update_vertex_data self
    emit (.Unmap .vertex)
    pure (true, { self with vertex_buffer := some vertex_data, update_vertex := false })

/-- The two draws of `gst_d3d11_converter_convert_unlocked`. -/
def convert_unlocked_draw (converter : GstD3D11Converter) (frame : FrameOutcome) :
    Run (Bool × GstD3D11Converter) := do
  emit (.draw_quad ⟨0, converter.viewport, 0, 1, converter.num_input_view, 0, 1⟩)
  if !frame.draw_ok 0 then pure (false, converter)
  else
    match converter.quad 1 with
    | some _ => do
      emit (.draw_quad ⟨1, converter.viewport, 1, guint_sub converter.num_output_view 1,
        converter.num_input_view, 1, guint_sub converter.num_output_view 1⟩)
      if !frame.draw_ok 1 then pure (false, converter)
      else pure (true, converter)
    | none => pure (true, converter)

/-- Whether `gst_d3d11_converter_convert_unlocked` updates the vertex buffer. -/
def convert_needs_update (converter : GstD3D11Converter) (desc : D3D11_TEXTURE2D_DESC) :
    Bool :=
  converter.update_vertex ||
    decide (desc.Width ≠ guint_of_gint converter.input_texture_width) ||
    decide (desc.Height ≠ guint_of_gint converter.input_texture_height)

/-- `gst_d3d11_converter_convert_unlocked`: its result and the new value of
`*converter`. -/
def gst_d3d11_converter_convert_unlocked (converter : GstD3D11Converter)
    (frame : FrameOutcome) : Run (Bool × GstD3D11Converter) := do
  let desc := frame.desc
  if convert_needs_update converter desc then
    let converter := { converter with
      input_texture_width := gint_of_guint desc.Width
      input_texture_height := gint_of_guint desc.Height }
    let (ok, converter) ←
      gst_d3d11_converter_update_vertex_buffer converter frame.map_vertex_ok
    if !ok then
      emit (.GST_ERROR .update_vertex_buffer)
      pure (false, converter)
    else convert_unlocked_draw converter frame
  else convert_unlocked_draw converter frame

/-- The converter after the stores of the texture size. -/
def with_texture_size (converter : GstD3D11Converter) (desc : D3D11_TEXTURE2D_DESC) :
    GstD3D11Converter :=
  { converter with
    input_texture_width := gint_of_guint desc.Width
    input_texture_height := gint_of_guint desc.Height }

/-- The converter after a successful update of the vertex buffer. -/
def with_rebuilt_geometry (converter : GstD3D11Converter) (desc : D3D11_TEXTURE2D_DESC) :
    GstD3D11Converter :=
  { with_texture_size converter desc with
    vertex_buffer := some (update_vertex_data (with_texture_size converter desc))
    update_vertex := false }

/-- `gst_d3d11_converter_convert`. -/
def gst_d3d11_converter_convert (converter : GstD3D11Converter) (frame : FrameOutcome) :
    Run (Bool × GstD3D11Converter) := do
  emit .device_lock
  let ret ← gst_d3d11_converter_convert_unlocked converter frame
  emit .device_unlock
  pure ret

/-- `gst_d3d11_converter_update_src_rect`: its result and the new value of
`*converter`. -/
def gst_d3d11_converter_update_src_rect (converter : GstD3D11Converter) (src_rect : RECT) :
    Bool × GstD3D11Converter :=
  if converter.src_rect.left ≠ src_rect.left ∨ converter.src_rect.top ≠ src_rect.top ∨
      converter.src_rect.right ≠ src_rect.right ∨
      converter.src_rect.bottom ≠ src_rect.bottom then
    (true, { converter with src_rect := src_rect, update_vertex := true })
  else (true, converter)

/-- `gst_d3d11_converter_update_dest_rect`: its result and the new value of
`*converter`. -/
def gst_d3d11_converter_update_dest_rect (converter : GstD3D11Converter) (dest_rect : RECT) :
    Bool × GstD3D11Converter :=
  if converter.dest_rect.left ≠ dest_rect.left ∨ converter.dest_rect.top ≠ dest_rect.top ∨
      converter.dest_rect.right ≠ dest_rect.right ∨
      converter.dest_rect.bottom ≠ dest_rect.bottom then
    (true, { converter with dest_rect := dest_rect, update_vertex := true })
  else (true, converter)

/-! ## Concrete inputs -/

/-- A concrete video library for the runs below: the range offsets and the
Kr/Kb coefficients of the base video library (narrow range 16..235 scaled to
the depth, chroma centred at half range; BT601, BT709, BT2020, FCC and
SMPTE240M coefficients, none for RGB and UNKNOWN). -/
def gst_video_lib : GstVideoLib where
  color_range_offsets := fun range info =>
    let yuv := decide (info.flags = .YUV)
    match range with
    | .RANGE_16_235 =>
      if yuv then
        (fun i => if i = 0 then 2 ^ (info.depth 0 - 4)
                  else if i = 3 then 0 else 2 ^ (info.depth i - 1),
         fun i => if i = 0 then 219 * 2 ^ (info.depth 0 - 8)
                  else if i = 3 then 2 ^ info.depth 3 - 1 else 224 * 2 ^ (info.depth i - 8))
      else
        (fun i => if i = 3 then 0 else 2 ^ (info.depth i - 4),
         fun i => if i = 3 then 2 ^ info.depth 3 - 1 else 219 * 2 ^ (info.depth i - 8))
    | _ =>
      (fun i => if i = 0 ∨ i = 3 then 0 else if yuv then 2 ^ (info.depth i - 1) else 0,
       fun i => 2 ^ info.depth i - 1)
  color_matrix_get_Kr_Kb := fun m =>
    match m with
    | .FCC => some (30 / 100, 11 / 100)
    | .BT709 => some (2126 / 10000, 722 / 10000)
    | .BT601 => some (2990 / 10000, 1140 / 10000)
    | .SMPTE240M => some (212 / 1000, 87 / 1000)
    | .BT2020 => some (2627 / 10000, 593 / 10000)
    | _ => none

/-- A device that maps the formats the converter names (YUY2 through
`R8G8B8A8_UNORM`) and on which every creation call succeeds. -/
def full_device : GstD3D11Device where
  format_from_gst := fun f =>
    match f with
    | .RGBA => some ⟨.RGBA, .R8G8B8A8_UNORM, fun _ => .R8G8B8A8_UNORM⟩
    | .BGRA => some ⟨.BGRA, .B8G8R8A8_UNORM, fun _ => .B8G8R8A8_UNORM⟩
    | .RGB10A2_LE => some ⟨.RGB10A2_LE, .R10G10B10A2_UNORM, fun _ => .R10G10B10A2_UNORM⟩
    | .VUYA => some ⟨.VUYA, .AYUV, fun _ => .R8G8B8A8_UNORM⟩
    | .NV12 => some ⟨.NV12, .NV12, fun i => if i = 0 then .R8_UNORM else .R8G8_UNORM⟩
    | .P010_10LE => some ⟨.P010_10LE, .P010, fun i => if i = 0 then .R16_UNORM else .R16G16_UNORM⟩
    | .P016_LE => some ⟨.P016_LE, .P016, fun i => if i = 0 then .R16_UNORM else .R16G16_UNORM⟩
    | .I420 => some ⟨.I420, .UNKNOWN, fun _ => .R8_UNORM⟩
    | .I420_10LE => some ⟨.I420_10LE, .UNKNOWN, fun _ => .R16_UNORM⟩
    | .YUY2 => some ⟨.YUY2, .YUY2, fun _ => .R8G8B8A8_UNORM⟩
    | .UYVY => some ⟨.UYVY, .UNKNOWN, fun _ => .G8R8_G8B8_UNORM⟩
    | .VYUY => some ⟨.VYUY, .UNKNOWN, fun _ => .G8R8_G8B8_UNORM⟩
    | .Y210 => some ⟨.Y210, .Y210, fun _ => .R16G16B16A16_UNORM⟩
    | .Y410 => some ⟨.Y410, .Y410, fun _ => .R10G10B10A2_UNORM⟩
    | _ => none
  CreateSamplerState_ok := true
  create_pixel_shader_ok := fun _ => true
  create_vertex_shader_ok := true
  CreateBuffer_ok := fun _ => true
  Map_ok := fun _ => true

/-- A video info of the given format and matrix, 640x480, narrow range. -/
def video_info (format : GstVideoFormat) (matrix : GstVideoColorMatrix) : GstVideoInfo :=
  ⟨format, 640, 480, ⟨.RANGE_16_235, matrix⟩⟩

/-- The converter built for RGBA -> NV12 at 640x480 on `full_device`. -/
def sample_converter : GstD3D11Converter :=
  match (gst_d3d11_converter_new gst_video_lib full_device
      (video_info .RGBA .RGB) (video_info .NV12 .BT709)).result with
  | .ok (some converter) => converter
  | _ => g_new0_converter full_device 1

/-- A frame whose input texture is 640x480 and on which every GPU call
succeeds. -/
def sample_frame : FrameOutcome := ⟨⟨640, 480⟩, true, fun _ => true⟩

/-! ## Reading a plan -/

/-- The render targets body `i` of a plan declares (none when the body is
absent). -/
def body_render_targets (info : ConvertInfo) (i : Fin 2) : Nat :=
  match info.ps_body i, info.ps_output i with
  | some _, some o => o.render_targets
  | _, _ => 0

/-- The render targets a plan declares, over its `CONVERTER_MAX_QUADS` bodies. -/
def plan_render_targets (info : ConvertInfo) : Nat :=
  body_render_targets info 0 + body_render_targets info 1

/-- The integers body `i` of a plan substitutes at the conversion
specifications of kind `s`. -/
def body_factors (info : ConvertInfo) (s : Slot) (i : Fin 2) : List Int :=
  match info.ps_body i with
  | some b => b.factors s
  | none => []

/-- The integers a plan substitutes at the conversion specifications of kind
`s`, over both bodies. -/
def plan_factors (info : ConvertInfo) (s : Slot) : List Int :=
  body_factors info s 0 ++ body_factors info s 1

/-! ## The transform in matrix form

The matrices of the specification, as 4x4 matrices over the rationals, to be
compared with the working matrix the code computes. -/

/-- The working matrix as a matrix. -/
def MatrixData.toMatrix (m : MatrixData) : Matrix (Fin 4) (Fin 4) ℚ := Matrix.of m.dm

/-- `T (a1, a2, a3)`: the identity with `(a1, a2, a3)` in its last column. -/
def spec_T (a1 a2 a3 : ℚ) : Matrix (Fin 4) (Fin 4) ℚ :=
  !![1, 0, 0, a1; 0, 1, 0, a2; 0, 0, 1, a3; 0, 0, 0, 1]

/-- `S (a1, a2, a3)`: the diagonal matrix `diag (a1, a2, a3, 1)`. -/
def spec_S (a1 a2 a3 : ℚ) : Matrix (Fin 4) (Fin 4) ℚ :=
  !![a1, 0, 0, 0; 0, a2, 0, 0; 0, 0, a3, 0; 0, 0, 0, 1]

/-- The YCbCr -> RGB rotation for the luma coefficients `Kr`, `Kb`. -/
def spec_YCbCr_to_RGB (Kr Kb : ℚ) : Matrix (Fin 4) (Fin 4) ℚ :=
  !![1, 0, 2 * (1 - Kr), 0;
     1, -2 * Kb * (1 - Kb) / (1 - Kr - Kb), -2 * Kr * (1 - Kr) / (1 - Kr - Kb), 0;
     1, 2 * (1 - Kb), 0, 0;
     0, 0, 0, 1]

/-- The RGB -> YCbCr rotation for the luma coefficients `Kr`, `Kb`. -/
def spec_RGB_to_YCbCr (Kr Kb : ℚ) : Matrix (Fin 4) (Fin 4) ℚ :=
  !![Kr, 1 - Kr - Kb, Kb, 0;
     -(1 / (2 * (1 - Kb))) * Kr, -(1 / (2 * (1 - Kb))) * (1 - Kr - Kb),
       1 / (2 * (1 - Kb)) * (1 - Kb), 0;
     1 / (2 * (1 - Kr)) * (1 - Kr), -(1 / (2 * (1 - Kr))) * (1 - Kr - Kb),
       -(1 / (2 * (1 - Kr))) * Kb, 0;
     0, 0, 0, 1]

/-- `K_in`: the YCbCr -> RGB rotation when the format is YUV with known
Kr/Kb, the identity otherwise. -/
def spec_K_in (lib : GstVideoLib) (info : GstVideoInfo) : Matrix (Fin 4) (Fin 4) ℚ :=
  if GST_VIDEO_INFO_IS_YUV info then
    match lib.color_matrix_get_Kr_Kb info.colorimetry.matrix with
    | some (Kr, Kb) => spec_YCbCr_to_RGB Kr Kb
    | none => 1
  else 1

/-- `K'_out`: the RGB -> YCbCr rotation when the format is YUV with known
Kr/Kb, the identity otherwise. -/
def spec_K_out (lib : GstVideoLib) (info : GstVideoInfo) : Matrix (Fin 4) (Fin 4) ℚ :=
  if GST_VIDEO_INFO_IS_YUV info then
    match lib.color_matrix_get_Kr_Kb info.colorimetry.matrix with
    | some (Kr, Kb) => spec_RGB_to_YCbCr Kr Kb
    | none => 1
  else 1

/-- `ToRGB (in) = K_in * S (1 / scale_in) * T (-offset_in)`. -/
def spec_ToRGB (lib : GstVideoLib) (info : GstVideoInfo) : Matrix (Fin 4) (Fin 4) ℚ :=
  let offset := (lib.color_range_offsets info.colorimetry.range info.finfo).1
  let scale := (lib.color_range_offsets info.colorimetry.range info.finfo).2
  spec_K_in lib info *
    spec_S (1 / (scale 0 : ℚ)) (1 / (scale 1 : ℚ)) (1 / (scale 2 : ℚ)) *
    spec_T (-(offset 0 : ℚ)) (-(offset 1 : ℚ)) (-(offset 2 : ℚ))

/-- `ToYUV (out) = T (offset_out) * S (scale_out) * K'_out`. -/
def spec_ToYUV (lib : GstVideoLib) (info : GstVideoInfo) : Matrix (Fin 4) (Fin 4) ℚ :=
  let offset := (lib.color_range_offsets info.colorimetry.range info.finfo).1
  let scale := (lib.color_range_offsets info.colorimetry.range info.finfo).2
  spec_T (offset 0 : ℚ) (offset 1 : ℚ) (offset 2 : ℚ) *
    spec_S (scale 0 : ℚ) (scale 1 : ℚ) (scale 2 : ℚ) *
    spec_K_out lib info

/-- `Q`: `diag (1 / 2 ^ (out_bits - in_bits))` on the colour components when
`in_bits < out_bits`, the identity otherwise. -/
def spec_Q (in_info out_info : GstVideoInfo) : Matrix (Fin 4) (Fin 4) ℚ :=
  let in_bits := GST_VIDEO_INFO_COMP_DEPTH in_info 0
  let out_bits := GST_VIDEO_INFO_COMP_DEPTH out_info 0
  if in_bits < out_bits then
    spec_S (1 / 2 ^ (out_bits - in_bits)) (1 / 2 ^ (out_bits - in_bits))
      (1 / 2 ^ (out_bits - in_bits))
  else 1

/-- `P`: `diag (2 ^ (in_bits - out_bits))` on the colour components when
`in_bits > out_bits`, the identity otherwise. -/
def spec_P (in_info out_info : GstVideoInfo) : Matrix (Fin 4) (Fin 4) ℚ :=
  let in_bits := GST_VIDEO_INFO_COMP_DEPTH in_info 0
  let out_bits := GST_VIDEO_INFO_COMP_DEPTH out_info 0
  if in_bits > out_bits then
    spec_S (2 ^ (in_bits - out_bits)) (2 ^ (in_bits - out_bits)) (2 ^ (in_bits - out_bits))
  else 1

/-! ## Aliasing in the matrix builder -/

/-- `color_matrix_multiply (dst, a, b)` on a store of matrices addressed by
pointer: `a` and `b` are read through the store while the product is
accumulated in the local `tmp`, and only then is `tmp` copied to `dst`, which
may be the same pointer as `a` or `b`. -/
def color_matrix_multiply_at {Ptr : Type} [DecidableEq Ptr] (mem : Ptr → MatrixData)
    (dst a b : Ptr) : Ptr → MatrixData :=
  let tmp : MatrixData :=
    ⟨fun i j => (List.finRange 4).foldl (fun x k => x + (mem a).dm i k * (mem b).dm k j) 0⟩
  Function.update mem dst (color_matrix_copy tmp)

/-- `color_matrix_offset_components (m, a1, a2, a3)` on a store: the local
matrix `a` has an address of its own (`none`), and the call is
`color_matrix_multiply (m, &a, m)`. -/
def color_matrix_offset_components_at {Ptr : Type} [DecidableEq Ptr]
    (mem : Ptr → MatrixData) (m : Ptr) (a1 a2 a3 : ℚ) : Ptr → MatrixData :=
  let a := color_matrix_set_identity
  let a := a.set 0 3 a1
  let a := a.set 1 3 a2
  let a := a.set 2 3 a3
  let stack : Option Ptr → MatrixData := fun p =>
    match p with
    | none => a
    | some p => mem p
  fun p => color_matrix_multiply_at stack (some m) none (some m) (some p)

/-- `color_matrix_scale_components (m, a1, a2, a3)` on a store, as
`color_matrix_offset_components_at`. -/
def color_matrix_scale_components_at {Ptr : Type} [DecidableEq Ptr]
    (mem : Ptr → MatrixData) (m : Ptr) (a1 a2 a3 : ℚ) : Ptr → MatrixData :=
  let a := color_matrix_set_identity
  let a := a.set 0 0 a1
  let a := a.set 1 1 a2
  let a := a.set 2 2 a3
  let stack : Option Ptr → MatrixData := fun p =>
    match p with
    | none => a
    | some p => mem p
  fun p => color_matrix_multiply_at stack (some m) none (some m) (some p)

/-! ## Reading the geometry -/

/-- The signed area of the triangle `a b c` in the position plane with y up:
positive for a counter-clockwise triangle, negative for a clockwise one. -/
def signed_area (a b c : VertexData) : ℚ :=
  ((b.position_x - a.position_x) * (c.position_y - a.position_y)
    - (c.position_x - a.position_x) * (b.position_y - a.position_y)) / 2

/-- The triangles an index list describes, three indices each. -/
def index_triangles : List Nat → List (Nat × Nat × Nat)
  | i :: j :: k :: rest => (i, j, k) :: index_triangles rest
  | _ => []

/-- The vertex an index names in a buffer of four vertices. -/
def vertex_of (vertex_data : Fin 4 → VertexData) (n : Nat) : VertexData :=
  if h : n < 4 then vertex_data ⟨n, h⟩ else vertex_data 0

/-- The signed area of a triangle of the index list. -/
def triangle_area (vertex_data : Fin 4 → VertexData) (t : Nat × Nat × Nat) : ℚ :=
  signed_area (vertex_of vertex_data t.1) (vertex_of vertex_data t.2.1)
    (vertex_of vertex_data t.2.2)

/-- The number of bodies of a plan. -/
def plan_bodies (info : ConvertInfo) : Nat :=
  (if (info.ps_body 0).isSome then 1 else 0) + (if (info.ps_body 1).isSome then 1 else 0)

/-- The number of quads a converter owns. -/
def converter_quads (converter : GstD3D11Converter) : Nat :=
  (if (converter.quad 0).isSome then 1 else 0) + (if (converter.quad 1).isSome then 1 else 0)

/-- The render-target slots a draw call binds: `num_rtv` consecutive entries
of the caller's array from `rtv_start` on. -/
def DrawCall.render_targets (call : DrawCall) : List Nat :=
  List.range' call.rtv_start call.num_rtv

/-- A device that maps every format (to single-channel 8-bit views) and on
which every creation call succeeds. -/
def wide_device : GstD3D11Device :=
  { full_device with
    format_from_gst := fun f => some ⟨f, .UNKNOWN, fun _ => .R8_UNORM⟩ }

/-! ## Reading the working matrix and the selectors -/

/-- The bottom row of the working matrix is `(0, 0, 0, 1)`. -/
def MatrixData.affine (m : MatrixData) : Prop :=
  m.dm 3 0 = 0 ∧ m.dm 3 1 = 0 ∧ m.dm 3 2 = 0 ∧ m.dm 3 3 = 1

instance (m : MatrixData) : Decidable m.affine := by
  unfold MatrixData.affine
  infer_instance

/-- Two working matrices agree outside the translation column (column 3). -/
def MatrixData.linear_agree (m n : MatrixData) : Prop :=
  ∀ i j : Fin 4, j ≠ 3 → m.dm i j = n.dm i j

instance (m n : MatrixData) : Decidable (m.linear_agree n) := by
  unfold MatrixData.linear_agree
  infer_instance

/-- The video library `gst_video_lib` with every range offset replaced by 0
(same scales, same Kr/Kb). -/
def gst_video_lib_zero_offset : GstVideoLib where
  color_range_offsets := fun range info =>
    (fun _ => 0, (gst_video_lib.color_range_offsets range info).2)
  color_matrix_get_Kr_Kb := gst_video_lib.color_matrix_get_Kr_Kb

/-- The texture channel an HLSL swizzle letter selects: `x y z w`, with
`r g b a` as aliases. -/
def swizzle_channel (c : Char) : Option (Fin 4) :=
  if c = 'x' ∨ c = 'r' then some 0
  else if c = 'y' ∨ c = 'g' then some 1
  else if c = 'z' ∨ c = 'b' then some 2
  else if c = 'w' ∨ c = 'a' then some 3
  else none

/-- The creation of the constant buffer. -/
def Event.is_constant_buffer_creation : Event → Bool
  | .CreateBuffer .constant => true
  | _ => false

/-- A frame whose input texture is 1280x720 and on which the vertex buffer
cannot be mapped. -/
def resized_frame_unmapped : FrameOutcome := ⟨⟨1280, 720⟩, false, fun _ => true⟩

/-- A frame whose input texture is 1280x720 and on which every GPU call
succeeds. -/
def resized_frame : FrameOutcome := ⟨⟨1280, 720⟩, true, fun _ => true⟩

/-! ## Properties -/

/-- C1: `gst_d3d11_converter_new_with_alpha` returns no converter for every
alpha below 0 and every alpha above 1, the only event of the run being the
warning of the failed check (no format lookup, classification or resource
creation); for every alpha in [0, 1] it is exactly
`gst_d3d11_converter_new_internal` at that alpha. -/
theorem new_with_alpha_range (lib : GstVideoLib) (device : GstD3D11Device)
    (in_info out_info : GstVideoInfo) (alpha : ℚ) :
    (alpha < 0 →
      gst_d3d11_converter_new_with_alpha lib device in_info out_info alpha
        = ⟨[.return_if_fail_warning .alpha_ge_0], .ok none⟩) ∧
    (1 < alpha →
      gst_d3d11_converter_new_with_alpha lib device in_info out_info alpha
        = ⟨[.return_if_fail_warning .alpha_le_1], .ok none⟩) ∧
    (alpha < 0 ∨ 1 < alpha →
      (gst_d3d11_converter_new_with_alpha lib device in_info out_info alpha).result
        = .ok none ∧
      ∀ e ∈ (gst_d3d11_converter_new_with_alpha lib device in_info out_info alpha).trace,
        e.is_format_lookup = false ∧ e.is_classification = false ∧
        e.is_matrix_computation = false ∧ e.is_resource_creation = false) ∧
    (0 ≤ alpha ∧ alpha ≤ 1 →
      gst_d3d11_converter_new_with_alpha lib device in_info out_info alpha
        = gst_d3d11_converter_new_internal lib device in_info out_info alpha) := by
  have h0 : alpha < 0 →
      gst_d3d11_converter_new_with_alpha lib device in_info out_info alpha
        = ⟨[.return_if_fail_warning .alpha_ge_0], .ok none⟩ := by
    intro h
    simp [gst_d3d11_converter_new_with_alpha, h, bind, Run.bind, pure, Run.pure, emit]
  have h1 : 1 < alpha →
      gst_d3d11_converter_new_with_alpha lib device in_info out_info alpha
        = ⟨[.return_if_fail_warning .alpha_le_1], .ok none⟩ := by
    intro h
    have h' : ¬ alpha < 0 := by linarith
    simp [gst_d3d11_converter_new_with_alpha, h, h', bind, Run.bind, pure, Run.pure, emit]
  refine ⟨h0, h1, ?_, ?_⟩
  · rintro (h | h)
    · rw [h0 h]; simp [Event.is_format_lookup, Event.is_classification,
        Event.is_matrix_computation, Event.is_resource_creation]
    · rw [h1 h]; simp [Event.is_format_lookup, Event.is_classification,
        Event.is_matrix_computation, Event.is_resource_creation]
  · rintro ⟨h, h'⟩
    simp [gst_d3d11_converter_new_with_alpha, h, h']

/-- C1 at the alphas -0.1, 1.1, 0.0 and 1.0 on a device where construction
would otherwise succeed. -/
theorem new_with_alpha_range_witness :
    gst_d3d11_converter_new_with_alpha gst_video_lib full_device
        (video_info .VUYA .BT709) (video_info .VUYA .BT709) (-1 / 10)
      = ⟨[.return_if_fail_warning .alpha_ge_0], .ok none⟩ ∧
    gst_d3d11_converter_new_with_alpha gst_video_lib full_device
        (video_info .VUYA .BT709) (video_info .VUYA .BT709) (11 / 10)
      = ⟨[.return_if_fail_warning .alpha_le_1], .ok none⟩ ∧
    gst_d3d11_converter_new_with_alpha gst_video_lib full_device
        (video_info .VUYA .BT709) (video_info .VUYA .BT709) 0
      = gst_d3d11_converter_new_internal gst_video_lib full_device
        (video_info .VUYA .BT709) (video_info .VUYA .BT709) 0 ∧
    gst_d3d11_converter_new_with_alpha gst_video_lib full_device
        (video_info .VUYA .BT709) (video_info .VUYA .BT709) 1
      = gst_d3d11_converter_new_internal gst_video_lib full_device
        (video_info .VUYA .BT709) (video_info .VUYA .BT709) 1 :=
  ⟨(new_with_alpha_range _ _ _ _ _).1 (by norm_num),
   (new_with_alpha_range _ _ _ _ _).2.1 (by norm_num),
   (new_with_alpha_range _ _ _ _ _).2.2.2 (by norm_num),
   (new_with_alpha_range _ _ _ _ _).2.2.2 (by norm_num)⟩

/-- C2: when the input format has no native mapping,
`gst_d3d11_converter_new_internal` returns no converter after the single
lookup of the input format and reports the input format (whatever the output
is); when the input maps and the output does not, it returns no converter
after the two lookups and reports the output format. In both cases no
classification, matrix computation or resource creation takes place. -/
theorem new_internal_format_unknown (lib : GstVideoLib) (device : GstD3D11Device)
    (in_info out_info : GstVideoInfo) (alpha : ℚ) :
    (device.format_from_gst in_info.format = none →
      gst_d3d11_converter_new_internal lib device in_info out_info alpha
        = ⟨[.device_format_from_gst in_info.format,
            .GST_ERROR (.format_unknown in_info.format)], .ok none⟩) ∧
    (device.format_from_gst in_info.format ≠ none →
      device.format_from_gst out_info.format = none →
      gst_d3d11_converter_new_internal lib device in_info out_info alpha
        = ⟨[.device_format_from_gst in_info.format,
            .device_format_from_gst out_info.format,
            .GST_ERROR (.format_unknown out_info.format)], .ok none⟩) ∧
    (device.format_from_gst in_info.format = none ∨
        device.format_from_gst out_info.format = none →
      (gst_d3d11_converter_new_internal lib device in_info out_info alpha).result
        = .ok none ∧
      ∀ e ∈ (gst_d3d11_converter_new_internal lib device in_info out_info alpha).trace,
        e.is_classification = false ∧ e.is_matrix_computation = false ∧
        e.is_resource_creation = false) := by
  have hin : device.format_from_gst in_info.format = none →
      gst_d3d11_converter_new_internal lib device in_info out_info alpha
        = ⟨[.device_format_from_gst in_info.format,
            .GST_ERROR (.format_unknown in_info.format)], .ok none⟩ := by
    intro h
    simp [gst_d3d11_converter_new_internal, gst_d3d11_device_format_from_gst,
      GST_VIDEO_INFO_FORMAT, format_unknown, h, bind, Run.bind, pure, Run.pure, emit]
  have hout : device.format_from_gst in_info.format ≠ none →
      device.format_from_gst out_info.format = none →
      gst_d3d11_converter_new_internal lib device in_info out_info alpha
        = ⟨[.device_format_from_gst in_info.format,
            .device_format_from_gst out_info.format,
            .GST_ERROR (.format_unknown out_info.format)], .ok none⟩ := by
    intro h h'
    obtain ⟨f, hf⟩ := Option.ne_none_iff_exists'.mp h
    simp [gst_d3d11_converter_new_internal, gst_d3d11_device_format_from_gst,
      GST_VIDEO_INFO_FORMAT, format_unknown, hf, h', bind, Run.bind, pure, Run.pure, emit]
  refine ⟨hin, hout, ?_⟩
  intro h
  by_cases h1 : device.format_from_gst in_info.format = none
  · rw [hin h1]
    simp [Event.is_classification, Event.is_matrix_computation, Event.is_resource_creation]
  · have h2 : device.format_from_gst out_info.format = none := by
      rcases h with h | h
      · exact absurd h h1
      · exact h
    rw [hout h1 h2]
    simp [Event.is_classification, Event.is_matrix_computation, Event.is_resource_creation]

/-- C2 on a device without a mapping for GRAY8: as input (with an unmapped
output too) the input is reported, as output of a mapped input the output is
reported. -/
theorem new_internal_format_unknown_witness :
    gst_d3d11_converter_new_internal gst_video_lib full_device
        (video_info .GRAY8 .BT709) (video_info .Y444 .BT709) 1
      = ⟨[.device_format_from_gst .GRAY8, .GST_ERROR (.format_unknown .GRAY8)], .ok none⟩ ∧
    gst_d3d11_converter_new_internal gst_video_lib full_device
        (video_info .NV12 .BT709) (video_info .GRAY8 .BT709) 1
      = ⟨[.device_format_from_gst .NV12, .device_format_from_gst .GRAY8,
          .GST_ERROR (.format_unknown .GRAY8)], .ok none⟩ :=
  ⟨(new_internal_format_unknown gst_video_lib full_device
      (video_info .GRAY8 .BT709) (video_info .Y444 .BT709) 1).1 rfl,
   (new_internal_format_unknown gst_video_lib full_device
      (video_info .NV12 .BT709) (video_info .GRAY8 .BT709) 1).2.1
      (by simp [full_device, video_info]) rfl⟩

set_option maxHeartbeats 4000000 in
/-- What an accepted classification leaves in the plan, in Boolean form and
checked format by format: the template of the category, a first body with the
one-plane output, a second body together with its output or neither, the
scale factors (64 on the side of I420_10LE, 1 elsewhere), the render targets
of a recognised output, and an untouched transform. -/
theorem classify_accepted_bool (device : GstD3D11Device) (alpha : ℚ)
    (in_info out_info : GstVideoInfo) (info : ConvertInfo)
    (h : converter_classify (g_new0_converter device alpha) in_info out_info
      = .ok (true, info)) :
    info.templ = some
      (if GST_VIDEO_INFO_IS_RGB in_info = GST_VIDEO_INFO_IS_RGB out_info then templ_REORDER
       else if GST_VIDEO_INFO_IS_RGB in_info then templ_RGB_to_YUV else templ_YUV_to_RGB) ∧
    (info.ps_body 0).isSome = true ∧
    info.ps_output 0 = some .HLSL_PS_OUTPUT_ONE_PLANE_BODY ∧
    (info.ps_body 1).isSome = (info.ps_output 1).isSome ∧
    (plan_factors info .mul).all
      (fun n => decide (n = if in_info.format = .I420_10LE then 64 else 1)) = true ∧
    (plan_factors info .div).all
      (fun n => decide (n = if out_info.format = .I420_10LE then 64 else 1)) = true ∧
    (!(decide (out_info.format ∈
          [GstVideoFormat.VUYA, .NV12, .P010_10LE, .P016_LE, .I420, .I420_10LE]) ||
        (GST_VIDEO_INFO_IS_RGB out_info &&
          decide (GST_VIDEO_INFO_N_PLANES out_info = 1))) ||
      decide (plan_render_targets info = GST_VIDEO_INFO_N_PLANES out_info)) = true ∧
    info.transform = ⟨fun _ => 0, fun _ => 0⟩ := by
  obtain ⟨fi, wi, hi, ci⟩ := in_info
  obtain ⟨fo, wo, ho, co⟩ := out_info
  cases fi <;> cases fo <;>
    first
      | (cases h <;> exact ⟨rfl, rfl, rfl, rfl, rfl, rfl, rfl, rfl⟩)
      | (simp [converter_classify, GST_VIDEO_INFO_IS_RGB, GST_VIDEO_INFO_IS_YUV,
          GstVideoInfo.finfo, gst_video_format_get_info, GST_VIDEO_INFO_FORMAT,
          setup_convert_info_yuv_to_rgb, setup_convert_info_yuv_to_yuv,
          setup_convert_info_packed_yuv_to_vuya, setup_convert_info_packed_yuv_to_planar,
          setup_convert_info_packed_yuv_to_semi_planar, get_packed_yuv_components,
          gst_d3d11_device_format_from_gst, g_new0_converter,
          ConvertInfo.set_ps_body, ConvertInfo.set_ps_output] at h
         split at h <;>
          first
            | (simp at h; done)
            | (simp at h; subst h; exact ⟨rfl, rfl, rfl, rfl, rfl, rfl, rfl, rfl⟩))

/-- The plan of an accepted pair whose output is a one-plane RGB format or one
of VUYA, NV12, P010_10LE, P016_LE, I420, I420_10LE declares as many render
targets as the output has planes. -/
theorem classify_render_targets_recognised (device : GstD3D11Device) (alpha : ℚ)
    (in_info out_info : GstVideoInfo) (info : ConvertInfo)
    (h : converter_classify (g_new0_converter device alpha) in_info out_info
      = .ok (true, info))
    (hout : out_info.format ∈
        [GstVideoFormat.VUYA, .NV12, .P010_10LE, .P016_LE, .I420, .I420_10LE] ∨
      (GST_VIDEO_INFO_IS_RGB out_info = true ∧ GST_VIDEO_INFO_N_PLANES out_info = 1)) :
    plan_render_targets info = GST_VIDEO_INFO_N_PLANES out_info := by
  have hb := (classify_accepted_bool device alpha in_info out_info info h).2.2.2.2.2.2.1
  simp only [Bool.or_eq_true, Bool.not_eq_true', Bool.and_eq_true, decide_eq_true_eq,
    Bool.or_eq_false_iff, decide_eq_false_iff_not] at hb
  rcases hb with hb | hb
  · rcases hout with hout | hout
    · exact absurd hout hb.1
    · have h2 := hb.2
      simp [hout.1, hout.2] at h2
  · exact hb

/-- C3 (the code departs from the claim): the pair NV12 -> YUY2, both mapped by
the device, is accepted through the semi-planar fallback of
`setup_convert_info_yuv_to_yuv` with two bodies of one render target each,
two in all, while YUY2 has one plane; the converter is built with two quads
and one output view. For every accepted pair whose output is a one-plane RGB
format or one of VUYA, NV12, P010_10LE, P016_LE, I420, I420_10LE the declared
render targets do equal the output's plane count. -/
theorem classify_render_targets :
    (∃ info,
      converter_classify (g_new0_converter full_device 1)
        (video_info .NV12 .BT709) (video_info .YUY2 .BT709) = .ok (true, info) ∧
      plan_render_targets info = 2 ∧
      GST_VIDEO_INFO_N_PLANES (video_info .YUY2 .BT709) = 1) ∧
    (∃ c,
      (gst_d3d11_converter_new_internal gst_video_lib full_device
        (video_info .NV12 .BT709) (video_info .YUY2 .BT709) 1).result = .ok (some c) ∧
      (c.quad 0).isSome = true ∧ (c.quad 1).isSome = true ∧ c.num_output_view = 1) ∧
    (∀ (device : GstD3D11Device) (alpha : ℚ) (in_info out_info : GstVideoInfo)
        (info : ConvertInfo),
      converter_classify (g_new0_converter device alpha) in_info out_info
        = .ok (true, info) →
      (out_info.format ∈
          [GstVideoFormat.VUYA, .NV12, .P010_10LE, .P016_LE, .I420, .I420_10LE] ∨
        (GST_VIDEO_INFO_IS_RGB out_info = true ∧ GST_VIDEO_INFO_N_PLANES out_info = 1)) →
      plan_render_targets info = GST_VIDEO_INFO_N_PLANES out_info) := by
  refine ⟨⟨_, rfl, rfl, rfl⟩, ?_, ?_⟩
  · simp [gst_d3d11_converter_new_internal, gst_d3d11_device_format_from_gst, full_device,
      video_info, GST_VIDEO_INFO_FORMAT, bind, Run.bind, pure, Run.pure, emit, Run.lift,
      converter_classify, GST_VIDEO_INFO_IS_RGB, GST_VIDEO_INFO_IS_YUV,
      GST_VIDEO_INFO_N_PLANES, GstVideoInfo.finfo, gst_video_format_get_info,
      setup_convert_info_yuv_to_yuv, setup_convert_info_semi_planar_to_semi_planar,
      g_new0_converter, ConvertInfo.set_ps_body, ConvertInfo.set_ps_output,
      converter_get_matrix, gst_d3d11_color_convert_setup_shader, setup_shader_pixel_shader,
      setup_shader_const_buffer, setup_shader_geometry, templ_REORDER]
  · intro device alpha in_info out_info info h hout
    exact classify_render_targets_recognised device alpha in_info out_info info h hout

/-- C4 (the code departs from the claim): `setup_convert_info_yuv_to_yuv` has no
rejecting branch. The pair NV12 -> YUY2 (output outside the second list) and
the pair Y444 -> NV12 (input outside the first list) are both accepted with
the semi-planar to semi-planar bodies. The other two buckets do reject: a
YUV -> RGB pair whose input is outside the first list and an RGB -> YUV pair
whose output is outside the second list are not accepted. -/
theorem classify_unrecognised_format :
    (∃ info,
      converter_classify (g_new0_converter full_device 1)
        (video_info .NV12 .BT709) (video_info .YUY2 .BT709) = .ok (true, info) ∧
      info.ps_body 0 = some ⟨.templ_LUMA_to_LUMA_BODY, [.d 1, .d 1]⟩ ∧
      info.ps_body 1 = some ⟨.templ_SEMI_PLANAR_TO_SEMI_PLANAR_CHROMA_BODY, []⟩) ∧
    (∃ info,
      converter_classify (g_new0_converter full_device 1)
        (video_info .Y444 .BT709) (video_info .NV12 .BT709) = .ok (true, info) ∧
      info.ps_body 0 = some ⟨.templ_LUMA_to_LUMA_BODY, [.d 1, .d 1]⟩ ∧
      info.ps_body 1 = some ⟨.templ_SEMI_PLANAR_TO_SEMI_PLANAR_CHROMA_BODY, []⟩) ∧
    (∀ (converter : GstD3D11Converter) (in_info out_info : GstVideoInfo),
      GST_VIDEO_INFO_IS_YUV in_info = true → GST_VIDEO_INFO_IS_RGB out_info = true →
      in_info.format ∉ [GstVideoFormat.VUYA, .YUY2, .UYVY, .VYUY, .Y210, .Y410, .I420,
        .I420_10LE, .NV12, .P010_10LE, .P016_LE] →
      ∃ info, converter_classify converter in_info out_info = .ok (false, info) ∧
        info.ps_body = converter.convert_info.ps_body) ∧
    (∀ (converter : GstD3D11Converter) (in_info out_info : GstVideoInfo),
      GST_VIDEO_INFO_IS_RGB in_info = true → GST_VIDEO_INFO_IS_YUV out_info = true →
      out_info.format ∉ [GstVideoFormat.VUYA, .NV12, .P010_10LE, .P016_LE, .I420,
        .I420_10LE] →
      ∃ info, converter_classify converter in_info out_info = .ok (false, info) ∧
        info.ps_body = converter.convert_info.ps_body) := by
  refine ⟨⟨_, rfl, rfl, rfl⟩, ⟨_, rfl, rfl, rfl⟩, ?_, ?_⟩
  · rintro converter ⟨fi, wi, hi, ci⟩ ⟨fo, wo, ho, co⟩ hyuv hrgb hin
    cases fi <;>
      simp [GST_VIDEO_INFO_IS_YUV, GstVideoInfo.finfo, gst_video_format_get_info]
        at hyuv hin <;>
      cases fo <;>
        simp [GST_VIDEO_INFO_IS_RGB, GstVideoInfo.finfo, gst_video_format_get_info]
          at hrgb <;>
        simp [converter_classify, GST_VIDEO_INFO_IS_RGB, GST_VIDEO_INFO_IS_YUV,
          GstVideoInfo.finfo, gst_video_format_get_info, GST_VIDEO_INFO_FORMAT,
          setup_convert_info_yuv_to_rgb, ConvertInfo.set_ps_output]
  · rintro converter ⟨fi, wi, hi, ci⟩ ⟨fo, wo, ho, co⟩ hrgb hyuv hout
    cases fo <;>
      simp [GST_VIDEO_INFO_IS_YUV, GstVideoInfo.finfo, gst_video_format_get_info]
        at hyuv hout <;>
      cases fi <;>
        simp [GST_VIDEO_INFO_IS_RGB, GstVideoInfo.finfo, gst_video_format_get_info]
          at hrgb <;>
        simp [converter_classify, GST_VIDEO_INFO_IS_RGB, GST_VIDEO_INFO_IS_YUV,
          GstVideoInfo.finfo, gst_video_format_get_info, GST_VIDEO_INFO_FORMAT,
          setup_convert_info_rgb_to_yuv, ConvertInfo.set_ps_output]

/-- C5: for two video infos with equal colorimetry matrix coefficients
`converter_get_matrix` returns FALSE and leaves the working matrix equal to
the 4x4 identity, whatever the bit depths, ranges and formats. -/
theorem get_matrix_same_matrix (lib : GstVideoLib) (in_info out_info : GstVideoInfo)
    (h : in_info.colorimetry.matrix = out_info.colorimetry.matrix) :
    (converter_get_matrix lib in_info out_info).1 = false ∧
    ∀ i j : Fin 4,
      (converter_get_matrix lib in_info out_info).2.dm i j = if i = j then 1 else 0 := by
  simp [converter_get_matrix, h, color_matrix_set_identity]

/-- C5 at a 10-bit narrow-range I420_10LE input and an 8-bit full-range RGBA
output that share BT709. -/
theorem get_matrix_same_matrix_witness :
    (converter_get_matrix gst_video_lib
        ⟨.I420_10LE, 1920, 1080, ⟨.RANGE_16_235, .BT709⟩⟩
        ⟨.RGBA, 640, 480, ⟨.RANGE_0_255, .BT709⟩⟩).1 = false ∧
    ∀ i j : Fin 4,
      (converter_get_matrix gst_video_lib
        ⟨.I420_10LE, 1920, 1080, ⟨.RANGE_16_235, .BT709⟩⟩
        ⟨.RGBA, 640, 480, ⟨.RANGE_0_255, .BT709⟩⟩).2.dm i j = if i = j then 1 else 0 :=
  get_matrix_same_matrix gst_video_lib
    ⟨.I420_10LE, 1920, 1080, ⟨.RANGE_16_235, .BT709⟩⟩
    ⟨.RGBA, 640, 480, ⟨.RANGE_0_255, .BT709⟩⟩ rfl

/-- A property of every event of `x` and of every continuation run holds of
every event of `x >>= k`. -/
theorem Run.trace_bind_forall {α β : Type} (P : Event → Prop) (x : Run α) (k : α → Run β)
    (hx : ∀ e ∈ x.trace, P e)
    (hk : ∀ a, x.result = .ok a → ∀ e ∈ (k a).trace, P e) :
    ∀ e ∈ (x >>= k).trace, P e := by
  intro e he
  have he' : e ∈ (Run.bind x k).trace := he
  unfold Run.bind at he'
  cases hr : x.result with
  | error err =>
    rw [hr] at he'
    exact hx e he'
  | ok a =>
    rw [hr] at he'
    rcases List.mem_append.mp he' with h | h
    · exact hx e h
    · exact hk a hr e h

/-- The pixel-shader round writes no transform. -/
theorem setup_shader_pixel_shader_no_upload (device : GstD3D11Device)
    (convert_info : ConvertInfo) (templ : PixelShaderTemplate) (i : Fin 2) :
    ∀ e ∈ (setup_shader_pixel_shader device convert_info templ i).trace,
      e.is_transform_upload = false := by
  unfold setup_shader_pixel_shader
  cases convert_info.ps_body i <;> cases convert_info.ps_output i <;>
    simp only [bind, Run.bind, pure, Run.pure, emit, Run.lift] <;>
    (try split) <;>
    simp [Event.is_transform_upload]

/-- The geometry part of shader setup writes no transform. -/
theorem setup_shader_geometry_no_upload (self : GstD3D11Converter) (device : GstD3D11Device)
    (in_info out_info : GstVideoInfo) (ps : Fin 2 → Option PixelShaderCode)
    (const_buffer : Option PixelShaderColorTransform) :
    ∀ e ∈ (setup_shader_geometry self device in_info out_info ps const_buffer).trace,
      e.is_transform_upload = false := by
  unfold setup_shader_geometry
  cases device.create_vertex_shader_ok <;> cases device.CreateBuffer_ok .vertex <;>
    cases device.CreateBuffer_ok .index <;> cases device.Map_ok .vertex <;>
    cases device.Map_ok .index <;> cases ps 1 <;>
    simp [bind, Run.bind, pure, Run.pure, emit, Event.is_transform_upload]

/-- Without a constant buffer in the template the constant-buffer block does
nothing. -/
theorem setup_shader_const_buffer_none (device : GstD3D11Device)
    (convert_info : ConvertInfo) (templ : PixelShaderTemplate)
    (h : templ.constant_buffer = none) :
    setup_shader_const_buffer device convert_info templ = ⟨[], .ok (some none)⟩ := by
  simp [setup_shader_const_buffer, h, pure, Run.pure]

/-- Shader setup with a template that has no constant buffer writes no
transform. -/
theorem setup_shader_no_upload (self : GstD3D11Converter) (device : GstD3D11Device)
    (in_info out_info : GstVideoInfo)
    (h : (self.convert_info.templ.getD ⟨none, none⟩).constant_buffer = none) :
    ∀ e ∈ (gst_d3d11_color_convert_setup_shader self device in_info out_info).trace,
      e.is_transform_upload = false := by
  unfold gst_d3d11_color_convert_setup_shader
  apply Run.trace_bind_forall
  · simp [emit, Event.is_transform_upload]
  · intro _ _
    split
    · simp [bind, Run.bind, pure, Run.pure, emit, Event.is_transform_upload]
    · apply Run.trace_bind_forall
      · exact setup_shader_pixel_shader_no_upload _ _ _ _
      · intro r0 _
        split
        · simp [pure, Run.pure]
        · apply Run.trace_bind_forall
          · exact setup_shader_pixel_shader_no_upload _ _ _ _
          · intro r1 _
            split
            · simp [pure, Run.pure]
            · rw [setup_shader_const_buffer_none _ _ _ h]
              simp only [bind, Run.bind, List.nil_append]
              exact setup_shader_geometry_no_upload _ _ _ _ _ _

/-- Construction of a pair whose two formats are both RGB or both not RGB
writes no transform into a constant buffer. -/
theorem new_internal_no_upload (lib : GstVideoLib) (device : GstD3D11Device)
    (in_info out_info : GstVideoInfo) (alpha : ℚ)
    (hcat : GST_VIDEO_INFO_IS_RGB in_info = GST_VIDEO_INFO_IS_RGB out_info) :
    ∀ e ∈ (gst_d3d11_converter_new_internal lib device in_info out_info alpha).trace,
      e.is_transform_upload = false := by
  unfold gst_d3d11_converter_new_internal
  apply Run.trace_bind_forall
  · simp [emit, Event.is_transform_upload]
  · intro _ _
    split
    · simp [format_unknown, bind, Run.bind, pure, Run.pure, emit, Event.is_transform_upload]
    · apply Run.trace_bind_forall
      · simp [emit, Event.is_transform_upload]
      · intro _ _
        split
        · simp [format_unknown, bind, Run.bind, pure, Run.pure, emit,
            Event.is_transform_upload]
        · apply Run.trace_bind_forall
          · simp [emit, Event.is_transform_upload]
          · intro _ _
            apply Run.trace_bind_forall
            · simp [Run.lift]
            · intro r hr
              obtain ⟨is_supported, info⟩ := r
              have hc : converter_classify (g_new0_converter device alpha) in_info out_info
                  = .ok (is_supported, info) := hr
              cases is_supported with
              | false =>
                simp [conversion_not_supported, gst_d3d11_converter_free, bind, Run.bind,
                  pure, Run.pure, emit, Event.is_transform_upload]
              | true =>
                have ht := (classify_accepted_bool device alpha in_info out_info info hc).1
                rw [if_pos hcat] at ht
                dsimp only
                rw [if_neg (by simp)]
                apply Run.trace_bind_forall
                · simp [emit, Event.is_transform_upload]
                · intro _ _
                  cases hm : converter_get_matrix lib in_info out_info with
                  | mk has_matrix matrix =>
                    dsimp only
                    apply Run.trace_bind_forall
                    · apply setup_shader_no_upload
                      cases has_matrix <;> simp [ht, templ_REORDER]
                    · intro r2 _
                      obtain ⟨ret, c2⟩ := r2
                      cases ret <;>
                        simp [gst_d3d11_converter_free, bind, Run.bind, pure, Run.pure, emit,
                          Event.is_transform_upload]

/-- C6 as stated fails: for I420 -> RGBA with equal matrix coefficients the
classifier accepts the pair, `converter_get_matrix` reports no transform, and
construction still writes the (zero-filled) transform into the constant
buffer. -/
theorem construction_upload_same_matrix :
    (video_info .I420 .BT709).colorimetry.matrix
      = (video_info .RGBA .BT709).colorimetry.matrix ∧
    (converter_get_matrix gst_video_lib (video_info .I420 .BT709)
      (video_info .RGBA .BT709)).1 = false ∧
    (∃ info, converter_classify (g_new0_converter full_device 1)
      (video_info .I420 .BT709) (video_info .RGBA .BT709) = .ok (true, info)) ∧
    Event.memcpy_transform ⟨fun _ => 0, fun _ => 0⟩ ∈
      (gst_d3d11_converter_new_internal gst_video_lib full_device
        (video_info .I420 .BT709) (video_info .RGBA .BT709) 1).trace := by
  refine ⟨rfl, rfl, ⟨_, rfl⟩, ?_⟩
  simp [gst_d3d11_converter_new_internal, gst_d3d11_device_format_from_gst, full_device,
    video_info, GST_VIDEO_INFO_FORMAT, bind, Run.bind, pure, Run.pure, emit, Run.lift,
    converter_classify, GST_VIDEO_INFO_IS_RGB, GST_VIDEO_INFO_IS_YUV,
    GstVideoInfo.finfo, gst_video_format_get_info,
    setup_convert_info_yuv_to_rgb, g_new0_converter, ConvertInfo.set_ps_body,
    ConvertInfo.set_ps_output, converter_get_matrix, gst_d3d11_color_convert_setup_shader,
    setup_shader_pixel_shader, setup_shader_const_buffer, setup_shader_geometry,
    templ_YUV_to_RGB]

/-- C6, amended: for every pair whose input and output are both RGB or both
YUV (the categories whose template has no constant buffer), whatever the
matrix coefficients, device and outcome of the creation calls, construction
never writes the transform into a constant buffer. -/
theorem construction_upload_gated_by_template (lib : GstVideoLib)
    (device : GstD3D11Device) (in_info out_info : GstVideoInfo) (alpha : ℚ)
    (hcat : (GST_VIDEO_INFO_IS_RGB in_info = true ∧ GST_VIDEO_INFO_IS_RGB out_info = true) ∨
      (GST_VIDEO_INFO_IS_YUV in_info = true ∧ GST_VIDEO_INFO_IS_YUV out_info = true)) :
    ∀ e ∈ (gst_d3d11_converter_new_internal lib device in_info out_info alpha).trace,
      e.is_transform_upload = false := by
  apply new_internal_no_upload
  rcases hcat with ⟨h1, h2⟩ | ⟨h1, h2⟩
  · rw [h1, h2]
  · simp only [GST_VIDEO_INFO_IS_YUV, GST_VIDEO_INFO_IS_RGB, decide_eq_true_eq] at h1 h2 ⊢
    simp [h1, h2]

/-- C6, amended, at VUYA (BT601) -> NV12 (BT709): the pair is accepted, the
matrix coefficients differ, a converter is built and no transform is
uploaded. -/
theorem construction_upload_gated_by_template_witness :
    (∃ info, converter_classify (g_new0_converter full_device 1)
      (video_info .VUYA .BT601) (video_info .NV12 .BT709) = .ok (true, info)) ∧
    ((gst_d3d11_converter_new_internal gst_video_lib full_device
        (video_info .VUYA .BT601) (video_info .NV12 .BT709) 1).trace.all
      fun e => !e.is_transform_upload) = true :=
  ⟨⟨_, rfl⟩, List.all_eq_true.mpr fun e he => by
    rw [construction_upload_gated_by_template gst_video_lib full_device
      (video_info .VUYA .BT601) (video_info .NV12 .BT709) 1 (Or.inr ⟨rfl, rfl⟩) e he]
    rfl⟩

/-- C7 as stated fails: the converter built for VUYA -> VUYA with identical
colorimetry stores the zero-filled transform of `g_new0`, so that
`trans_matrix[0]` is 0 and not 1. -/
theorem vuya_to_vuya_transform_not_identity :
    ∃ c, (gst_d3d11_converter_new gst_video_lib full_device
        (video_info .VUYA .BT709) (video_info .VUYA .BT709)).result = .ok (some c) ∧
      c.convert_info.transform.trans_matrix 0 = 0 ∧
      c.convert_info.transform.trans_matrix 0 ≠ 1 := by
  simp [gst_d3d11_converter_new, gst_d3d11_converter_new_internal,
    gst_d3d11_device_format_from_gst, full_device,
    video_info, GST_VIDEO_INFO_FORMAT, bind, Run.bind, pure, Run.pure, emit, Run.lift,
    converter_classify, GST_VIDEO_INFO_IS_RGB, GST_VIDEO_INFO_IS_YUV,
    GstVideoInfo.finfo, gst_video_format_get_info,
    setup_convert_info_yuv_to_yuv, setup_convert_info_vuya_to_vuya, g_new0_converter,
    ConvertInfo.set_ps_body,
    ConvertInfo.set_ps_output, converter_get_matrix, gst_d3d11_color_convert_setup_shader,
    setup_shader_pixel_shader, setup_shader_const_buffer, setup_shader_geometry,
    templ_REORDER]

/-- C7, amended: for a VUYA input and VUYA output with identical colorimetry,
on a device that maps VUYA and on which every creation call succeeds,
construction returns a converter with exactly one quad (no second body, no
second quad) whose body declares one render target; the working matrix of
`converter_get_matrix` is the identity, and the stored `trans_matrix` is left
zero-filled (all twelve entries 0). -/
theorem vuya_to_vuya_converter (lib : GstVideoLib) (device : GstD3D11Device)
    (in_info out_info : GstVideoInfo) (alpha : ℚ)
    (hin : in_info.format = .VUYA) (hout : out_info.format = .VUYA)
    (hcol : in_info.colorimetry = out_info.colorimetry)
    (hmap : device.format_from_gst .VUYA ≠ none)
    (hsampler : device.CreateSamplerState_ok = true)
    (hps : ∀ code, device.create_pixel_shader_ok code = true)
    (hvs : device.create_vertex_shader_ok = true)
    (hbuf : ∀ k, device.CreateBuffer_ok k = true)
    (hmapped : ∀ k, device.Map_ok k = true) :
    ∃ c q, (gst_d3d11_converter_new_internal lib device in_info out_info alpha).result
        = .ok (some c) ∧
      c.quad 0 = some q ∧ c.quad 1 = none ∧
      (c.convert_info.ps_body 0).isSome = true ∧ c.convert_info.ps_body 1 = none ∧
      c.convert_info.ps_output 0 = some .HLSL_PS_OUTPUT_ONE_PLANE_BODY ∧
      q.pixel_shader.map (fun ps => ps.ps_output.render_targets) = some 1 ∧
      plan_render_targets c.convert_info = 1 ∧
      converter_get_matrix lib in_info out_info = (false, color_matrix_set_identity) ∧
      (∀ i, c.convert_info.transform.trans_matrix i = 0) := by
  obtain ⟨fi, wi, hi, ci⟩ := in_info
  obtain ⟨fo, wo, ho, co⟩ := out_info
  simp only at hin hout hcol
  subst hin hout hcol
  obtain ⟨f, hf⟩ := Option.ne_none_iff_exists'.mp hmap
  simp [gst_d3d11_converter_new_internal,
    gst_d3d11_device_format_from_gst, hf, hsampler, hps, hvs, hbuf, hmapped,
    GST_VIDEO_INFO_FORMAT, bind, Run.bind, pure, Run.pure, emit, Run.lift,
    converter_classify, GST_VIDEO_INFO_IS_RGB, GST_VIDEO_INFO_IS_YUV,
    GstVideoInfo.finfo, gst_video_format_get_info,
    setup_convert_info_yuv_to_yuv, setup_convert_info_vuya_to_vuya, g_new0_converter,
    ConvertInfo.set_ps_body,
    ConvertInfo.set_ps_output, converter_get_matrix, gst_d3d11_color_convert_setup_shader,
    setup_shader_pixel_shader, setup_shader_const_buffer, setup_shader_geometry,
    templ_REORDER, gst_d3d11_quad_new, PsOutput.render_targets, plan_render_targets,
    body_render_targets]

/-- C7, amended, on a device that maps VUYA and creates every object, for
VUYA at BT709 on both sides. -/
theorem vuya_to_vuya_converter_witness :
    ∃ c q, (gst_d3d11_converter_new_internal gst_video_lib full_device
        (video_info .VUYA .BT709) (video_info .VUYA .BT709) 1).result = .ok (some c) ∧
      c.quad 0 = some q ∧ c.quad 1 = none ∧
      (c.convert_info.ps_body 0).isSome = true ∧ c.convert_info.ps_body 1 = none ∧
      c.convert_info.ps_output 0 = some .HLSL_PS_OUTPUT_ONE_PLANE_BODY ∧
      q.pixel_shader.map (fun ps => ps.ps_output.render_targets) = some 1 ∧
      plan_render_targets c.convert_info = 1 ∧
      converter_get_matrix gst_video_lib (video_info .VUYA .BT709) (video_info .VUYA .BT709)
        = (false, color_matrix_set_identity) ∧
      (∀ i, c.convert_info.transform.trans_matrix i = 0) :=
  vuya_to_vuya_converter gst_video_lib full_device
    (video_info .VUYA .BT709) (video_info .VUYA .BT709) 1 rfl rfl rfl
    (by simp [full_device]) rfl (fun _ => rfl) rfl (fun _ => rfl) (fun _ => rfl)

/-- C8: for a planar input (I420 or I420_10LE) and a semi-planar output (NV12,
P010_10LE or P016_LE) the classifier accepts the pair with both bodies
present, the luma body and the chroma body, each declaring one render target;
for the 8-bit I420 input every multiply and divide factor substituted into
the two bodies is 1. -/
theorem planar_to_semi_planar_plan (device : GstD3D11Device) (alpha : ℚ)
    (in_info out_info : GstVideoInfo)
    (hin : in_info.format = .I420 ∨ in_info.format = .I420_10LE)
    (hout : out_info.format = .NV12 ∨ out_info.format = .P010_10LE ∨
      out_info.format = .P016_LE) :
    ∃ info b0 b1,
      converter_classify (g_new0_converter device alpha) in_info out_info
        = .ok (true, info) ∧
      info.ps_body 0 = some b0 ∧ info.ps_body 1 = some b1 ∧
      b0.templ = .templ_LUMA_to_LUMA_BODY ∧
      b1.templ = .templ_PLANAR_TO_SEMI_PLANAR_CHROMA_BODY ∧
      info.ps_output 0 = some .HLSL_PS_OUTPUT_ONE_PLANE_BODY ∧
      info.ps_output 1 = some .HLSL_PS_OUTPUT_ONE_PLANE_BODY ∧
      body_render_targets info 0 = 1 ∧ body_render_targets info 1 = 1 ∧
      (in_info.format = .I420 →
        plan_factors info .mul = [1, 1, 1] ∧ plan_factors info .div = [1]) := by
  obtain ⟨fi, wi, hi, ci⟩ := in_info
  obtain ⟨fo, wo, ho, co⟩ := out_info
  simp only at hin hout
  rcases hin with rfl | rfl <;> rcases hout with rfl | rfl | rfl <;>
    refine ⟨_, _, _, rfl, rfl, rfl, rfl, rfl, rfl, rfl, rfl, rfl, ?_⟩ <;>
    first
      | (intro _; exact ⟨rfl, rfl⟩)
      | (intro h; cases h)

/-- C8 at I420 -> NV12. -/
theorem planar_to_semi_planar_plan_witness :
    ∃ info b0 b1,
      converter_classify (g_new0_converter full_device 1)
        (video_info .I420 .BT709) (video_info .NV12 .BT709) = .ok (true, info) ∧
      info.ps_body 0 = some b0 ∧ info.ps_body 1 = some b1 ∧
      b0.templ = .templ_LUMA_to_LUMA_BODY ∧
      b1.templ = .templ_PLANAR_TO_SEMI_PLANAR_CHROMA_BODY ∧
      info.ps_output 0 = some .HLSL_PS_OUTPUT_ONE_PLANE_BODY ∧
      info.ps_output 1 = some .HLSL_PS_OUTPUT_ONE_PLANE_BODY ∧
      body_render_targets info 0 = 1 ∧ body_render_targets info 1 = 1 ∧
      ((video_info .I420 .BT709).format = .I420 →
        plan_factors info .mul = [1, 1, 1] ∧ plan_factors info .div = [1]) :=
  planar_to_semi_planar_plan full_device 1 (video_info .I420 .BT709)
    (video_info .NV12 .BT709) (Or.inl rfl) (Or.inl rfl)

/-- C9 as stated fails: I420 (8-bit) -> P010_10LE (10-bit, stored in 16 bits)
and the reverse pair are accepted with every multiply and divide factor equal
to 1, not 64. -/
theorem scale_factor_p010_is_one :
    GST_VIDEO_INFO_COMP_DEPTH (video_info .I420 .BT709) 0 = 8 ∧
    GST_VIDEO_INFO_COMP_DEPTH (video_info .P010_10LE .BT709) 0 = 10 ∧
    (∃ info, converter_classify (g_new0_converter full_device 1)
        (video_info .I420 .BT709) (video_info .P010_10LE .BT709) = .ok (true, info) ∧
      plan_factors info .mul = [1, 1, 1] ∧ plan_factors info .div = [1]) ∧
    (∃ info, converter_classify (g_new0_converter full_device 1)
        (video_info .P010_10LE .BT709) (video_info .I420 .BT709) = .ok (true, info) ∧
      plan_factors info .mul = [1] ∧ plan_factors info .div = [1, 1, 1]) :=
  ⟨rfl, rfl, ⟨_, rfl, rfl, rfl⟩, ⟨_, rfl, rfl, rfl⟩⟩

/-- C9, amended: in the plan of every accepted pair each multiply factor is 64
when the input format is I420_10LE and 1 otherwise, and each divide factor is
64 when the output format is I420_10LE and 1 otherwise. Hence every factor is
1 between two 8-bit formats, and when the exchanged pair is accepted too its
divide factors are the multiply factors of this one and conversely. -/
theorem scale_factors (device : GstD3D11Device) (alpha : ℚ)
    (in_info out_info : GstVideoInfo) (info : ConvertInfo)
    (h : converter_classify (g_new0_converter device alpha) in_info out_info
      = .ok (true, info)) :
    (∀ n ∈ plan_factors info .mul, n = if in_info.format = .I420_10LE then 64 else 1) ∧
    (∀ n ∈ plan_factors info .div, n = if out_info.format = .I420_10LE then 64 else 1) ∧
    (GST_VIDEO_INFO_COMP_DEPTH in_info 0 = 8 → GST_VIDEO_INFO_COMP_DEPTH out_info 0 = 8 →
      ∀ n ∈ plan_factors info .mul ++ plan_factors info .div, n = 1) ∧
    (∀ info', converter_classify (g_new0_converter device alpha) out_info in_info
        = .ok (true, info') →
      (∀ x ∈ plan_factors info .mul, ∀ y ∈ plan_factors info' .div, x = y) ∧
      (∀ x ∈ plan_factors info .div, ∀ y ∈ plan_factors info' .mul, x = y)) := by
  have hb := classify_accepted_bool device alpha in_info out_info info h
  have hmul : ∀ n ∈ plan_factors info .mul,
      n = if in_info.format = .I420_10LE then 64 else 1 := by
    simpa [List.all_eq_true] using hb.2.2.2.2.1
  have hdiv : ∀ n ∈ plan_factors info .div,
      n = if out_info.format = .I420_10LE then 64 else 1 := by
    simpa [List.all_eq_true] using hb.2.2.2.2.2.1
  refine ⟨hmul, hdiv, ?_, ?_⟩
  · intro h8i h8o n hn
    have hi : in_info.format ≠ .I420_10LE := by
      intro hf
      simp [GST_VIDEO_INFO_COMP_DEPTH, GstVideoInfo.finfo, hf, gst_video_format_get_info,
        comp4] at h8i
    have ho : out_info.format ≠ .I420_10LE := by
      intro hf
      simp [GST_VIDEO_INFO_COMP_DEPTH, GstVideoInfo.finfo, hf, gst_video_format_get_info,
        comp4] at h8o
    rcases List.mem_append.mp hn with hn | hn
    · rw [hmul n hn, if_neg hi]
    · rw [hdiv n hn, if_neg ho]
  · intro info' h'
    have hb' := classify_accepted_bool device alpha out_info in_info info' h'
    have hmul' : ∀ n ∈ plan_factors info' .mul,
        n = if out_info.format = .I420_10LE then 64 else 1 := by
      simpa [List.all_eq_true] using hb'.2.2.2.2.1
    have hdiv' : ∀ n ∈ plan_factors info' .div,
        n = if in_info.format = .I420_10LE then 64 else 1 := by
      simpa [List.all_eq_true] using hb'.2.2.2.2.2.1
    refine ⟨fun x hx y hy => ?_, fun x hx y hy => ?_⟩
    · rw [hmul x hx, hdiv' y hy]
    · rw [hdiv x hx, hmul' y hy]

/-- C9, amended, at I420 -> I420_10LE: the multiply factors are 1 and the
divide factors are 64. -/
theorem scale_factors_witness :
    ∃ info, converter_classify (g_new0_converter full_device 1)
        (video_info .I420 .BT709) (video_info .I420_10LE .BT709) = .ok (true, info) ∧
      plan_factors info .mul = [1, 1, 1] ∧ plan_factors info .div = [64, 64, 64] ∧
      (∀ n ∈ plan_factors info .mul,
        n = if (video_info .I420 .BT709).format = .I420_10LE then 64 else 1) ∧
      (∀ n ∈ plan_factors info .div,
        n = if (video_info .I420_10LE .BT709).format = .I420_10LE then 64 else 1) :=
  ⟨_, rfl, rfl, rfl,
    (scale_factors full_device 1 (video_info .I420 .BT709) (video_info .I420_10LE .BT709)
      _ rfl).1,
    (scale_factors full_device 1 (video_info .I420 .BT709) (video_info .I420_10LE .BT709)
      _ rfl).2.1⟩

/-- C10: for a converter whose output format is NV12, P010_10LE, P016_LE, I420
or I420_10LE and every viewport `v`, `gst_d3d11_converter_update_viewport`
returns TRUE, stores `v` in `viewport[0]`, and sets `TopLeftX`, `TopLeftY`,
`Width` and `Height` of every `viewport[i]` with `1 <= i` below the output
plane count to half of the field of `v`; nothing but the viewports changes. -/
theorem update_viewport_subsampled (converter : GstD3D11Converter) (v : D3D11_VIEWPORT)
    (hfmt : converter.out_info.format ∈
      [GstVideoFormat.NV12, .P010_10LE, .P016_LE, .I420, .I420_10LE]) :
    ∃ c, gst_d3d11_converter_update_viewport converter v = .ok (true, c) ∧
      c = { converter with viewport := c.viewport } ∧
      c.viewport 0 = v ∧
      ∀ i : Fin 4, 1 ≤ i.val → i.val < GST_VIDEO_INFO_N_PLANES converter.out_info →
        (c.viewport i).TopLeftX = v.TopLeftX / 2 ∧
        (c.viewport i).TopLeftY = v.TopLeftY / 2 ∧
        (c.viewport i).Width = v.Width / 2 ∧
        (c.viewport i).Height = v.Height / 2 := by
  simp only [List.mem_cons, List.mem_singleton, List.not_mem_nil, or_false] at hfmt
  rcases hfmt with h | h | h | h | h <;>
    simp [gst_d3d11_converter_update_viewport, GST_VIDEO_INFO_FORMAT, h,
      GST_VIDEO_INFO_N_PLANES, GstVideoInfo.finfo, gst_video_format_get_info,
      viewport_store, List.range'] <;>
    intro i h1 h2 <;>
    fin_cases i <;> simp at h1 h2 ⊢

/-- C10 on the converter built for RGBA -> I420 (three output planes) with the
viewport (10, 20, 640, 480): both chroma viewports become (5, 10, 320, 240). -/
theorem update_viewport_subsampled_witness :
    ∃ c, gst_d3d11_converter_update_viewport
        { g_new0_converter full_device 1 with out_info := video_info .I420 .BT709 }
        ⟨10, 20, 640, 480, 0, 1⟩ = .ok (true, c) ∧
      c.viewport 0 = ⟨10, 20, 640, 480, 0, 1⟩ ∧
      ((c.viewport 1).TopLeftX = 5 ∧ (c.viewport 1).TopLeftY = 10 ∧
        (c.viewport 1).Width = 320 ∧ (c.viewport 1).Height = 240) ∧
      ((c.viewport 2).TopLeftX = 5 ∧ (c.viewport 2).TopLeftY = 10 ∧
        (c.viewport 2).Width = 320 ∧ (c.viewport 2).Height = 240) := by
  obtain ⟨c, hc, -, h0, hi⟩ := update_viewport_subsampled
    { g_new0_converter full_device 1 with out_info := video_info .I420 .BT709 }
    ⟨10, 20, 640, 480, 0, 1⟩ (by simp [video_info])
  refine ⟨c, hc, h0, ?_, ?_⟩
  · have := hi 1 (by decide) (by decide)
    norm_num at this
    exact this
  · have := hi 2 (by decide) (by decide)
    norm_num at this
    exact this

/-! ### Per-frame conversion -/

/-- The draws leave the converter as it is; the call succeeds when the first
draw succeeds and the second quad is absent or its draw succeeds. -/
theorem convert_unlocked_draw_result (converter : GstD3D11Converter) (frame : FrameOutcome) :
    (convert_unlocked_draw converter frame).result
      = .ok (frame.draw_ok 0 && ((converter.quad 1).isNone || frame.draw_ok 1), converter) := by
  unfold convert_unlocked_draw
  cases h0 : frame.draw_ok 0 <;> cases h1 : frame.draw_ok 1 <;> cases hq : converter.quad 1 <;>
    simp [bind, Run.bind, pure, Run.pure, emit, h1]

/-- The events of the draws: the draw of the first quad, then, when it
succeeded and a second quad exists, the draw of the second. -/
theorem convert_unlocked_draw_trace (converter : GstD3D11Converter) (frame : FrameOutcome) :
    (convert_unlocked_draw converter frame).trace
      = .draw_quad ⟨0, converter.viewport, 0, 1, converter.num_input_view, 0, 1⟩ ::
        (if frame.draw_ok 0 = true ∧ (converter.quad 1).isSome = true then
          [.draw_quad ⟨1, converter.viewport, 1, guint_sub converter.num_output_view 1,
            converter.num_input_view, 1, guint_sub converter.num_output_view 1⟩]
        else []) := by
  unfold convert_unlocked_draw
  cases h0 : frame.draw_ok 0 <;> cases h1 : frame.draw_ok 1 <;> cases hq : converter.quad 1 <;>
    simp [bind, Run.bind, pure, Run.pure, emit, h1]

/-- Without a pending update the call is just the draws. -/
theorem convert_unlocked_clean (converter : GstD3D11Converter) (frame : FrameOutcome)
    (h : convert_needs_update converter frame.desc = false) :
    gst_d3d11_converter_convert_unlocked converter frame
      = convert_unlocked_draw converter frame := by
  simp [gst_d3d11_converter_convert_unlocked, h]

/-- With a pending update and a vertex buffer that cannot be mapped the call
fails before any draw. -/
theorem convert_unlocked_map_failed (converter : GstD3D11Converter) (frame : FrameOutcome)
    (h : convert_needs_update converter frame.desc = true)
    (hm : frame.map_vertex_ok = false) :
    gst_d3d11_converter_convert_unlocked converter frame
      = ⟨[.Map .vertex, .GST_ERROR .map_vertex_buffer, .GST_ERROR .update_vertex_buffer],
          .ok (false, with_texture_size converter frame.desc)⟩ := by
  simp [gst_d3d11_converter_convert_unlocked, gst_d3d11_converter_update_vertex_buffer, h, hm,
    bind, Run.bind, pure, Run.pure, emit, with_texture_size]

/-- With a pending update and a mapped vertex buffer the geometry is rebuilt
and the draws follow. -/
theorem convert_unlocked_rebuilt (converter : GstD3D11Converter) (frame : FrameOutcome)
    (h : convert_needs_update converter frame.desc = true)
    (hm : frame.map_vertex_ok = true) :
    gst_d3d11_converter_convert_unlocked converter frame
      = ⟨.Map .vertex :: .Unmap .vertex ::
            (convert_unlocked_draw (with_rebuilt_geometry converter frame.desc) frame).trace,
          (convert_unlocked_draw (with_rebuilt_geometry converter frame.desc) frame).result⟩ := by
  simp [gst_d3d11_converter_convert_unlocked, gst_d3d11_converter_update_vertex_buffer, h, hm,
    bind, Run.bind, pure, Run.pure, emit, with_texture_size, with_rebuilt_geometry,
    convert_unlocked_draw_result]

/-- The fields of the sample converter the concrete runs rely on. -/
theorem sample_converter_fields :
    sample_converter.src_rect = ⟨0, 0, 640, 480⟩ ∧
    sample_converter.dest_rect = ⟨0, 0, 640, 480⟩ ∧
    sample_converter.update_vertex = false ∧
    sample_converter.input_texture_width = 640 ∧
    sample_converter.input_texture_height = 480 ∧
    sample_converter.num_input_view = 1 ∧
    sample_converter.num_output_view = 2 ∧
    (sample_converter.quad 0).isSome = true ∧
    (sample_converter.quad 1).isSome = true ∧
    sample_converter.out_info = video_info .NV12 .BT709 := by
  simp [sample_converter, gst_d3d11_converter_new, gst_d3d11_converter_new_internal,
    gst_d3d11_device_format_from_gst, full_device,
    video_info, GST_VIDEO_INFO_FORMAT, bind, Run.bind, pure, Run.pure, emit, Run.lift,
    converter_classify, GST_VIDEO_INFO_IS_RGB, GST_VIDEO_INFO_IS_YUV,
    GstVideoInfo.finfo, gst_video_format_get_info, GST_VIDEO_INFO_N_PLANES,
    GST_VIDEO_INFO_WIDTH, GST_VIDEO_INFO_HEIGHT,
    setup_convert_info_rgb_to_yuv, g_new0_converter, ConvertInfo.set_ps_body,
    ConvertInfo.set_ps_output, converter_get_matrix, gst_d3d11_color_convert_setup_shader,
    setup_shader_pixel_shader, setup_shader_const_buffer, setup_shader_geometry,
    templ_RGB_to_YUV]

/-- A call of `gst_d3d11_converter_convert_unlocked` always returns. -/
theorem convert_unlocked_returns (converter : GstD3D11Converter) (frame : FrameOutcome) :
    ∃ c', (gst_d3d11_converter_convert_unlocked converter frame).result
      = .ok ((!convert_needs_update converter frame.desc || frame.map_vertex_ok) &&
          (frame.draw_ok 0 && ((converter.quad 1).isNone || frame.draw_ok 1)), c') := by
  cases h : convert_needs_update converter frame.desc
  · rw [convert_unlocked_clean _ _ h, convert_unlocked_draw_result]
    exact ⟨converter, by simp⟩
  · cases hm : frame.map_vertex_ok
    · rw [convert_unlocked_map_failed _ _ h hm]
      exact ⟨with_texture_size converter frame.desc, by simp⟩
    · rw [convert_unlocked_rebuilt _ _ h hm, convert_unlocked_draw_result]
      exact ⟨with_rebuilt_geometry converter frame.desc,
        by simp [with_rebuilt_geometry, with_texture_size]⟩

/-- No event of `gst_d3d11_converter_convert_unlocked` takes or releases the
device lock. -/
theorem convert_unlocked_no_lock (converter : GstD3D11Converter) (frame : FrameOutcome) :
    ∀ e ∈ (gst_d3d11_converter_convert_unlocked converter frame).trace, e.is_lock = false := by
  cases h : convert_needs_update converter frame.desc
  · rw [convert_unlocked_clean _ _ h, convert_unlocked_draw_trace]
    intro e he
    split at he <;> simp at he <;> rcases he with rfl | rfl <;> rfl
  · cases hm : frame.map_vertex_ok
    · rw [convert_unlocked_map_failed _ _ h hm]
      intro e he
      simp at he
      rcases he with rfl | rfl | rfl <;> rfl
    · rw [convert_unlocked_rebuilt _ _ h hm, convert_unlocked_draw_trace]
      intro e he
      split at he <;> simp at he <;> rcases he with rfl | rfl | rfl | rfl <;> rfl

/-- C12: `gst_d3d11_converter_update_src_rect` with a rectangle equal field by
field to the current `src_rect` returns TRUE and leaves the converter
unchanged, and so does `gst_d3d11_converter_update_dest_rect` with the current
`dest_rect`; when the geometry was clean, the next
`gst_d3d11_converter_convert_unlocked` on a texture of the cached size does
not map the vertex buffer and leaves the converter unchanged. -/
theorem update_rect_unchanged (converter : GstD3D11Converter) (r : RECT) :
    (r.left = converter.src_rect.left ∧ r.top = converter.src_rect.top ∧
        r.right = converter.src_rect.right ∧ r.bottom = converter.src_rect.bottom →
      gst_d3d11_converter_update_src_rect converter r = (true, converter)) ∧
    (r.left = converter.dest_rect.left ∧ r.top = converter.dest_rect.top ∧
        r.right = converter.dest_rect.right ∧ r.bottom = converter.dest_rect.bottom →
      gst_d3d11_converter_update_dest_rect converter r = (true, converter)) ∧
    (∀ frame : FrameOutcome, converter.update_vertex = false →
      frame.desc.Width = guint_of_gint converter.input_texture_width →
      frame.desc.Height = guint_of_gint converter.input_texture_height →
      (∀ e ∈ (gst_d3d11_converter_convert_unlocked converter frame).trace,
        e.is_vertex_map = false) ∧
      ∃ ret, (gst_d3d11_converter_convert_unlocked converter frame).result
        = .ok (ret, converter)) := by
  refine ⟨?_, ?_, ?_⟩
  · rintro ⟨h1, h2, h3, h4⟩
    simp [gst_d3d11_converter_update_src_rect, h1, h2, h3, h4]
  · rintro ⟨h1, h2, h3, h4⟩
    simp [gst_d3d11_converter_update_dest_rect, h1, h2, h3, h4]
  · intro frame hclean hw hh
    have h : convert_needs_update converter frame.desc = false := by
      simp [convert_needs_update, hclean, hw, hh]
    rw [convert_unlocked_clean _ _ h, convert_unlocked_draw_trace,
      convert_unlocked_draw_result]
    refine ⟨?_, _, rfl⟩
    intro e he
    split at he <;> simp at he <;> rcases he with rfl | rfl <;> rfl

/-- C12 on the sample converter: setting the rectangles already in effect
changes nothing, and the next convert with the 640x480 texture maps no vertex
buffer. -/
theorem update_rect_unchanged_witness :
    gst_d3d11_converter_update_src_rect sample_converter ⟨0, 0, 640, 480⟩
      = (true, sample_converter) ∧
    gst_d3d11_converter_update_dest_rect sample_converter ⟨0, 0, 640, 480⟩
      = (true, sample_converter) ∧
    ((gst_d3d11_converter_convert_unlocked
        (gst_d3d11_converter_update_src_rect sample_converter ⟨0, 0, 640, 480⟩).2
        sample_frame).trace.all fun e => !e.is_vertex_map) = true := by
  have hs := (update_rect_unchanged sample_converter ⟨0, 0, 640, 480⟩).1
    (by simp [sample_converter_fields.1])
  have hd := (update_rect_unchanged sample_converter ⟨0, 0, 640, 480⟩).2.1
    (by simp [sample_converter_fields.2.1])
  refine ⟨hs, hd, ?_⟩
  rw [hs]
  refine List.all_eq_true.mpr fun e he => ?_
  have := ((update_rect_unchanged sample_converter ⟨0, 0, 640, 480⟩).2.2 sample_frame
    sample_converter_fields.2.2.1
    (by rw [sample_converter_fields.2.2.2.1]; rfl)
    (by rw [sample_converter_fields.2.2.2.2.1]; rfl)).1 e he
  simp [this]

/-- C13: `gst_d3d11_converter_update_src_rect` with a rectangle that differs
from the current `src_rect` in some field returns TRUE, stores the rectangle
and sets the dirty flag, changing nothing else (`dest_rect`, the viewports and
the cached texture size stay); `gst_d3d11_converter_update_dest_rect` does the
same for `dest_rect`. The next `gst_d3d11_converter_convert_unlocked` then
starts by mapping the vertex buffer, whatever the texture size, and when the
mapping succeeds it writes the geometry of the new rectangles and clears the
flag. -/
theorem update_rect_changed (converter : GstD3D11Converter) (r : RECT) :
    (r.left ≠ converter.src_rect.left ∨ r.top ≠ converter.src_rect.top ∨
        r.right ≠ converter.src_rect.right ∨ r.bottom ≠ converter.src_rect.bottom →
      gst_d3d11_converter_update_src_rect converter r
        = (true, { converter with src_rect := r, update_vertex := true })) ∧
    (r.left ≠ converter.dest_rect.left ∨ r.top ≠ converter.dest_rect.top ∨
        r.right ≠ converter.dest_rect.right ∨ r.bottom ≠ converter.dest_rect.bottom →
      gst_d3d11_converter_update_dest_rect converter r
        = (true, { converter with dest_rect := r, update_vertex := true })) ∧
    (∀ (c : GstD3D11Converter) (frame : FrameOutcome), c.update_vertex = true →
      (gst_d3d11_converter_convert_unlocked c frame).trace.head? = some (.Map .vertex) ∧
      (frame.map_vertex_ok = true →
        ∃ ret c', (gst_d3d11_converter_convert_unlocked c frame).result = .ok (ret, c') ∧
          c'.vertex_buffer = some (update_vertex_data (with_texture_size c frame.desc)) ∧
          c'.update_vertex = false ∧ c'.src_rect = c.src_rect ∧
          c'.dest_rect = c.dest_rect)) := by
  refine ⟨?_, ?_, ?_⟩
  · intro h
    have h' : converter.src_rect.left ≠ r.left ∨ converter.src_rect.top ≠ r.top ∨
        converter.src_rect.right ≠ r.right ∨ converter.src_rect.bottom ≠ r.bottom := by
      rcases h with h | h | h | h
      · exact Or.inl (Ne.symm h)
      · exact Or.inr (Or.inl (Ne.symm h))
      · exact Or.inr (Or.inr (Or.inl (Ne.symm h)))
      · exact Or.inr (Or.inr (Or.inr (Ne.symm h)))
    simp only [gst_d3d11_converter_update_src_rect, if_pos h']
  · intro h
    have h' : converter.dest_rect.left ≠ r.left ∨ converter.dest_rect.top ≠ r.top ∨
        converter.dest_rect.right ≠ r.right ∨ converter.dest_rect.bottom ≠ r.bottom := by
      rcases h with h | h | h | h
      · exact Or.inl (Ne.symm h)
      · exact Or.inr (Or.inl (Ne.symm h))
      · exact Or.inr (Or.inr (Or.inl (Ne.symm h)))
      · exact Or.inr (Or.inr (Or.inr (Ne.symm h)))
    simp only [gst_d3d11_converter_update_dest_rect, if_pos h']
  · intro c frame hdirty
    have h : convert_needs_update c frame.desc = true := by
      simp [convert_needs_update, hdirty]
    constructor
    · cases hm : frame.map_vertex_ok
      · rw [convert_unlocked_map_failed _ _ h hm]; rfl
      · rw [convert_unlocked_rebuilt _ _ h hm]; rfl
    · intro hm
      rw [convert_unlocked_rebuilt _ _ h hm, convert_unlocked_draw_result]
      exact ⟨_, _, rfl, rfl, rfl, rfl, rfl⟩

/-- C13 on the sample converter: the source rectangle (10, 20, 300, 200) is
stored and the flag set, and the next convert with an unchanged 640x480
texture maps the vertex buffer first and writes the new geometry. -/
theorem update_rect_changed_witness :
    gst_d3d11_converter_update_src_rect sample_converter ⟨10, 20, 300, 200⟩
      = (true, { sample_converter with src_rect := ⟨10, 20, 300, 200⟩,
                                       update_vertex := true }) ∧
    gst_d3d11_converter_update_dest_rect sample_converter ⟨10, 20, 300, 200⟩
      = (true, { sample_converter with dest_rect := ⟨10, 20, 300, 200⟩,
                                       update_vertex := true }) ∧
    (gst_d3d11_converter_convert_unlocked
        { sample_converter with src_rect := ⟨10, 20, 300, 200⟩, update_vertex := true }
        sample_frame).trace.head? = some (.Map .vertex) :=
  ⟨(update_rect_changed sample_converter ⟨10, 20, 300, 200⟩).1
      (Or.inl (by rw [sample_converter_fields.1]; decide)),
   (update_rect_changed sample_converter ⟨10, 20, 300, 200⟩).2.1
      (Or.inl (by rw [sample_converter_fields.2.1]; decide)),
   ((update_rect_changed sample_converter ⟨10, 20, 300, 200⟩).2.2
      { sample_converter with src_rect := ⟨10, 20, 300, 200⟩, update_vertex := true }
      sample_frame rfl).1⟩

/-- C15: `gst_d3d11_converter_convert_unlocked` always returns, and it returns
TRUE exactly when the vertex-buffer update, if one is due, succeeds, the
draw of the first quad succeeds, and there is no second quad or its draw
succeeds. When the update fails no draw is issued; when the first draw fails
the second quad is not drawn. -/
theorem convert_unlocked_success (converter : GstD3D11Converter) (frame : FrameOutcome) :
    (∃ ret c', (gst_d3d11_converter_convert_unlocked converter frame).result
        = .ok (ret, c') ∧
      (ret = true ↔
        (convert_needs_update converter frame.desc = true → frame.map_vertex_ok = true) ∧
        frame.draw_ok 0 = true ∧
        (converter.quad 1 = none ∨ frame.draw_ok 1 = true))) ∧
    (convert_needs_update converter frame.desc = true → frame.map_vertex_ok = false →
      ∀ e ∈ (gst_d3d11_converter_convert_unlocked converter frame).trace,
        e.is_draw = false) ∧
    (frame.draw_ok 0 = false →
      ∀ e ∈ (gst_d3d11_converter_convert_unlocked converter frame).trace,
        e.is_draw_of 1 = false) := by
  refine ⟨?_, ?_, ?_⟩
  · obtain ⟨c', hc⟩ := convert_unlocked_returns converter frame
    refine ⟨_, c', hc, ?_⟩
    cases convert_needs_update converter frame.desc <;> cases frame.map_vertex_ok <;>
      cases frame.draw_ok 0 <;> cases frame.draw_ok 1 <;> cases converter.quad 1 <;> simp
  · intro h hm
    rw [convert_unlocked_map_failed _ _ h hm]
    intro e he
    simp at he
    rcases he with rfl | rfl | rfl <;> rfl
  · intro h0
    cases h : convert_needs_update converter frame.desc
    · rw [convert_unlocked_clean _ _ h, convert_unlocked_draw_trace]
      simp [h0, Event.is_draw_of]
    · cases hm : frame.map_vertex_ok
      · rw [convert_unlocked_map_failed _ _ h hm]
        intro e he
        simp at he
        rcases he with rfl | rfl | rfl <;> rfl
      · rw [convert_unlocked_rebuilt _ _ h hm, convert_unlocked_draw_trace]
        simp [h0, Event.is_draw_of]

/-- C16: `gst_d3d11_converter_convert` returns what
`gst_d3d11_converter_convert_unlocked` returns on the same arguments, result
and converter state; its events are `device_lock`, then the events of the
unlocked call, none of which touches the lock, then `device_unlock`, on every
path (the unlocked call always returns). -/
theorem convert_locks_around_unlocked (converter : GstD3D11Converter)
    (frame : FrameOutcome) :
    (gst_d3d11_converter_convert converter frame).result
      = (gst_d3d11_converter_convert_unlocked converter frame).result ∧
    (gst_d3d11_converter_convert converter frame).trace
      = .device_lock ::
        ((gst_d3d11_converter_convert_unlocked converter frame).trace ++ [.device_unlock]) ∧
    (∀ e ∈ (gst_d3d11_converter_convert_unlocked converter frame).trace,
      e.is_lock = false) ∧
    (∃ ret c', (gst_d3d11_converter_convert converter frame).result = .ok (ret, c')) := by
  obtain ⟨c', hc⟩ := convert_unlocked_returns converter frame
  have hr : (gst_d3d11_converter_convert converter frame).result
      = (gst_d3d11_converter_convert_unlocked converter frame).result := by
    simp [gst_d3d11_converter_convert, bind, Run.bind, pure, Run.pure, emit, hc]
  refine ⟨hr, ?_, convert_unlocked_no_lock converter frame, ⟨_, c', hr.trans hc⟩⟩
  simp [gst_d3d11_converter_convert, bind, Run.bind, pure, Run.pure, emit, hc]

/-- A `UINT` below `2 ^ 31` converts to the same `gint`. -/
theorem gint_of_guint_small (n : Nat) (h : n < 2 ^ 31) : gint_of_guint n = n := by
  have h32 : n % 2 ^ 32 = n := Nat.mod_eq_of_lt (by omega)
  unfold gint_of_guint
  rw [h32, if_pos h]

/-- A `UINT` survives the conversion to `gint` and back. -/
theorem guint_of_gint_of_guint (n : Nat) (h : n < 2 ^ 32) :
    guint_of_gint (gint_of_guint n) = n := by
  have h32 : n % 2 ^ 32 = n := Nat.mod_eq_of_lt h
  unfold guint_of_gint gint_of_guint
  rw [h32]
  split <;> omega

/-- C20: `gst_d3d11_converter_convert_unlocked` maps the vertex buffer (the
start of a geometry rebuild) exactly when the dirty flag is set or the width
or height of the input texture differs from the cached size. When it rebuilds
and the mapping succeeds, the cached size becomes the texture's size (as
`gint`, equal to the `UINT` values for sizes below `2 ^ 31`, and comparing
equal to them again for every `UINT`), the dirty flag is clear and the vertex
buffer holds the new geometry; when it does not rebuild, the converter (cached
size, flag, rectangles, viewports and all) is unchanged. -/
theorem convert_unlocked_rebuild_iff (converter : GstD3D11Converter) (frame : FrameOutcome) :
    ((∃ e ∈ (gst_d3d11_converter_convert_unlocked converter frame).trace,
        e.is_vertex_map = true) ↔
      (converter.update_vertex = true ∨
        frame.desc.Width ≠ guint_of_gint converter.input_texture_width ∨
        frame.desc.Height ≠ guint_of_gint converter.input_texture_height)) ∧
    ((converter.update_vertex = true ∨
        frame.desc.Width ≠ guint_of_gint converter.input_texture_width ∨
        frame.desc.Height ≠ guint_of_gint converter.input_texture_height) →
      frame.map_vertex_ok = true →
      ∃ ret c', (gst_d3d11_converter_convert_unlocked converter frame).result
          = .ok (ret, c') ∧
        c'.input_texture_width = gint_of_guint frame.desc.Width ∧
        c'.input_texture_height = gint_of_guint frame.desc.Height ∧
        (frame.desc.Width < 2 ^ 31 → c'.input_texture_width = frame.desc.Width) ∧
        (frame.desc.Height < 2 ^ 31 → c'.input_texture_height = frame.desc.Height) ∧
        (frame.desc.Width < 2 ^ 32 → frame.desc.Height < 2 ^ 32 →
          convert_needs_update c' frame.desc = false) ∧
        c'.update_vertex = false ∧
        c'.vertex_buffer
          = some (update_vertex_data (with_texture_size converter frame.desc))) ∧
    (¬ (converter.update_vertex = true ∨
        frame.desc.Width ≠ guint_of_gint converter.input_texture_width ∨
        frame.desc.Height ≠ guint_of_gint converter.input_texture_height) →
      ∃ ret, (gst_d3d11_converter_convert_unlocked converter frame).result
        = .ok (ret, converter)) := by
  have hneeds : convert_needs_update converter frame.desc = true ↔
      (converter.update_vertex = true ∨
        frame.desc.Width ≠ guint_of_gint converter.input_texture_width ∨
        frame.desc.Height ≠ guint_of_gint converter.input_texture_height) := by
    simp [convert_needs_update, or_assoc]
  refine ⟨?_, ?_, ?_⟩
  · rw [← hneeds]
    cases h : convert_needs_update converter frame.desc
    · rw [convert_unlocked_clean _ _ h, convert_unlocked_draw_trace]
      simp only [Bool.false_eq_true, iff_false, not_exists, not_and]
      intro e he
      split at he <;> simp at he <;> rcases he with rfl | rfl <;> simp [Event.is_vertex_map]
    · simp only [iff_true]
      cases hm : frame.map_vertex_ok
      · rw [convert_unlocked_map_failed _ _ h hm]
        exact ⟨.Map .vertex, by simp, rfl⟩
      · rw [convert_unlocked_rebuilt _ _ h hm]
        exact ⟨.Map .vertex, by simp, rfl⟩
  · intro h hm
    rw [convert_unlocked_rebuilt _ _ (hneeds.mpr h) hm, convert_unlocked_draw_result]
    refine ⟨_, _, rfl, rfl, rfl, ?_, ?_, ?_, rfl, rfl⟩
    · intro hw
      exact gint_of_guint_small _ hw
    · intro hh
      exact gint_of_guint_small _ hh
    · intro hw hh
      simp [convert_needs_update, with_rebuilt_geometry, with_texture_size,
        guint_of_gint_of_guint _ hw, guint_of_gint_of_guint _ hh]
  · intro h
    have hn : convert_needs_update converter frame.desc = false := by
      cases hc : convert_needs_update converter frame.desc
      · rfl
      · exact absurd (hneeds.mp hc) h
    rw [convert_unlocked_clean _ _ hn, convert_unlocked_draw_result]
    exact ⟨_, rfl⟩

/-- C20 on the sample converter: a 1280x720 texture triggers the rebuild, after
which the cached size is 1280x720 and the flag is clear. -/
theorem convert_unlocked_rebuild_iff_witness :
    ∃ ret c', (gst_d3d11_converter_convert_unlocked sample_converter
          ⟨⟨1280, 720⟩, true, fun _ => true⟩).result = .ok (ret, c') ∧
      c'.input_texture_width = 1280 ∧ c'.input_texture_height = 720 ∧
      c'.update_vertex = false := by
  obtain ⟨ret, c', hr, -, -, hw, hh, -, hu, -⟩ :=
    (convert_unlocked_rebuild_iff sample_converter ⟨⟨1280, 720⟩, true, fun _ => true⟩).2.1
      (Or.inr (Or.inl (by rw [sample_converter_fields.2.2.2.1]; decide))) rfl
  exact ⟨ret, c', hr, hw (by norm_num), hh (by norm_num), hu⟩

/-- A successful `gst_d3d11_converter_update_viewport` stores the viewport in
`viewport[0]` and changes nothing but the viewports. -/
theorem update_viewport_frame (converter : GstD3D11Converter) (v : D3D11_VIEWPORT)
    (c : GstD3D11Converter)
    (h : gst_d3d11_converter_update_viewport converter v = .ok (true, c)) :
    c = { converter with viewport := c.viewport } ∧ c.viewport 0 = v := by
  unfold gst_d3d11_converter_update_viewport at h
  cases hf : converter.out_info.format <;>
    simp only [GST_VIDEO_INFO_FORMAT, hf, GST_VIDEO_INFO_N_PLANES, GstVideoInfo.finfo,
      gst_video_format_get_info] at h <;>
    first
      | (split at h
         · cases h
         · cases h
           exact ⟨rfl, by simp⟩)
      | (cases h
         exact ⟨rfl, by simp [viewport_store, List.range', Function.update]⟩)

/-- The first viewport of the sample converter. -/
theorem sample_converter_viewport :
    sample_converter.viewport 0 = ⟨0, 0, 640, 480, 0, 1⟩ := by
  simp [sample_converter, gst_d3d11_converter_new, gst_d3d11_converter_new_internal,
    gst_d3d11_device_format_from_gst, full_device,
    video_info, GST_VIDEO_INFO_FORMAT, bind, Run.bind, pure, Run.pure, emit, Run.lift,
    converter_classify, GST_VIDEO_INFO_IS_RGB, GST_VIDEO_INFO_IS_YUV,
    GstVideoInfo.finfo, gst_video_format_get_info, GST_VIDEO_INFO_N_PLANES,
    GST_VIDEO_INFO_WIDTH, GST_VIDEO_INFO_HEIGHT,
    setup_convert_info_rgb_to_yuv, g_new0_converter, ConvertInfo.set_ps_body,
    ConvertInfo.set_ps_output, converter_get_matrix, gst_d3d11_color_convert_setup_shader,
    setup_shader_pixel_shader, setup_shader_const_buffer, setup_shader_geometry,
    templ_RGB_to_YUV, List.range, List.range.loop, new_internal_viewport,
    GST_VIDEO_INFO_COMP_WIDTH, GST_VIDEO_INFO_COMP_HEIGHT, GST_VIDEO_SUB_SCALE, comp4,
    Function.update]

/-- C14 as stated fails: on the sample converter, whose geometry is clean,
`gst_d3d11_converter_update_viewport` with a viewport different from
`viewport[0]` returns TRUE and leaves the dirty flag clear, and the next
`gst_d3d11_converter_convert_unlocked` with the unchanged 640x480 texture maps
no vertex buffer. -/
theorem update_viewport_keeps_clean :
    sample_converter.update_vertex = false ∧
    sample_converter.viewport 0 ≠ ⟨10, 20, 320, 240, 0, 1⟩ ∧
    ∃ c, gst_d3d11_converter_update_viewport sample_converter ⟨10, 20, 320, 240, 0, 1⟩
        = .ok (true, c) ∧
      c.update_vertex = false ∧
      ((gst_d3d11_converter_convert_unlocked c sample_frame).trace.all
        fun e => !e.is_vertex_map) = true := by
  refine ⟨sample_converter_fields.2.2.1, ?_, ?_⟩
  · rw [sample_converter_viewport]; decide
  · have hfmt : sample_converter.out_info.format = .NV12 := by
      rw [sample_converter_fields.2.2.2.2.2.2.2.2.2]; rfl
    have hrun : ∃ c, gst_d3d11_converter_update_viewport sample_converter
        ⟨10, 20, 320, 240, 0, 1⟩ = .ok (true, c) := by
      simp [gst_d3d11_converter_update_viewport, GST_VIDEO_INFO_FORMAT, hfmt]
    obtain ⟨c, hc⟩ := hrun
    have hframe := (update_viewport_frame _ _ _ hc).1
    have hclean : convert_needs_update c sample_frame.desc = false := by
      rw [hframe]
      simp [convert_needs_update, sample_converter_fields.2.2.1,
        sample_converter_fields.2.2.2.1, sample_converter_fields.2.2.2.2.1, sample_frame,
        guint_of_gint]
    refine ⟨c, hc, ?_, ?_⟩
    · rw [hframe]; exact sample_converter_fields.2.2.1
    · rw [convert_unlocked_clean _ _ hclean, convert_unlocked_draw_trace]
      split <;> simp [Event.is_vertex_map]

/-- C14, amended: a successful `gst_d3d11_converter_update_viewport` stores the
viewport and leaves the dirty flag, and everything else but the viewports, as
it was; whether the next `gst_d3d11_converter_convert_unlocked` rebuilds the
geometry is unchanged by it, and when no rebuild is due that call maps no
vertex buffer and starts with the draw of the first quad on the new
viewports. -/
theorem update_viewport_geometry_flag (converter : GstD3D11Converter) (v : D3D11_VIEWPORT)
    (c : GstD3D11Converter)
    (h : gst_d3d11_converter_update_viewport converter v = .ok (true, c)) :
    c = { converter with viewport := c.viewport } ∧ c.viewport 0 = v ∧
    c.update_vertex = converter.update_vertex ∧
    (∀ desc, convert_needs_update c desc = convert_needs_update converter desc) ∧
    (∀ frame : FrameOutcome, convert_needs_update converter frame.desc = false →
      (∀ e ∈ (gst_d3d11_converter_convert_unlocked c frame).trace,
        e.is_vertex_map = false) ∧
      (gst_d3d11_converter_convert_unlocked c frame).trace.head?
        = some (.draw_quad ⟨0, c.viewport, 0, 1, converter.num_input_view, 0, 1⟩)) := by
  obtain ⟨hframe, hv⟩ := update_viewport_frame converter v c h
  have hflag : c.update_vertex = converter.update_vertex := by rw [hframe]
  have hneeds : ∀ desc, convert_needs_update c desc = convert_needs_update converter desc := by
    intro desc
    rw [hframe]
    rfl
  have hnum : c.num_input_view = converter.num_input_view := by rw [hframe]
  refine ⟨hframe, hv, hflag, hneeds, ?_⟩
  intro frame hclean
  have hc : convert_needs_update c frame.desc = false := by rw [hneeds]; exact hclean
  rw [convert_unlocked_clean _ _ hc, convert_unlocked_draw_trace, hnum]
  refine ⟨?_, rfl⟩
  intro e he
  split at he <;> simp at he <;> rcases he with rfl | rfl <;> rfl

/-- C14, amended, on the sample converter and the 640x480 frame. -/
theorem update_viewport_geometry_flag_witness :
    ∃ c, gst_d3d11_converter_update_viewport sample_converter ⟨10, 20, 320, 240, 0, 1⟩
        = .ok (true, c) ∧
      c.viewport 0 = ⟨10, 20, 320, 240, 0, 1⟩ ∧
      c.update_vertex = sample_converter.update_vertex := by
  have hfmt : sample_converter.out_info.format = .NV12 := by
    rw [sample_converter_fields.2.2.2.2.2.2.2.2.2]; rfl
  have hrun : ∃ c, gst_d3d11_converter_update_viewport sample_converter
      ⟨10, 20, 320, 240, 0, 1⟩ = .ok (true, c) := by
    simp [gst_d3d11_converter_update_viewport, GST_VIDEO_INFO_FORMAT, hfmt]
  obtain ⟨c, hc⟩ := hrun
  exact ⟨c, hc, (update_viewport_geometry_flag _ _ _ hc).2.1,
    (update_viewport_geometry_flag _ _ _ hc).2.2.1⟩

/-- C19 as stated fails: the RGB -> YUV pair RGBA -> VUYA is accepted with a
single body that declares one render target; there is no chroma body. -/
theorem rgb_to_vuya_single_body :
    GST_VIDEO_INFO_IS_RGB (video_info .RGBA .RGB) = true ∧
    GST_VIDEO_INFO_IS_YUV (video_info .VUYA .BT709) = true ∧
    ∃ info, converter_classify (g_new0_converter full_device 1)
        (video_info .RGBA .RGB) (video_info .VUYA .BT709) = .ok (true, info) ∧
      info.ps_body 0 = some ⟨.templ_RGB_to_VUYA_BODY, []⟩ ∧
      info.ps_body 1 = none ∧ info.ps_output 1 = none ∧
      plan_render_targets info = 1 :=
  ⟨rfl, rfl, _, rfl, rfl, rfl, rfl, rfl⟩

/-- C19, amended: for an RGB input and a YUV output the classifier accepts,
the output is one of VUYA, NV12, P010_10LE, P016_LE, I420, I420_10LE. For the
semi-planar and planar outputs the plan is the luma body (one render target)
followed by a chroma body that declares one render target when the output is
semi-planar (NV12, P010_10LE, P016_LE) and two when it is planar (I420,
I420_10LE); for VUYA the plan is a single body with one render target. -/
theorem rgb_to_yuv_plan (device : GstD3D11Device) (alpha : ℚ)
    (in_info out_info : GstVideoInfo) (info : ConvertInfo)
    (hin : GST_VIDEO_INFO_IS_RGB in_info = true)
    (hout : GST_VIDEO_INFO_IS_YUV out_info = true)
    (h : converter_classify (g_new0_converter device alpha) in_info out_info
      = .ok (true, info)) :
    (out_info.format ∈ [GstVideoFormat.NV12, .P010_10LE, .P016_LE] ∧
      (∃ div, info.ps_body 0 = some ⟨.templ_RGB_to_LUMA_BODY, [.d div]⟩) ∧
      info.ps_body 1 = some ⟨.templ_RGB_to_SEMI_PLANAR_CHROMA_BODY, []⟩ ∧
      body_render_targets info 0 = 1 ∧ body_render_targets info 1 = 1) ∨
    (out_info.format ∈ [GstVideoFormat.I420, .I420_10LE] ∧
      (∃ div, info.ps_body 0 = some ⟨.templ_RGB_to_LUMA_BODY, [.d div]⟩ ∧
        info.ps_body 1 = some ⟨.templ_RGB_to_PLANAR_CHROMA_BODY, [.d div, .d div]⟩) ∧
      body_render_targets info 0 = 1 ∧ body_render_targets info 1 = 2) ∨
    (out_info.format = .VUYA ∧
      info.ps_body 0 = some ⟨.templ_RGB_to_VUYA_BODY, []⟩ ∧ info.ps_body 1 = none ∧
      body_render_targets info 0 = 1 ∧ body_render_targets info 1 = 0) := by
  obtain ⟨fo, wo, ho, co⟩ := out_info
  have hrgb : GST_VIDEO_INFO_IS_RGB ⟨fo, wo, ho, co⟩ = false := by
    simp only [GST_VIDEO_INFO_IS_YUV, GST_VIDEO_INFO_IS_RGB, decide_eq_true_eq] at hout ⊢
    simp [hout]
  simp only [converter_classify, hin, hout, hrgb, if_true, Bool.false_eq_true, if_false]
    at h
  cases fo <;> cases h <;>
    simp [body_render_targets, g_new0_converter, ConvertInfo.set_ps_body,
      ConvertInfo.set_ps_output, g_strdup_printf, PsOutput.render_targets,
      Function.update]

/-- C19, amended, at RGBA -> I420_10LE: luma body, then the planar chroma body
with two render targets, both dividing by 64. -/
theorem rgb_to_yuv_plan_witness :
    ∃ info, converter_classify (g_new0_converter full_device 1)
        (video_info .RGBA .RGB) (video_info .I420_10LE .BT709) = .ok (true, info) ∧
      info.ps_body 0 = some ⟨.templ_RGB_to_LUMA_BODY, [.d 64]⟩ ∧
      info.ps_body 1 = some ⟨.templ_RGB_to_PLANAR_CHROMA_BODY, [.d 64, .d 64]⟩ ∧
      body_render_targets info 0 = 1 ∧ body_render_targets info 1 = 2 ∧
      ((video_info .I420_10LE .BT709).format ∈ [GstVideoFormat.NV12, .P010_10LE, .P016_LE] ∨
        (video_info .I420_10LE .BT709).format ∈ [GstVideoFormat.I420, .I420_10LE] ∨
        (video_info .I420_10LE .BT709).format = .VUYA) := by
  refine ⟨_, rfl, rfl, rfl, rfl, rfl, ?_⟩
  rcases rgb_to_yuv_plan full_device 1 (video_info .RGBA .RGB)
    (video_info .I420_10LE .BT709) _ rfl rfl rfl with h | h | h
  · exact Or.inl h.1
  · exact Or.inr (Or.inl h.1)
  · exact Or.inr (Or.inr h.1)

/-! ### What construction leaves in the converter -/

/-- The result of `x >>= k` is the result of the continuation on the result
of `x`. -/
theorem Run.result_bind_ok {α β : Type} (x : Run α) (k : α → Run β) (b : β)
    (h : (x >>= k).result = .ok b) :
    ∃ a, x.result = .ok a ∧ (k a).result = .ok b := by
  have h' : (Run.bind x k).result = .ok b := h
  unfold Run.bind at h'
  cases hr : x.result with
  | error err => rw [hr] at h'; cases h'
  | ok a => rw [hr] at h'; exact ⟨a, rfl, h'⟩

/-- The geometry part of shader setup returns FALSE with the converter
untouched, or TRUE with the quads, view counts, rectangles, texture size and
vertex buffer set. -/
theorem setup_shader_geometry_result (self : GstD3D11Converter) (device : GstD3D11Device)
    (in_info out_info : GstVideoInfo) (ps : Fin 2 → Option PixelShaderCode)
    (const_buffer : Option PixelShaderColorTransform) (ret : Bool) (c' : GstD3D11Converter)
    (h : (setup_shader_geometry self device in_info out_info ps const_buffer).result
      = .ok (ret, c')) :
    (ret = false ∧ c' = self) ∨
    (ret = true ∧ c' = setup_shader_done self in_info out_info c'.quad) := by
  unfold setup_shader_geometry at h
  cases h1 : device.create_vertex_shader_ok <;> cases h2 : device.CreateBuffer_ok .vertex <;>
    cases h3 : device.CreateBuffer_ok .index <;> cases h4 : device.Map_ok .vertex <;>
    cases h5 : device.Map_ok .index <;> cases h6 : ps 1 <;>
    simp [bind, Run.bind, pure, Run.pure, emit, h1, h2, h3, h4, h5, h6] at h <;>
    obtain ⟨rfl, rfl⟩ := h <;>
    simp [setup_shader_done]

/-- `gst_d3d11_color_convert_setup_shader` returns FALSE with the converter
untouched, or TRUE with the quads, view counts, rectangles, texture size and
vertex buffer set; the plan and the viewports are never changed. -/
theorem setup_shader_result (self : GstD3D11Converter) (device : GstD3D11Device)
    (in_info out_info : GstVideoInfo) (ret : Bool) (c' : GstD3D11Converter)
    (h : (gst_d3d11_color_convert_setup_shader self device in_info out_info).result
      = .ok (ret, c')) :
    (ret = false ∧ c' = self) ∨
    (ret = true ∧ c' = setup_shader_done self in_info out_info c'.quad) := by
  unfold gst_d3d11_color_convert_setup_shader at h
  obtain ⟨_, -, h⟩ := Run.result_bind_ok _ _ _ h
  split at h
  · simp [bind, Run.bind, pure, Run.pure, emit] at h
    exact Or.inl ⟨h.1, h.2.symm⟩
  · obtain ⟨r0, -, h⟩ := Run.result_bind_ok _ _ _ h
    split at h
    · simp [pure, Run.pure] at h
      exact Or.inl ⟨h.1, h.2.symm⟩
    · obtain ⟨r1, -, h⟩ := Run.result_bind_ok _ _ _ h
      split at h
      · simp [pure, Run.pure] at h
        exact Or.inl ⟨h.1, h.2.symm⟩
      · obtain ⟨r2, -, h⟩ := Run.result_bind_ok _ _ _ h
        split at h
        · simp [pure, Run.pure] at h
          exact Or.inl ⟨h.1, h.2.symm⟩
        · exact setup_shader_geometry_result _ _ _ _ _ _ _ _ h

/-- Every converter `gst_d3d11_converter_new_internal` returns comes from an
accepted classification and is the zero-filled converter with the plan (and
the transform, when one was computed), the viewports of the output, and the
fields shader setup writes. -/
theorem new_internal_some (lib : GstVideoLib) (device : GstD3D11Device)
    (in_info out_info : GstVideoInfo) (alpha : ℚ) (c : GstD3D11Converter)
    (h : (gst_d3d11_converter_new_internal lib device in_info out_info alpha).result
      = .ok (some c)) :
    ∃ info, converter_classify (g_new0_converter device alpha) in_info out_info
        = .ok (true, info) ∧
      c = { setup_shader_done
              { g_new0_converter device alpha with
                convert_info := new_internal_convert_info lib in_info out_info info
                viewport := new_internal_viewports out_info }
              in_info out_info c.quad with
            in_info := in_info, out_info := out_info } := by
  unfold gst_d3d11_converter_new_internal at h
  obtain ⟨_, -, h⟩ := Run.result_bind_ok _ _ _ h
  split at h
  · simp [format_unknown, bind, Run.bind, pure, Run.pure, emit] at h
  · obtain ⟨_, -, h⟩ := Run.result_bind_ok _ _ _ h
    split at h
    · simp [format_unknown, bind, Run.bind, pure, Run.pure, emit] at h
    · obtain ⟨_, -, h⟩ := Run.result_bind_ok _ _ _ h
      obtain ⟨r, hr, h⟩ := Run.result_bind_ok _ _ _ h
      obtain ⟨is_supported, info⟩ := r
      have hc : converter_classify (g_new0_converter device alpha) in_info out_info
          = .ok (is_supported, info) := hr
      cases is_supported with
      | false =>
        simp [conversion_not_supported, gst_d3d11_converter_free, bind, Run.bind,
          pure, Run.pure, emit] at h
      | true =>
        refine ⟨info, hc, ?_⟩
        dsimp only at h
        rw [if_neg (by simp)] at h
        obtain ⟨_, -, h⟩ := Run.result_bind_ok _ _ _ h
        obtain ⟨r2, hr2, h⟩ := Run.result_bind_ok _ _ _ h
        obtain ⟨ret, c2⟩ := r2
        cases ret with
        | false =>
          simp [gst_d3d11_converter_free, bind, Run.bind, pure, Run.pure, emit] at h
        | true =>
          simp [pure, Run.pure] at h
          rcases setup_shader_result _ _ _ _ _ _ hr2 with ⟨hf, -⟩ | ⟨-, hc2⟩
          · cases hf
          · rw [← h, hc2]
            cases hm : (converter_get_matrix lib in_info out_info).1 <;>
              simp [setup_shader_done, new_internal_convert_info, new_internal_viewports, hm,
                g_new0_converter]

/-- The sample converter is what construction returns. -/
theorem sample_converter_built :
    (gst_d3d11_converter_new_internal gst_video_lib full_device
      (video_info .RGBA .RGB) (video_info .NV12 .BT709) 1).result
      = .ok (some sample_converter) := by
  have hex : ∃ c, (gst_d3d11_converter_new_internal gst_video_lib full_device
      (video_info .RGBA .RGB) (video_info .NV12 .BT709) 1).result = .ok (some c) := by
    simp [gst_d3d11_converter_new_internal,
      gst_d3d11_device_format_from_gst, full_device,
      video_info, GST_VIDEO_INFO_FORMAT, bind, Run.bind, pure, Run.pure, emit, Run.lift,
      converter_classify, GST_VIDEO_INFO_IS_RGB, GST_VIDEO_INFO_IS_YUV,
      GstVideoInfo.finfo, gst_video_format_get_info,
      setup_convert_info_rgb_to_yuv, g_new0_converter, ConvertInfo.set_ps_body,
      ConvertInfo.set_ps_output, converter_get_matrix, gst_d3d11_color_convert_setup_shader,
      setup_shader_pixel_shader, setup_shader_const_buffer, setup_shader_geometry,
      templ_RGB_to_YUV]
  obtain ⟨c, hc⟩ := hex
  unfold sample_converter gst_d3d11_converter_new
  rw [hc]

/-- The rounding of `GST_VIDEO_SUB_SCALE` by one bit: half, rounded up. -/
theorem sub_scale_one (val : Int) : GST_VIDEO_SUB_SCALE 1 val = (val + 1) / 2 := by
  unfold GST_VIDEO_SUB_SCALE
  norm_num
  omega

/-- `GST_VIDEO_SUB_SCALE` by no bit is the value. -/
theorem sub_scale_zero (val : Int) : GST_VIDEO_SUB_SCALE 0 val = val := by
  simp [GST_VIDEO_SUB_SCALE]

/-- The viewports construction computes for a 4:2:0 output: the full frame for
plane 0 and the halves, rounded up, for the other planes. -/
theorem new_internal_viewports_subsampled (out_info : GstVideoInfo)
    (hfmt : out_info.format ∈
      [GstVideoFormat.NV12, .P010_10LE, .P016_LE, .I420, .I420_10LE]) :
    new_internal_viewports out_info 0
      = ⟨0, 0, (out_info.width : ℚ), (out_info.height : ℚ), 0, 1⟩ ∧
    ∀ i : Fin 4, 1 ≤ i.val → i.val < GST_VIDEO_INFO_N_PLANES out_info →
      new_internal_viewports out_info i
        = ⟨0, 0, (((out_info.width + 1) / 2 : Int) : ℚ),
            (((out_info.height + 1) / 2 : Int) : ℚ), 0, 1⟩ := by
  obtain ⟨fo, wo, ho, co⟩ := out_info
  simp only [List.mem_cons, List.mem_singleton, List.not_mem_nil, or_false] at hfmt
  rcases hfmt with rfl | rfl | rfl | rfl | rfl <;>
    simp [new_internal_viewports, new_internal_viewport, GST_VIDEO_INFO_N_PLANES,
      GstVideoInfo.finfo, gst_video_format_get_info, List.range, List.range.loop,
      GST_VIDEO_INFO_COMP_WIDTH, GST_VIDEO_INFO_COMP_HEIGHT, comp4, sub_scale_one,
      sub_scale_zero, Function.update] <;>
    intro i h1 h2 <;>
    fin_cases i <;> simp at h1 h2 ⊢

/-- Construction succeeds for RGBA 640x480 -> NV12 641x481 on `full_device`. -/
theorem odd_output_built :
    ∃ c, (gst_d3d11_converter_new_internal gst_video_lib full_device
      (video_info .RGBA .RGB) ⟨.NV12, 641, 481, ⟨.RANGE_16_235, .BT709⟩⟩ 1).result
      = .ok (some c) := by
  simp [gst_d3d11_converter_new_internal,
    gst_d3d11_device_format_from_gst, full_device,
    video_info, GST_VIDEO_INFO_FORMAT, bind, Run.bind, pure, Run.pure, emit, Run.lift,
    converter_classify, GST_VIDEO_INFO_IS_RGB, GST_VIDEO_INFO_IS_YUV,
    GstVideoInfo.finfo, gst_video_format_get_info,
    setup_convert_info_rgb_to_yuv, g_new0_converter, ConvertInfo.set_ps_body,
    ConvertInfo.set_ps_output, converter_get_matrix, gst_d3d11_color_convert_setup_shader,
    setup_shader_pixel_shader, setup_shader_const_buffer, setup_shader_geometry,
    templ_RGB_to_YUV]

/-- The viewports of a constructed converter are those computed from the
output. -/
theorem new_internal_viewport_eq (lib : GstVideoLib) (device : GstD3D11Device)
    (in_info out_info : GstVideoInfo) (alpha : ℚ) (c : GstD3D11Converter)
    (h : (gst_d3d11_converter_new_internal lib device in_info out_info alpha).result
      = .ok (some c)) :
    c.viewport = new_internal_viewports out_info := by
  obtain ⟨info, -, hc⟩ := new_internal_some lib device in_info out_info alpha c h
  rw [hc]
  rfl

/-- C11 as stated fails: for the NV12 output of 641x481 the chroma viewport
after construction is 321x241, not 641/2 x 481/2. -/
theorem construction_viewport_odd :
    ∃ c, (gst_d3d11_converter_new_internal gst_video_lib full_device
        (video_info .RGBA .RGB) ⟨.NV12, 641, 481, ⟨.RANGE_16_235, .BT709⟩⟩ 1).result
        = .ok (some c) ∧
      c.viewport 0 = ⟨0, 0, 641, 481, 0, 1⟩ ∧
      (c.viewport 1).Width = 321 ∧ (c.viewport 1).Height = 241 ∧
      (c.viewport 1).Width ≠ 641 / 2 ∧ (c.viewport 1).Height ≠ 481 / 2 := by
  obtain ⟨c, hc⟩ := odd_output_built
  have hv := new_internal_viewport_eq _ _ _ _ _ _ hc
  obtain ⟨h0, hi⟩ := new_internal_viewports_subsampled
    ⟨.NV12, 641, 481, ⟨.RANGE_16_235, .BT709⟩⟩ (by simp)
  have h1 := hi 1 (by decide) (by decide)
  refine ⟨c, hc, ?_, ?_, ?_, ?_, ?_⟩
  · rw [hv, h0]; norm_num
  · rw [hv, h1]; norm_num
  · rw [hv, h1]; norm_num
  · rw [hv, h1]; norm_num
  · rw [hv, h1]; norm_num

/-- C11, amended: immediately after construction with a 4:2:0 output format
(NV12, P010_10LE, P016_LE, I420, I420_10LE) of width W and height H,
`viewport[0]` is (0, 0, W, H) with depth range 0..1, and every chroma-plane
viewport is (0, 0, (W + 1) / 2, (H + 1) / 2), the halves rounded up; the width
is exactly W / 2 when W is even and the height exactly H / 2 when H is even. -/
theorem construction_viewports (lib : GstVideoLib) (device : GstD3D11Device)
    (in_info out_info : GstVideoInfo) (alpha : ℚ) (c : GstD3D11Converter)
    (h : (gst_d3d11_converter_new_internal lib device in_info out_info alpha).result
      = .ok (some c))
    (hfmt : out_info.format ∈
      [GstVideoFormat.NV12, .P010_10LE, .P016_LE, .I420, .I420_10LE]) :
    c.viewport 0 = ⟨0, 0, (out_info.width : ℚ), (out_info.height : ℚ), 0, 1⟩ ∧
    (∀ i : Fin 4, 1 ≤ i.val → i.val < GST_VIDEO_INFO_N_PLANES out_info →
      c.viewport i = ⟨0, 0, (((out_info.width + 1) / 2 : Int) : ℚ),
        (((out_info.height + 1) / 2 : Int) : ℚ), 0, 1⟩) ∧
    (out_info.width % 2 = 0 →
      (((out_info.width + 1) / 2 : Int) : ℚ) = (out_info.width : ℚ) / 2) ∧
    (out_info.height % 2 = 0 →
      (((out_info.height + 1) / 2 : Int) : ℚ) = (out_info.height : ℚ) / 2) := by
  have hv := new_internal_viewport_eq _ _ _ _ _ _ h
  obtain ⟨h0, hi⟩ := new_internal_viewports_subsampled out_info hfmt
  have heven : ∀ w : Int, w % 2 = 0 → (((w + 1) / 2 : Int) : ℚ) = (w : ℚ) / 2 := by
    intro w hw
    obtain ⟨k, rfl⟩ : ∃ k, w = 2 * k := ⟨w / 2, by omega⟩
    have : (2 * k + 1) / 2 = k := by omega
    rw [this]
    push_cast
    ring
  refine ⟨by rw [hv, h0], ?_, heven _, heven _⟩
  intro i h1 h2
  rw [hv, hi i h1 h2]

/-- C11, amended, for the NV12 output of 641x481 built on `full_device`. -/
theorem construction_viewports_witness :
    ∃ c, (gst_d3d11_converter_new_internal gst_video_lib full_device
        (video_info .RGBA .RGB) ⟨.NV12, 641, 481, ⟨.RANGE_16_235, .BT709⟩⟩ 1).result
        = .ok (some c) ∧
      c.viewport 0 = ⟨0, 0, ((641 : Int) : ℚ), ((481 : Int) : ℚ), 0, 1⟩ ∧
      c.viewport 1 = ⟨0, 0, (((641 + 1) / 2 : Int) : ℚ), (((481 + 1) / 2 : Int) : ℚ), 0, 1⟩ := by
  obtain ⟨c, hc⟩ := odd_output_built
  have h := construction_viewports gst_video_lib full_device (video_info .RGBA .RGB)
    ⟨.NV12, 641, 481, ⟨.RANGE_16_235, .BT709⟩⟩ 1 c hc (by simp)
  exact ⟨c, hc, h.1, h.2.1 1 (by decide) (by decide)⟩

/-- C18: in every converter construction returns, the `trans_matrix` entries 3,
7 and 11 are 0, and when `converter_get_matrix` reported a transform the entry
`4 * i + j` is the working matrix entry `dm[i][j]` for all `i`, `j` below 3;
when it reported none, all twelve entries are the 0 of `g_new0`. -/
theorem trans_matrix_layout (lib : GstVideoLib) (device : GstD3D11Device)
    (in_info out_info : GstVideoInfo) (alpha : ℚ) (c : GstD3D11Converter)
    (h : (gst_d3d11_converter_new_internal lib device in_info out_info alpha).result
      = .ok (some c)) :
    c.convert_info.transform.trans_matrix 3 = 0 ∧
    c.convert_info.transform.trans_matrix 7 = 0 ∧
    c.convert_info.transform.trans_matrix 11 = 0 ∧
    ((converter_get_matrix lib in_info out_info).1 = true →
      ∀ i j : Fin 3,
        c.convert_info.transform.trans_matrix ⟨4 * i.val + j.val, by omega⟩
          = (converter_get_matrix lib in_info out_info).2.dm
              ⟨i.val, by omega⟩ ⟨j.val, by omega⟩) ∧
    ((converter_get_matrix lib in_info out_info).1 = false →
      ∀ k, c.convert_info.transform.trans_matrix k = 0) := by
  obtain ⟨info, hcl, hc⟩ := new_internal_some lib device in_info out_info alpha c h
  have hzero := (classify_accepted_bool device alpha in_info out_info info hcl).2.2.2.2.2.2.2
  have hci : c.convert_info = new_internal_convert_info lib in_info out_info info := by
    rw [hc]; rfl
  rw [hci]
  cases hm : (converter_get_matrix lib in_info out_info).1
  · simp [new_internal_convert_info, hm, hzero]
  · simp only [new_internal_convert_info, hm, if_true, hzero]
    refine ⟨by simp [store_trans_matrix, Function.update],
      by simp [store_trans_matrix, Function.update],
      by simp [store_trans_matrix, Function.update], ?_, by simp⟩
    intro _ i j
    fin_cases i <;> fin_cases j <;> simp [store_trans_matrix, Function.update]

/-- C18 on the sample converter (RGBA with the RGB matrix to NV12 with BT709,
so that a transform is computed). -/
theorem trans_matrix_layout_witness :
    (converter_get_matrix gst_video_lib (video_info .RGBA .RGB)
      (video_info .NV12 .BT709)).1 = true ∧
    sample_converter.convert_info.transform.trans_matrix 3 = 0 ∧
    sample_converter.convert_info.transform.trans_matrix 7 = 0 ∧
    sample_converter.convert_info.transform.trans_matrix 11 = 0 ∧
    sample_converter.convert_info.transform.trans_matrix 5
      = (converter_get_matrix gst_video_lib (video_info .RGBA .RGB)
          (video_info .NV12 .BT709)).2.dm 1 1 :=
  ⟨rfl,
   (trans_matrix_layout _ _ _ _ _ _ sample_converter_built).1,
   (trans_matrix_layout _ _ _ _ _ _ sample_converter_built).2.1,
   (trans_matrix_layout _ _ _ _ _ _ sample_converter_built).2.2.1,
   (trans_matrix_layout _ _ _ _ _ _ sample_converter_built).2.2.2.1 rfl 1 1⟩

/-! ### The colour matrix as a matrix product -/

/-- `color_matrix_multiply` computes the matrix product. -/
theorem color_matrix_multiply_toMatrix (a b : MatrixData) :
    (color_matrix_multiply a b).toMatrix = a.toMatrix * b.toMatrix := by
  ext i j
  have hr : List.finRange 4 = [0, 1, 2, 3] := by decide
  simp [color_matrix_multiply, color_matrix_copy, MatrixData.toMatrix, Matrix.mul_apply,
    Fin.sum_univ_four, hr, add_assoc]

/-- The identity working matrix is the identity matrix. -/
theorem color_matrix_set_identity_toMatrix : color_matrix_set_identity.toMatrix = 1 := by
  ext i j
  simp [color_matrix_set_identity, MatrixData.toMatrix, Matrix.one_apply]

/-- `color_matrix_offset_components` multiplies by `T` from the left. -/
theorem color_matrix_offset_components_toMatrix (m : MatrixData) (a1 a2 a3 : ℚ) :
    (color_matrix_offset_components m a1 a2 a3).toMatrix = spec_T a1 a2 a3 * m.toMatrix := by
  unfold color_matrix_offset_components
  rw [color_matrix_multiply_toMatrix]
  congr 1
  ext i j
  fin_cases i <;> fin_cases j <;>
    simp [MatrixData.set, color_matrix_set_identity, MatrixData.toMatrix, spec_T,
      Function.update] <;>
    rfl

/-- `color_matrix_scale_components` multiplies by `S` from the left. -/
theorem color_matrix_scale_components_toMatrix (m : MatrixData) (a1 a2 a3 : ℚ) :
    (color_matrix_scale_components m a1 a2 a3).toMatrix = spec_S a1 a2 a3 * m.toMatrix := by
  unfold color_matrix_scale_components
  rw [color_matrix_multiply_toMatrix]
  congr 1
  ext i j
  fin_cases i <;> fin_cases j <;>
    simp [MatrixData.set, color_matrix_set_identity, MatrixData.toMatrix, spec_S,
      Function.update] <;>
    rfl

/-- `color_matrix_YCbCr_to_RGB` multiplies by the rotation from the left. -/
theorem color_matrix_YCbCr_to_RGB_toMatrix (m : MatrixData) (Kr Kb : ℚ) :
    (color_matrix_YCbCr_to_RGB m Kr Kb).toMatrix = spec_YCbCr_to_RGB Kr Kb * m.toMatrix := by
  unfold color_matrix_YCbCr_to_RGB
  rw [color_matrix_multiply_toMatrix]
  congr 1
  ext i j
  fin_cases i <;> fin_cases j <;>
    simp [MatrixData.ofRows, row4, MatrixData.toMatrix, spec_YCbCr_to_RGB]
  rfl

/-- `color_matrix_RGB_to_YCbCr` multiplies by the rotation from the left. -/
theorem color_matrix_RGB_to_YCbCr_toMatrix (m : MatrixData) (Kr Kb : ℚ) :
    (color_matrix_RGB_to_YCbCr m Kr Kb).toMatrix = spec_RGB_to_YCbCr Kr Kb * m.toMatrix := by
  unfold color_matrix_RGB_to_YCbCr
  rw [color_matrix_multiply_toMatrix]
  congr 1
  ext i j
  fin_cases i <;> fin_cases j <;>
    simp [MatrixData.ofRows, row4, MatrixData.toMatrix, spec_RGB_to_YCbCr]

/-- A format is not both RGB and YUV. -/
theorem is_yuv_of_not_rgb (info : GstVideoInfo)
    (h : GST_VIDEO_INFO_IS_RGB info = true ∨ GST_VIDEO_INFO_IS_YUV info = true) :
    GST_VIDEO_INFO_IS_YUV info = !GST_VIDEO_INFO_IS_RGB info := by
  simp only [GST_VIDEO_INFO_IS_RGB, GST_VIDEO_INFO_IS_YUV, decide_eq_true_eq] at h ⊢
  rcases h with h | h <;> simp [h]

/-- `compute_matrix_to_RGB` multiplies by `ToRGB` from the left. -/
theorem compute_matrix_to_RGB_toMatrix (lib : GstVideoLib) (data : MatrixData)
    (info : GstVideoInfo)
    (h : GST_VIDEO_INFO_IS_RGB info = true ∨ GST_VIDEO_INFO_IS_YUV info = true) :
    (compute_matrix_to_RGB lib data info).toMatrix = spec_ToRGB lib info * data.toMatrix := by
  have hy := is_yuv_of_not_rgb info h
  unfold compute_matrix_to_RGB spec_ToRGB spec_K_in
  rw [hy]
  cases hr : GST_VIDEO_INFO_IS_RGB info
  · cases hk : lib.color_matrix_get_Kr_Kb info.colorimetry.matrix with
    | none =>
      simp [color_matrix_scale_components_toMatrix,
        color_matrix_offset_components_toMatrix, Matrix.mul_assoc]
    | some p =>
      obtain ⟨Kr, Kb⟩ := p
      simp [color_matrix_YCbCr_to_RGB_toMatrix, color_matrix_scale_components_toMatrix,
        color_matrix_offset_components_toMatrix, Matrix.mul_assoc]
  · simp [color_matrix_scale_components_toMatrix,
      color_matrix_offset_components_toMatrix, Matrix.mul_assoc]

/-- `compute_matrix_to_YUV` multiplies by `ToYUV` from the left. -/
theorem compute_matrix_to_YUV_toMatrix (lib : GstVideoLib) (data : MatrixData)
    (info : GstVideoInfo)
    (h : GST_VIDEO_INFO_IS_RGB info = true ∨ GST_VIDEO_INFO_IS_YUV info = true) :
    (compute_matrix_to_YUV lib data info).toMatrix = spec_ToYUV lib info * data.toMatrix := by
  have hy := is_yuv_of_not_rgb info h
  unfold compute_matrix_to_YUV spec_ToYUV spec_K_out
  rw [hy]
  cases hr : GST_VIDEO_INFO_IS_RGB info
  · cases hk : lib.color_matrix_get_Kr_Kb info.colorimetry.matrix with
    | none =>
      simp [color_matrix_scale_components_toMatrix,
        color_matrix_offset_components_toMatrix, Matrix.mul_assoc]
    | some p =>
      obtain ⟨Kr, Kb⟩ := p
      simp [color_matrix_RGB_to_YCbCr_toMatrix, color_matrix_scale_components_toMatrix,
        color_matrix_offset_components_toMatrix, Matrix.mul_assoc]
  · simp [color_matrix_scale_components_toMatrix,
      color_matrix_offset_components_toMatrix, Matrix.mul_assoc]

/-- `S (a, a, a)` is the identity only for `a = 1`. -/
theorem spec_S_eq_one_iff (a : ℚ) : spec_S a a a = 1 ↔ a = 1 := by
  constructor
  · intro h
    have := congrFun (congrFun h 0) 0
    simpa [spec_S] using this
  · rintro rfl
    ext i j
    fin_cases i <;> fin_cases j <;> simp [spec_S] <;> rfl

/-- C17: in exact arithmetic, for two video infos (each RGB or YUV, as
construction passes them) with different matrix coefficients,
`converter_get_matrix` returns TRUE and the working matrix is
`P * ToYUV (out) * ToRGB (in) * Q`; `P` differs from the identity exactly when
the input is deeper than the output and `Q` exactly when it is shallower, so
that one of them does when the depths differ and neither when they are
equal. -/
theorem get_matrix_product (lib : GstVideoLib) (in_info out_info : GstVideoInfo)
    (hin : GST_VIDEO_INFO_IS_RGB in_info = true ∨ GST_VIDEO_INFO_IS_YUV in_info = true)
    (hout : GST_VIDEO_INFO_IS_RGB out_info = true ∨ GST_VIDEO_INFO_IS_YUV out_info = true)
    (hne : in_info.colorimetry.matrix ≠ out_info.colorimetry.matrix) :
    (converter_get_matrix lib in_info out_info).1 = true ∧
    (converter_get_matrix lib in_info out_info).2.toMatrix
      = spec_P in_info out_info * spec_ToYUV lib out_info * spec_ToRGB lib in_info *
          spec_Q in_info out_info ∧
    (spec_P in_info out_info ≠ 1 ↔
      GST_VIDEO_INFO_COMP_DEPTH in_info 0 > GST_VIDEO_INFO_COMP_DEPTH out_info 0) ∧
    (spec_Q in_info out_info ≠ 1 ↔
      GST_VIDEO_INFO_COMP_DEPTH in_info 0 < GST_VIDEO_INFO_COMP_DEPTH out_info 0) := by
  refine ⟨by simp [converter_get_matrix, hne], ?_, ?_, ?_⟩
  · simp only [converter_get_matrix, hne, decide_False, Bool.false_eq_true, if_false,
      spec_P, spec_Q]
    by_cases h1 : GST_VIDEO_INFO_COMP_DEPTH in_info 0 < GST_VIDEO_INFO_COMP_DEPTH out_info 0
    · have h2 : ¬ GST_VIDEO_INFO_COMP_DEPTH in_info 0 > GST_VIDEO_INFO_COMP_DEPTH out_info 0 := by
        omega
      simp only [h1, h2, if_true, if_false]
      rw [compute_matrix_to_YUV_toMatrix _ _ _ hout, compute_matrix_to_RGB_toMatrix _ _ _ hin,
        color_matrix_scale_components_toMatrix, color_matrix_set_identity_toMatrix]
      simp [Matrix.mul_assoc]
    · by_cases h2 : GST_VIDEO_INFO_COMP_DEPTH in_info 0 > GST_VIDEO_INFO_COMP_DEPTH out_info 0
      · simp only [h1, h2, if_true, if_false]
        rw [color_matrix_scale_components_toMatrix, compute_matrix_to_YUV_toMatrix _ _ _ hout,
          compute_matrix_to_RGB_toMatrix _ _ _ hin, color_matrix_set_identity_toMatrix]
        simp [Matrix.mul_assoc]
      · simp only [h1, h2, if_false]
        rw [compute_matrix_to_YUV_toMatrix _ _ _ hout, compute_matrix_to_RGB_toMatrix _ _ _ hin,
          color_matrix_set_identity_toMatrix]
        simp [Matrix.mul_assoc]
  · unfold spec_P
    by_cases h2 : GST_VIDEO_INFO_COMP_DEPTH in_info 0 > GST_VIDEO_INFO_COMP_DEPTH out_info 0
    · simp only [h2, if_true, iff_true, ne_eq, spec_S_eq_one_iff]
      have hk : 1 ≤ GST_VIDEO_INFO_COMP_DEPTH in_info 0 - GST_VIDEO_INFO_COMP_DEPTH out_info 0 := by
        omega
      have : (2 : ℚ) ≤ 2 ^ (GST_VIDEO_INFO_COMP_DEPTH in_info 0
          - GST_VIDEO_INFO_COMP_DEPTH out_info 0) := by
        calc (2 : ℚ) = 2 ^ 1 := by norm_num
          _ ≤ 2 ^ (GST_VIDEO_INFO_COMP_DEPTH in_info 0
              - GST_VIDEO_INFO_COMP_DEPTH out_info 0) :=
            pow_le_pow_right₀ (by norm_num) hk
      intro h
      rw [h] at this
      norm_num at this
    · simp [h2]
  · unfold spec_Q
    by_cases h1 : GST_VIDEO_INFO_COMP_DEPTH in_info 0 < GST_VIDEO_INFO_COMP_DEPTH out_info 0
    · simp only [h1, if_true, iff_true, ne_eq, spec_S_eq_one_iff]
      have hk : 1 ≤ GST_VIDEO_INFO_COMP_DEPTH out_info 0 - GST_VIDEO_INFO_COMP_DEPTH in_info 0 := by
        omega
      have : (2 : ℚ) ≤ 2 ^ (GST_VIDEO_INFO_COMP_DEPTH out_info 0
          - GST_VIDEO_INFO_COMP_DEPTH in_info 0) := by
        calc (2 : ℚ) = 2 ^ 1 := by norm_num
          _ ≤ 2 ^ (GST_VIDEO_INFO_COMP_DEPTH out_info 0
              - GST_VIDEO_INFO_COMP_DEPTH in_info 0) :=
            pow_le_pow_right₀ (by norm_num) hk
      intro h
      have h' : (2 : ℚ) ^ (GST_VIDEO_INFO_COMP_DEPTH out_info 0
          - GST_VIDEO_INFO_COMP_DEPTH in_info 0) = 1 := by
        have hpos : (0 : ℚ) < 2 ^ (GST_VIDEO_INFO_COMP_DEPTH out_info 0
            - GST_VIDEO_INFO_COMP_DEPTH in_info 0) := by positivity
        field_simp at h
        linarith
      rw [h'] at this
      norm_num at this
    · simp [h1]

/-- C17 at a 10-bit I420_10LE input (BT709) and an 8-bit RGBA output: the
input is deeper, so `P` scales by `2 ^ 2` and `Q` is the identity. -/
theorem get_matrix_product_witness :
    (converter_get_matrix gst_video_lib (video_info .I420_10LE .BT709)
      (video_info .RGBA .RGB)).1 = true ∧
    (converter_get_matrix gst_video_lib (video_info .I420_10LE .BT709)
      (video_info .RGBA .RGB)).2.toMatrix
      = spec_P (video_info .I420_10LE .BT709) (video_info .RGBA .RGB) *
          spec_ToYUV gst_video_lib (video_info .RGBA .RGB) *
          spec_ToRGB gst_video_lib (video_info .I420_10LE .BT709) *
          spec_Q (video_info .I420_10LE .BT709) (video_info .RGBA .RGB) ∧
    spec_P (video_info .I420_10LE .BT709) (video_info .RGBA .RGB) ≠ 1 ∧
    ¬ spec_Q (video_info .I420_10LE .BT709) (video_info .RGBA .RGB) ≠ 1 := by
  have h := get_matrix_product gst_video_lib (video_info .I420_10LE .BT709)
    (video_info .RGBA .RGB) (Or.inr rfl) (Or.inl rfl) (by decide)
  refine ⟨h.1, h.2.1, h.2.2.1.mpr (by decide), fun hq => ?_⟩
  have := h.2.2.2.mp hq
  revert this
  decide

/-! ### The matrix builder: aliasing and inverses -/

/-- Two working matrices with the same matrix are equal. -/
theorem MatrixData.toMatrix_injective (m n : MatrixData) (h : m.toMatrix = n.toMatrix) :
    m = n := by
  apply MatrixData.ext
  exact Matrix.of.injective h

/-- The multiply on a store leaves at `dst` what the multiply on values computes
from the operands as they were before the call. -/
theorem color_matrix_multiply_at_dst {Ptr : Type} [DecidableEq Ptr] (mem : Ptr → MatrixData)
    (dst a b : Ptr) :
    color_matrix_multiply_at mem dst a b dst = color_matrix_multiply (mem a) (mem b) := by
  simp [color_matrix_multiply_at, color_matrix_multiply]

/-- The multiply on a store writes nothing but `dst`. -/
theorem color_matrix_multiply_at_other {Ptr : Type} [DecidableEq Ptr] (mem : Ptr → MatrixData)
    (dst a b p : Ptr) (h : p ≠ dst) :
    color_matrix_multiply_at mem dst a b p = mem p := by
  simp [color_matrix_multiply_at, Function.update, h]

/-- C28: `color_matrix_multiply (dst, a, b)` leaves in `dst` the 4x4 product of
the values `a` and `b` had before the call, whatever pointers coincide (in
particular for `dst = a` and for `dst = b`), and writes no other matrix;
`color_matrix_offset_components (m, a1, a2, a3)` replaces `m` by `T * m` and
`color_matrix_scale_components (m, a1, a2, a3)` replaces `m` by
`diag (a1, a2, a3, 1) * m`. -/
theorem color_matrix_multiply_product :
    (∀ (mem : Nat → MatrixData) (dst a b : Nat),
      (color_matrix_multiply_at mem dst a b dst).toMatrix
        = (mem a).toMatrix * (mem b).toMatrix ∧
      ∀ p, p ≠ dst → color_matrix_multiply_at mem dst a b p = mem p) ∧
    (∀ (mem : Nat → MatrixData) (a b : Nat),
      (color_matrix_multiply_at mem a a b a).toMatrix = (mem a).toMatrix * (mem b).toMatrix ∧
      (color_matrix_multiply_at mem b a b b).toMatrix = (mem a).toMatrix * (mem b).toMatrix ∧
      (color_matrix_multiply_at mem a a a a).toMatrix
        = (mem a).toMatrix * (mem a).toMatrix) ∧
    (∀ (mem : Nat → MatrixData) (m : Nat) (a1 a2 a3 : ℚ),
      (color_matrix_offset_components_at mem m a1 a2 a3 m).toMatrix
        = spec_T a1 a2 a3 * (mem m).toMatrix ∧
      color_matrix_offset_components_at mem m a1 a2 a3 m
        = color_matrix_offset_components (mem m) a1 a2 a3 ∧
      (color_matrix_scale_components_at mem m a1 a2 a3 m).toMatrix
        = spec_S a1 a2 a3 * (mem m).toMatrix ∧
      color_matrix_scale_components_at mem m a1 a2 a3 m
        = color_matrix_scale_components (mem m) a1 a2 a3 ∧
      ∀ p, p ≠ m → color_matrix_offset_components_at mem m a1 a2 a3 p = mem p ∧
        color_matrix_scale_components_at mem m a1 a2 a3 p = mem p) := by
  refine ⟨fun mem dst a b => ⟨?_, fun p hp => color_matrix_multiply_at_other mem dst a b p hp⟩,
    fun mem a b => ⟨?_, ?_, ?_⟩, fun mem m a1 a2 a3 => ?_⟩
  · rw [color_matrix_multiply_at_dst, color_matrix_multiply_toMatrix]
  · rw [color_matrix_multiply_at_dst, color_matrix_multiply_toMatrix]
  · rw [color_matrix_multiply_at_dst, color_matrix_multiply_toMatrix]
  · rw [color_matrix_multiply_at_dst, color_matrix_multiply_toMatrix]
  · have ho : color_matrix_offset_components_at mem m a1 a2 a3 m
        = color_matrix_offset_components (mem m) a1 a2 a3 := by
      unfold color_matrix_offset_components_at color_matrix_offset_components
      exact color_matrix_multiply_at_dst _ _ _ _
    have hs : color_matrix_scale_components_at mem m a1 a2 a3 m
        = color_matrix_scale_components (mem m) a1 a2 a3 := by
      unfold color_matrix_scale_components_at color_matrix_scale_components
      exact color_matrix_multiply_at_dst _ _ _ _
    refine ⟨?_, ho, ?_, hs, fun p hp => ⟨?_, ?_⟩⟩
    · rw [ho, color_matrix_offset_components_toMatrix]
    · rw [hs, color_matrix_scale_components_toMatrix]
    · unfold color_matrix_offset_components_at
      exact color_matrix_multiply_at_other _ _ _ _ _ (by simpa using hp)
    · unfold color_matrix_scale_components_at
      exact color_matrix_multiply_at_other _ _ _ _ _ (by simpa using hp)

set_option maxHeartbeats 2000000 in
/-- The two rotations are inverse to each other. -/
theorem spec_rotation_inverse (Kr Kb : ℚ) (h1 : Kr ≠ 1) (h2 : Kb ≠ 1)
    (h3 : 1 - Kr - Kb ≠ 0) :
    spec_YCbCr_to_RGB Kr Kb * spec_RGB_to_YCbCr Kr Kb = 1 ∧
    spec_RGB_to_YCbCr Kr Kb * spec_YCbCr_to_RGB Kr Kb = 1 := by
  have hr : 1 - Kr ≠ 0 := sub_ne_zero.mpr (Ne.symm h1)
  have hb : 1 - Kb ≠ 0 := sub_ne_zero.mpr (Ne.symm h2)
  constructor <;>
  · ext i j
    fin_cases i <;> fin_cases j <;>
      simp [spec_YCbCr_to_RGB, spec_RGB_to_YCbCr, Matrix.mul_apply, Fin.sum_univ_four,
        Matrix.one_apply, Matrix.vecHead, Matrix.vecTail] <;>
      (try field_simp) <;> ring

/-- A left inverse cancels in front of a product. -/
theorem matrix_mul_cancel (A B X : Matrix (Fin 4) (Fin 4) ℚ) (h : A * B = 1) :
    A * (B * X) = X := by
  rw [← Matrix.mul_assoc, h, Matrix.one_mul]

/-- C29: for `Kr ≠ 1`, `Kb ≠ 1` and `1 - Kr - Kb ≠ 0`,
`color_matrix_RGB_to_YCbCr` followed by `color_matrix_YCbCr_to_RGB` gives back
the matrix, and so does the opposite order; the two rotation matrices are
inverse to each other. -/
theorem rotations_inverse (m : MatrixData) (Kr Kb : ℚ) (h1 : Kr ≠ 1) (h2 : Kb ≠ 1)
    (h3 : 1 - Kr - Kb ≠ 0) :
    color_matrix_YCbCr_to_RGB (color_matrix_RGB_to_YCbCr m Kr Kb) Kr Kb = m ∧
    color_matrix_RGB_to_YCbCr (color_matrix_YCbCr_to_RGB m Kr Kb) Kr Kb = m ∧
    spec_YCbCr_to_RGB Kr Kb * spec_RGB_to_YCbCr Kr Kb = 1 ∧
    spec_RGB_to_YCbCr Kr Kb * spec_YCbCr_to_RGB Kr Kb = 1 := by
  obtain ⟨ha, hb⟩ := spec_rotation_inverse Kr Kb h1 h2 h3
  refine ⟨?_, ?_, ha, hb⟩
  · apply MatrixData.toMatrix_injective
    rw [color_matrix_YCbCr_to_RGB_toMatrix, color_matrix_RGB_to_YCbCr_toMatrix,
      matrix_mul_cancel _ _ _ ha]
  · apply MatrixData.toMatrix_injective
    rw [color_matrix_RGB_to_YCbCr_toMatrix, color_matrix_YCbCr_to_RGB_toMatrix,
      matrix_mul_cancel _ _ _ hb]

theorem rotations_inverse_witness :
    ((2126 : ℚ) / 10000 ≠ 1 ∧ (722 : ℚ) / 10000 ≠ 1 ∧
      1 - (2126 : ℚ) / 10000 - 722 / 10000 ≠ 0) ∧
    color_matrix_YCbCr_to_RGB
      (color_matrix_RGB_to_YCbCr color_matrix_set_identity (2126 / 10000) (722 / 10000))
      (2126 / 10000) (722 / 10000) = color_matrix_set_identity :=
  ⟨⟨by norm_num, by norm_num, by norm_num⟩,
    (rotations_inverse color_matrix_set_identity (2126 / 10000) (722 / 10000)
      (by norm_num) (by norm_num) (by norm_num)).1⟩

/-- An offset and the opposite offset cancel. -/
theorem spec_T_mul_neg (a b c : ℚ) : spec_T a b c * spec_T (-a) (-b) (-c) = 1 := by
  ext i j
  fin_cases i <;> fin_cases j <;>
    simp [spec_T, Matrix.mul_apply, Fin.sum_univ_four, Matrix.one_apply, Matrix.vecHead,
      Matrix.vecTail]

/-- A scale and the reciprocal scale cancel. -/
theorem spec_S_mul_inv (a b c : ℚ) (ha : a ≠ 0) (hb : b ≠ 0) (hc : c ≠ 0) :
    spec_S a b c * spec_S (1 / a) (1 / b) (1 / c) = 1 := by
  ext i j
  fin_cases i <;> fin_cases j <;>
    simp [spec_S, Matrix.mul_apply, Fin.sum_univ_four, Matrix.one_apply, ha, hb, hc,
      Matrix.vecHead, Matrix.vecTail]

/-- C30: for an info whose three range scales are non-zero (and, when the
format is not RGB and the coefficients are known, `Kr ≠ 1`, `Kb ≠ 1`,
`1 - Kr - Kb ≠ 0`), `compute_matrix_to_RGB` followed by
`compute_matrix_to_YUV` with the same info returns the matrix it started
from. -/
theorem to_RGB_to_YUV_roundtrip (lib : GstVideoLib) (m : MatrixData) (info : GstVideoInfo)
    (h0 : (lib.color_range_offsets info.colorimetry.range info.finfo).2 0 ≠ 0)
    (h1 : (lib.color_range_offsets info.colorimetry.range info.finfo).2 1 ≠ 0)
    (h2 : (lib.color_range_offsets info.colorimetry.range info.finfo).2 2 ≠ 0)
    (hk : ∀ Kr Kb, GST_VIDEO_INFO_IS_RGB info = false →
      lib.color_matrix_get_Kr_Kb info.colorimetry.matrix = some (Kr, Kb) →
      Kr ≠ 1 ∧ Kb ≠ 1 ∧ 1 - Kr - Kb ≠ 0) :
    compute_matrix_to_YUV lib (compute_matrix_to_RGB lib m info) info = m := by
  have hS := spec_S_mul_inv
    ((lib.color_range_offsets info.colorimetry.range info.finfo).2 0 : ℚ)
    ((lib.color_range_offsets info.colorimetry.range info.finfo).2 1 : ℚ)
    ((lib.color_range_offsets info.colorimetry.range info.finfo).2 2 : ℚ)
    (by exact_mod_cast h0) (by exact_mod_cast h1) (by exact_mod_cast h2)
  have hT := spec_T_mul_neg
    ((lib.color_range_offsets info.colorimetry.range info.finfo).1 0 : ℚ)
    ((lib.color_range_offsets info.colorimetry.range info.finfo).1 1 : ℚ)
    ((lib.color_range_offsets info.colorimetry.range info.finfo).1 2 : ℚ)
  apply MatrixData.toMatrix_injective
  unfold compute_matrix_to_YUV compute_matrix_to_RGB
  cases hr : GST_VIDEO_INFO_IS_RGB info
  · cases hkk : lib.color_matrix_get_Kr_Kb info.colorimetry.matrix with
    | none =>
      simp only [Bool.not_false, if_true, color_matrix_offset_components_toMatrix,
        color_matrix_scale_components_toMatrix]
      rw [matrix_mul_cancel _ _ _ hS, matrix_mul_cancel _ _ _ hT]
    | some p =>
      obtain ⟨Kr, Kb⟩ := p
      obtain ⟨k1, k2, k3⟩ := hk Kr Kb hr hkk
      simp only [Bool.not_false, if_true, color_matrix_offset_components_toMatrix,
        color_matrix_scale_components_toMatrix, color_matrix_RGB_to_YCbCr_toMatrix,
        color_matrix_YCbCr_to_RGB_toMatrix]
      rw [matrix_mul_cancel _ _ _ (spec_rotation_inverse Kr Kb k1 k2 k3).2,
        matrix_mul_cancel _ _ _ hS, matrix_mul_cancel _ _ _ hT]
  · simp only [Bool.not_true, color_matrix_offset_components_toMatrix,
      color_matrix_scale_components_toMatrix]
    rw [if_neg (by simp), if_neg (by simp)]
    simp only [color_matrix_offset_components_toMatrix,
      color_matrix_scale_components_toMatrix]
    rw [matrix_mul_cancel _ _ _ hS, matrix_mul_cancel _ _ _ hT]

theorem to_RGB_to_YUV_roundtrip_witness :
    compute_matrix_to_YUV gst_video_lib
      (compute_matrix_to_RGB gst_video_lib color_matrix_set_identity (video_info .NV12 .BT709))
      (video_info .NV12 .BT709) = color_matrix_set_identity :=
  to_RGB_to_YUV_roundtrip gst_video_lib color_matrix_set_identity (video_info .NV12 .BT709)
    (by simp [gst_video_lib, video_info, GstVideoInfo.finfo, gst_video_format_get_info, comp4])
    (by simp [gst_video_lib, video_info, GstVideoInfo.finfo, gst_video_format_get_info, comp4])
    (by simp [gst_video_lib, video_info, GstVideoInfo.finfo, gst_video_format_get_info, comp4])
    (by
      intro Kr Kb _ h
      simp [gst_video_lib, video_info] at h
      obtain ⟨rfl, rfl⟩ := h
      norm_num)

/-! ### The geometry of the quad -/

/-- A crop coordinate `c` in `[0, size]`, divided by the size and moved by half
a texel, lies in `[-1 / (2 size), 1 - 1 / (2 size)]`. -/
theorem half_texel_bounds (c size : ℚ) (hs : 1 ≤ size) (h0 : 0 ≤ c) (h1 : c ≤ size) :
    -(1 / (2 * size)) ≤ c / size - (1 / 2) / size ∧
    c / size - (1 / 2) / size ≤ 1 - 1 / (2 * size) ∧
    c / size - (1 / 2) / size < 1 ∧
    (1 ≤ c → 0 ≤ c / size - (1 / 2) / size) ∧
    (c = 0 → c / size - (1 / 2) / size = -(1 / (2 * size)) ∧
      c / size - (1 / 2) / size < 0) := by
  have hp : (0 : ℚ) < size := by linarith
  have e1 : c / size - (1 / 2) / size = (c - 1 / 2) / size := by ring
  have e2 : -(1 / (2 * size)) = (0 - 1 / 2) / size := by field_simp
  have e3 : 1 - 1 / (2 * size) = (size - 1 / 2) / size := by field_simp; ring
  have hupper : (c - 1 / 2) / size ≤ (size - 1 / 2) / size :=
    div_le_div_of_nonneg_right (by linarith) hp.le
  refine ⟨?_, ?_, ?_, ?_, ?_⟩
  · rw [e1, e2]
    exact div_le_div_of_nonneg_right (by linarith) hp.le
  · rw [e1, e3]
    exact hupper
  · rw [e1, div_lt_one hp]
    linarith
  · intro hc
    rw [e1]
    exact div_nonneg (by linarith) hp.le
  · intro hc
    subst hc
    refine ⟨by rw [e1, e2], ?_⟩
    rw [e1]
    exact div_neg_of_neg_of_pos (by norm_num) hp

/-- The texture coordinates the rebuild writes (it stores `update_vertex_data`)
for a crop rectangle inside the input texture: each is the crop coordinate over
the texture size minus half a texel, so it lies in
`[-1 / (2 size), 1 - 1 / (2 size)]`, is below 1, is non-negative when
`left ≥ 1` and `top ≥ 1`, and is `-1 / (2 size) < 0` on the left edge for
`left = 0` and on the top edge for `top = 0`. -/
theorem rebuild_texture_coordinates (self : GstD3D11Converter)
    (hW : 1 ≤ self.input_texture_width) (hH : 1 ≤ self.input_texture_height)
    (hl : 0 ≤ self.src_rect.left) (hlr : self.src_rect.left ≤ self.src_rect.right)
    (hr : self.src_rect.right ≤ self.input_texture_width)
    (ht : 0 ≤ self.src_rect.top) (htb : self.src_rect.top ≤ self.src_rect.bottom)
    (hb : self.src_rect.bottom ≤ self.input_texture_height) :
    (gst_d3d11_converter_update_vertex_buffer self true).result
      = .ok (true, { self with
          vertex_buffer := some (update_vertex_data self), update_vertex := false }) ∧
    (∀ i,
      -(1 / (2 * (self.input_texture_width : ℚ))) ≤ (update_vertex_data self i).texture_x ∧
      (update_vertex_data self i).texture_x ≤ 1 - 1 / (2 * (self.input_texture_width : ℚ)) ∧
      (update_vertex_data self i).texture_x < 1 ∧
      -(1 / (2 * (self.input_texture_height : ℚ))) ≤ (update_vertex_data self i).texture_y ∧
      (update_vertex_data self i).texture_y ≤ 1 - 1 / (2 * (self.input_texture_height : ℚ)) ∧
      (update_vertex_data self i).texture_y < 1) ∧
    (1 ≤ self.src_rect.left → 1 ≤ self.src_rect.top →
      ∀ i, 0 ≤ (update_vertex_data self i).texture_x ∧
        (update_vertex_data self i).texture_x ≤ 1 ∧
        0 ≤ (update_vertex_data self i).texture_y ∧
        (update_vertex_data self i).texture_y ≤ 1) ∧
    (self.src_rect.left = 0 →
      (update_vertex_data self 0).texture_x = -(1 / (2 * (self.input_texture_width : ℚ))) ∧
      (update_vertex_data self 0).texture_x < 0 ∧
      (update_vertex_data self 1).texture_x < 0) ∧
    (self.src_rect.top = 0 →
      (update_vertex_data self 1).texture_y = -(1 / (2 * (self.input_texture_height : ℚ))) ∧
      (update_vertex_data self 1).texture_y < 0 ∧
      (update_vertex_data self 2).texture_y < 0) := by
  have qW : (1 : ℚ) ≤ self.input_texture_width := by exact_mod_cast hW
  have qH : (1 : ℚ) ≤ self.input_texture_height := by exact_mod_cast hH
  have ql : (0 : ℚ) ≤ self.src_rect.left := by exact_mod_cast hl
  have qlr : (self.src_rect.left : ℚ) ≤ self.src_rect.right := by exact_mod_cast hlr
  have qr : (self.src_rect.right : ℚ) ≤ self.input_texture_width := by exact_mod_cast hr
  have qt : (0 : ℚ) ≤ self.src_rect.top := by exact_mod_cast ht
  have qtb : (self.src_rect.top : ℚ) ≤ self.src_rect.bottom := by exact_mod_cast htb
  have qb : (self.src_rect.bottom : ℚ) ≤ self.input_texture_height := by exact_mod_cast hb
  have L := half_texel_bounds self.src_rect.left self.input_texture_width qW ql
    (by linarith)
  have R := half_texel_bounds self.src_rect.right self.input_texture_width qW
    (by linarith) qr
  have T := half_texel_bounds self.src_rect.top self.input_texture_height qH qt
    (by linarith)
  have B := half_texel_bounds self.src_rect.bottom self.input_texture_height qH
    (by linarith) qb
  refine ⟨?_, ?_, ?_, ?_, ?_⟩
  · simp [gst_d3d11_converter_update_vertex_buffer, bind, Run.bind, pure, Run.pure, emit]
  · intro i
    fin_cases i
    · exact ⟨L.1, L.2.1, L.2.2.1, B.1, B.2.1, B.2.2.1⟩
    · exact ⟨L.1, L.2.1, L.2.2.1, T.1, T.2.1, T.2.2.1⟩
    · exact ⟨R.1, R.2.1, R.2.2.1, T.1, T.2.1, T.2.2.1⟩
    · exact ⟨R.1, R.2.1, R.2.2.1, B.1, B.2.1, B.2.2.1⟩
  · intro h1 h2 i
    have ql1 : (1 : ℚ) ≤ self.src_rect.left := by exact_mod_cast h1
    have qt1 : (1 : ℚ) ≤ self.src_rect.top := by exact_mod_cast h2
    have L0 := L.2.2.2.1 ql1
    have R0 := R.2.2.2.1 (by linarith)
    have T0 := T.2.2.2.1 qt1
    have B0 := B.2.2.2.1 (by linarith)
    fin_cases i
    · exact ⟨L0, L.2.2.1.le, B0, B.2.2.1.le⟩
    · exact ⟨L0, L.2.2.1.le, T0, T.2.2.1.le⟩
    · exact ⟨R0, R.2.2.1.le, T0, T.2.2.1.le⟩
    · exact ⟨R0, R.2.2.1.le, B0, B.2.2.1.le⟩
  · intro h
    have q0 : (self.src_rect.left : ℚ) = 0 := by exact_mod_cast h
    exact ⟨(L.2.2.2.2 q0).1, (L.2.2.2.2 q0).2, (L.2.2.2.2 q0).2⟩
  · intro h
    have q0 : (self.src_rect.top : ℚ) = 0 := by exact_mod_cast h
    exact ⟨(T.2.2.2.2 q0).1, (T.2.2.2.2 q0).2, (T.2.2.2.2 q0).2⟩

theorem rebuild_texture_coordinates_witness :
    (update_vertex_data sample_converter 0).texture_x < 0 ∧
    (update_vertex_data sample_converter 2).texture_x < 1 :=
  have h := sample_converter_fields
  have hc := rebuild_texture_coordinates sample_converter
    (by simp [h.2.2.2.1]) (by simp [h.2.2.2.2.1])
    (by simp [h.1]) (by simp [h.1]) (by simp [h.1, h.2.2.2.1])
    (by simp [h.1]) (by simp [h.1]) (by simp [h.1, h.2.2.2.2.1])
  ⟨(hc.2.2.2.1 (by rw [h.1])).2.1, (hc.2.1 2).2.2.1⟩

/-- C21 (the code departs from the claim): the sample converter in its
construction-time state crops the full 640x480 input, which lies inside the
640x480 texture, and the rebuild (which stores `update_vertex_data`) writes the
texture coordinates `-1/1280` and `-1/960` for its left and top edges, below 0,
where the vertex buffer written at construction for the same rectangles has 0.
For every crop rectangle inside the texture the rebuilt coordinates are below
1, and they lie in `[0, 1]` when `left ≥ 1` and `top ≥ 1`; they are negative on
the left edge for `left = 0` and on the top edge for `top = 0`. -/
theorem rebuild_texture_coordinate_negative :
    (gst_d3d11_converter_update_vertex_buffer sample_converter true).result
      = .ok (true, { sample_converter with
          vertex_buffer := some (update_vertex_data sample_converter),
          update_vertex := false }) ∧
    (1 ≤ sample_converter.input_texture_width ∧ 1 ≤ sample_converter.input_texture_height ∧
      0 ≤ sample_converter.src_rect.left ∧
      sample_converter.src_rect.left ≤ sample_converter.src_rect.right ∧
      sample_converter.src_rect.right ≤ sample_converter.input_texture_width ∧
      0 ≤ sample_converter.src_rect.top ∧
      sample_converter.src_rect.top ≤ sample_converter.src_rect.bottom ∧
      sample_converter.src_rect.bottom ≤ sample_converter.input_texture_height) ∧
    ((update_vertex_data sample_converter 0).texture_x = -1 / 1280 ∧
      ¬ (0 ≤ (update_vertex_data sample_converter 0).texture_x) ∧
      (update_vertex_data sample_converter 1).texture_y = -1 / 960) ∧
    (sample_converter.vertex_buffer = some initial_vertex_data ∧
      (initial_vertex_data 0).texture_x = 0 ∧ (initial_vertex_data 1).texture_y = 0 ∧
      ∀ i, 0 ≤ (initial_vertex_data i).texture_x ∧ (initial_vertex_data i).texture_x ≤ 1 ∧
        0 ≤ (initial_vertex_data i).texture_y ∧ (initial_vertex_data i).texture_y ≤ 1) ∧
    (∀ self : GstD3D11Converter,
      1 ≤ self.input_texture_width → 1 ≤ self.input_texture_height →
      0 ≤ self.src_rect.left → self.src_rect.left ≤ self.src_rect.right →
      self.src_rect.right ≤ self.input_texture_width →
      0 ≤ self.src_rect.top → self.src_rect.top ≤ self.src_rect.bottom →
      self.src_rect.bottom ≤ self.input_texture_height →
        (∀ i, (update_vertex_data self i).texture_x < 1 ∧
          (update_vertex_data self i).texture_y < 1) ∧
        (1 ≤ self.src_rect.left → 1 ≤ self.src_rect.top →
          ∀ i, 0 ≤ (update_vertex_data self i).texture_x ∧
            (update_vertex_data self i).texture_x ≤ 1 ∧
            0 ≤ (update_vertex_data self i).texture_y ∧
            (update_vertex_data self i).texture_y ≤ 1) ∧
        (self.src_rect.left = 0 → (update_vertex_data self 0).texture_x < 0) ∧
        (self.src_rect.top = 0 → (update_vertex_data self 1).texture_y < 0)) := by
  obtain ⟨h1, -, -, h4, h5, -⟩ := sample_converter_fields
  refine ⟨?_, ?_, ?_, ⟨?_, rfl, rfl, ?_⟩, ?_⟩
  · simp [gst_d3d11_converter_update_vertex_buffer, bind, Run.bind, pure, Run.pure, emit]
  · simp [h1, h4, h5]
  · simp only [update_vertex_data, h1, h4, h5]
    norm_num
  · obtain ⟨info, -, hc⟩ := new_internal_some _ _ _ _ _ _ sample_converter_built
    have hv := congrArg GstD3D11Converter.vertex_buffer hc
    simpa [setup_shader_done] using hv
  · intro i
    fin_cases i <;> simp [initial_vertex_data]
  · intro self hW hH hl hlr hr ht htb hb
    obtain ⟨-, hall, hin, hleft, htop⟩ :=
      rebuild_texture_coordinates self hW hH hl hlr hr ht htb hb
    exact ⟨fun i => ⟨(hall i).2.2.1, (hall i).2.2.2.2.2⟩, hin,
      fun h => (hleft h).2.1, fun h => (htop h).2.1⟩

/-- C22: the rebuild writes the positions bottom-left `(x1, y1)`, top-left
`(x1, y2)`, top-right `(x2, y2)`, bottom-right `(x2, y1)` with `z = 0`, where
`x1 = 2 left / outW - 1`, `x2 = 2 right / outW - 1`, `y1 = 1 - 2 bottom / outH`
and `y2 = 1 - 2 top / outH`; a destination rectangle covering the whole output
gives the unit quad `(-1, -1)`, `(-1, 1)`, `(1, 1)`, `(1, -1)`. -/
theorem rebuild_positions (self : GstD3D11Converter)
    (hw : 1 ≤ GST_VIDEO_INFO_WIDTH self.out_info)
    (hh : 1 ≤ GST_VIDEO_INFO_HEIGHT self.out_info) :
    (gst_d3d11_converter_update_vertex_buffer self true).result
      = .ok (true, { self with
          vertex_buffer := some (update_vertex_data self), update_vertex := false }) ∧
    (∀ i, (update_vertex_data self i).position_z = 0) ∧
    (∀ i, (update_vertex_data self i).position_x
      = if i = 0 ∨ i = 1 then
          2 * (self.dest_rect.left : ℚ) / (GST_VIDEO_INFO_WIDTH self.out_info : ℚ) - 1
        else 2 * (self.dest_rect.right : ℚ) / (GST_VIDEO_INFO_WIDTH self.out_info : ℚ) - 1) ∧
    (∀ i, (update_vertex_data self i).position_y
      = if i = 0 ∨ i = 3 then
          1 - 2 * (self.dest_rect.bottom : ℚ) / (GST_VIDEO_INFO_HEIGHT self.out_info : ℚ)
        else 1 - 2 * (self.dest_rect.top : ℚ) / (GST_VIDEO_INFO_HEIGHT self.out_info : ℚ)) ∧
    (self.dest_rect = ⟨0, 0, GST_VIDEO_INFO_WIDTH self.out_info,
        GST_VIDEO_INFO_HEIGHT self.out_info⟩ →
      ((update_vertex_data self 0).position_x, (update_vertex_data self 0).position_y)
        = (-1, -1) ∧
      ((update_vertex_data self 1).position_x, (update_vertex_data self 1).position_y)
        = (-1, 1) ∧
      ((update_vertex_data self 2).position_x, (update_vertex_data self 2).position_y)
        = (1, 1) ∧
      ((update_vertex_data self 3).position_x, (update_vertex_data self 3).position_y)
        = (1, -1)) := by
  have qw : (GST_VIDEO_INFO_WIDTH self.out_info : ℚ) ≠ 0 := by
    have : (1 : ℚ) ≤ GST_VIDEO_INFO_WIDTH self.out_info := by exact_mod_cast hw
    linarith
  have qh : (GST_VIDEO_INFO_HEIGHT self.out_info : ℚ) ≠ 0 := by
    have : (1 : ℚ) ≤ GST_VIDEO_INFO_HEIGHT self.out_info := by exact_mod_cast hh
    linarith
  refine ⟨?_, ?_, ?_, ?_, ?_⟩
  · simp [gst_d3d11_converter_update_vertex_buffer, bind, Run.bind, pure, Run.pure, emit]
  · intro i
    fin_cases i <;> simp [update_vertex_data]
  · intro i
    fin_cases i <;> simp [update_vertex_data, gst_util_fraction_to_double] <;> ring
  · intro i
    fin_cases i <;> simp [update_vertex_data, gst_util_fraction_to_double] <;> ring
  · intro hd
    simp only [update_vertex_data, gst_util_fraction_to_double, hd]
    simp [qw, qh]
    norm_num

theorem rebuild_positions_witness :
    ((update_vertex_data sample_converter 0).position_x,
      (update_vertex_data sample_converter 0).position_y) = (-1, -1) ∧
    ((update_vertex_data sample_converter 2).position_x,
      (update_vertex_data sample_converter 2).position_y) = (1, 1) :=
  have h := sample_converter_fields
  have hc := rebuild_positions sample_converter
    (by simp [h.2.2.2.2.2.2.2.2.2, video_info, GST_VIDEO_INFO_WIDTH])
    (by simp [h.2.2.2.2.2.2.2.2.2, video_info, GST_VIDEO_INFO_HEIGHT])
  have hd := hc.2.2.2.2
    (by simp [h.2.1, h.2.2.2.2.2.2.2.2.2, video_info, GST_VIDEO_INFO_WIDTH,
      GST_VIDEO_INFO_HEIGHT])
  ⟨hd.1, hd.2.2.1⟩

/-! ### Bodies, quads and the initial geometry -/

/-- A failed assertion of a sequence comes from its first part or from the
rest. -/
theorem Run.result_bind_error {α β : Type} (x : Run α) (k : α → Run β) (e : Fault)
    (h : (x >>= k).result = .error e) :
    x.result = .error e ∨ ∃ a, x.result = .ok a ∧ (k a).result = .error e := by
  have h' : (Run.bind x k).result = .error e := h
  unfold Run.bind at h'
  cases hr : x.result with
  | error err =>
    rw [hr] at h'
    exact Or.inl (by simpa using h')
  | ok a =>
    rw [hr] at h'
    exact Or.inr ⟨a, rfl, h'⟩

/-- The pixel-shader round fails its assertion only for a body without output
declaration. -/
theorem setup_shader_pixel_shader_fault (device : GstD3D11Device)
    (convert_info : ConvertInfo) (templ : PixelShaderTemplate) (i : Fin 2) (e : Fault)
    (h : (setup_shader_pixel_shader device convert_info templ i).result = .error e) :
    (convert_info.ps_body i).isSome = true ∧ convert_info.ps_output i = none ∧
      e = .assert_ps_output_not_null := by
  unfold setup_shader_pixel_shader at h
  cases hb : convert_info.ps_body i with
  | none => simp [hb, pure, Run.pure] at h
  | some body =>
    cases ho : convert_info.ps_output i with
    | none =>
      simp [hb, ho, Run.lift] at h
      simp [h]
    | some output =>
      simp only [hb, ho] at h
      split at h <;> simp [bind, Run.bind, pure, Run.pure, emit, *] at h

/-- The pixel-shader round that goes on produces a shader exactly for a present
body. -/
theorem setup_shader_pixel_shader_some (device : GstD3D11Device)
    (convert_info : ConvertInfo) (templ : PixelShaderTemplate) (i : Fin 2)
    (p : Option PixelShaderCode)
    (h : (setup_shader_pixel_shader device convert_info templ i).result = .ok (some p)) :
    p.isSome = (convert_info.ps_body i).isSome := by
  unfold setup_shader_pixel_shader at h
  cases hb : convert_info.ps_body i with
  | none =>
    simp [hb, pure, Run.pure] at h
    simp [← h]
  | some body =>
    cases ho : convert_info.ps_output i with
    | none => simp [hb, ho, Run.lift] at h
    | some output =>
      simp only [hb, ho] at h
      cases hc : device.create_pixel_shader_ok
        ⟨templ.constant_buffer, output, templ.func, body⟩ <;>
        simp [bind, Run.bind, pure, Run.pure, emit, hc] at h
      simp [← h]

/-- The constant-buffer block fails no assertion. -/
theorem setup_shader_const_buffer_no_fault (device : GstD3D11Device)
    (convert_info : ConvertInfo) (templ : PixelShaderTemplate) (e : Fault) :
    (setup_shader_const_buffer device convert_info templ).result ≠ .error e := by
  unfold setup_shader_const_buffer
  cases templ.constant_buffer <;> cases h1 : device.CreateBuffer_ok .constant <;>
    cases h2 : device.Map_ok .constant <;>
    simp [bind, Run.bind, pure, Run.pure, emit, h1, h2]

/-- The geometry part fails no assertion, and when it returns TRUE quad 0 is
the new quad of shader 0 and quad 1 is the new quad of shader 1 when there is
one, and untouched otherwise. -/
theorem setup_shader_geometry_quads (self : GstD3D11Converter) (device : GstD3D11Device)
    (in_info out_info : GstVideoInfo) (ps : Fin 2 → Option PixelShaderCode)
    (const_buffer : Option PixelShaderColorTransform) :
    (∀ e, (setup_shader_geometry self device in_info out_info ps const_buffer).result
      ≠ .error e) ∧
    ∀ c', (setup_shader_geometry self device in_info out_info ps const_buffer).result
        = .ok (true, c') →
      c'.quad 0 = some (gst_d3d11_quad_new (ps 0) const_buffer) ∧
      c'.quad 1 = (if (ps 1).isSome then some (gst_d3d11_quad_new (ps 1) const_buffer)
        else self.quad 1) := by
  unfold setup_shader_geometry
  cases h1 : device.create_vertex_shader_ok <;> cases h2 : device.CreateBuffer_ok .vertex <;>
    cases h3 : device.CreateBuffer_ok .index <;> cases h4 : device.Map_ok .vertex <;>
    cases h5 : device.Map_ok .index <;> cases h6 : ps 1 <;>
    simp [bind, Run.bind, pure, Run.pure, emit, h1, h2, h3, h4, h5, h6]

/-- What `gst_d3d11_color_convert_setup_shader` does with bodies and quads: it
fails an assertion only for a body without output declaration, and when it
returns TRUE quad 0 is a new quad and quad 1 is a new quad exactly when body 1
is present (and untouched otherwise). -/
theorem setup_shader_quads (self : GstD3D11Converter) (device : GstD3D11Device)
    (in_info out_info : GstVideoInfo) :
    (∀ e, (gst_d3d11_color_convert_setup_shader self device in_info out_info).result
        = .error e →
      ∃ i, (self.convert_info.ps_body i).isSome = true ∧
        self.convert_info.ps_output i = none) ∧
    ∀ c', (gst_d3d11_color_convert_setup_shader self device in_info out_info).result
        = .ok (true, c') →
      (∃ ps cb, c'.quad 0 = some (gst_d3d11_quad_new ps cb)) ∧
      (((self.convert_info.ps_body 1).isSome = true ∧
          ∃ ps cb, c'.quad 1 = some (gst_d3d11_quad_new ps cb)) ∨
        (self.convert_info.ps_body 1 = none ∧ c'.quad 1 = self.quad 1)) := by
  constructor
  · intro e h
    unfold gst_d3d11_color_convert_setup_shader at h
    rcases Run.result_bind_error _ _ _ h with h | ⟨_, -, h⟩
    · simp [emit] at h
    split at h
    · simp [bind, Run.bind, pure, Run.pure, emit] at h
    · rcases Run.result_bind_error _ _ _ h with h | ⟨r0, -, h⟩
      · exact ⟨0, (setup_shader_pixel_shader_fault _ _ _ _ _ h).1,
          (setup_shader_pixel_shader_fault _ _ _ _ _ h).2.1⟩
      cases r0 with
      | none => simp [pure, Run.pure] at h
      | some ps0 =>
        dsimp only at h
        rcases Run.result_bind_error _ _ _ h with h | ⟨r1, -, h⟩
        · exact ⟨1, (setup_shader_pixel_shader_fault _ _ _ _ _ h).1,
            (setup_shader_pixel_shader_fault _ _ _ _ _ h).2.1⟩
        cases r1 with
        | none => simp [pure, Run.pure] at h
        | some ps1 =>
          dsimp only at h
          rcases Run.result_bind_error _ _ _ h with h | ⟨r2, -, h⟩
          · exact absurd h (setup_shader_const_buffer_no_fault _ _ _ _)
          cases r2 with
          | none => simp [pure, Run.pure] at h
          | some cb =>
            dsimp only at h
            exact absurd h ((setup_shader_geometry_quads _ _ _ _ _ _).1 e)
  · intro c' h
    unfold gst_d3d11_color_convert_setup_shader at h
    obtain ⟨_, -, h⟩ := Run.result_bind_ok _ _ _ h
    split at h
    · simp [bind, Run.bind, pure, Run.pure, emit] at h
    · obtain ⟨r0, -, h⟩ := Run.result_bind_ok _ _ _ h
      cases r0 with
      | none => simp [pure, Run.pure] at h
      | some ps0 =>
        dsimp only at h
        obtain ⟨r1, h1, h⟩ := Run.result_bind_ok _ _ _ h
        cases r1 with
        | none => simp [pure, Run.pure] at h
        | some ps1 =>
          dsimp only at h
          obtain ⟨r2, -, h⟩ := Run.result_bind_ok _ _ _ h
          cases r2 with
          | none => simp [pure, Run.pure] at h
          | some cb =>
            dsimp only at h
            obtain ⟨q0, q1⟩ := (setup_shader_geometry_quads _ _ _ _ _ _).2 c' h
            have hp := setup_shader_pixel_shader_some _ _ _ _ _ h1
            refine ⟨⟨_, _, q0⟩, ?_⟩
            simp only [Fin.isValue, one_ne_zero, if_false] at q1
            cases hb : self.convert_info.ps_body 1 with
            | none =>
              rw [hb] at hp
              right
              simp only [Option.isSome_none] at hp
              simp [q1, hp]
            | some b =>
              rw [hb] at hp
              left
              simp only [Option.isSome_some] at hp
              exact ⟨rfl, _, _, by rw [q1, hp]; rfl⟩

/-- Construction and the quads: a failed assertion of
`gst_d3d11_converter_new_internal` is one of the classifier (shader setup
fails none after an accepted classification), and a returned converter owns
quad 0 and owns quad 1 exactly when the plan has body 1. -/
theorem new_internal_quads (lib : GstVideoLib) (device : GstD3D11Device)
    (in_info out_info : GstVideoInfo) (alpha : ℚ) :
    (∀ e, (gst_d3d11_converter_new_internal lib device in_info out_info alpha).result
        = .error e →
      converter_classify (g_new0_converter device alpha) in_info out_info = .error e) ∧
    ∀ c, (gst_d3d11_converter_new_internal lib device in_info out_info alpha).result
        = .ok (some c) →
      ∃ info, converter_classify (g_new0_converter device alpha) in_info out_info
          = .ok (true, info) ∧
        (∃ ps cb, c.quad 0 = some (gst_d3d11_quad_new ps cb)) ∧
        (((info.ps_body 1).isSome = true ∧
            ∃ ps cb, c.quad 1 = some (gst_d3d11_quad_new ps cb)) ∨
          (info.ps_body 1 = none ∧ c.quad 1 = none)) := by
  constructor
  · intro e h
    unfold gst_d3d11_converter_new_internal at h
    rcases Run.result_bind_error _ _ _ h with h | ⟨_, -, h⟩
    · simp [emit] at h
    split at h
    · simp [format_unknown, bind, Run.bind, pure, Run.pure, emit] at h
    · rcases Run.result_bind_error _ _ _ h with h | ⟨_, -, h⟩
      · simp [emit] at h
      split at h
      · simp [format_unknown, bind, Run.bind, pure, Run.pure, emit] at h
      · rcases Run.result_bind_error _ _ _ h with h | ⟨_, -, h⟩
        · simp [emit] at h
        rcases Run.result_bind_error _ _ _ h with h | ⟨r, hr, h⟩
        · exact h
        obtain ⟨is_supported, info⟩ := r
        have hc : converter_classify (g_new0_converter device alpha) in_info out_info
            = .ok (is_supported, info) := hr
        cases is_supported with
        | false =>
          simp [conversion_not_supported, gst_d3d11_converter_free, bind, Run.bind,
            pure, Run.pure, emit] at h
        | true =>
          exfalso
          obtain ⟨-, b0, o0, b1, -⟩ := classify_accepted_bool device alpha _ _ _ hc
          dsimp only at h
          rw [if_neg (by simp)] at h
          rcases Run.result_bind_error _ _ _ h with h | ⟨_, -, h⟩
          · simp [emit] at h
          rcases Run.result_bind_error _ _ _ h with h | ⟨r2, -, h⟩
          · obtain ⟨i, hb, ho⟩ := (setup_shader_quads _ _ _ _).1 e h
            cases hm : (converter_get_matrix lib in_info out_info).1 <;>
              simp only [hm, if_true, if_false, Bool.false_eq_true] at hb ho <;>
              fin_cases i <;> simp_all
          · obtain ⟨ret, c2⟩ := r2
            cases ret <;>
              simp [gst_d3d11_converter_free, bind, Run.bind, pure, Run.pure, emit] at h
  · intro c h
    unfold gst_d3d11_converter_new_internal at h
    obtain ⟨_, -, h⟩ := Run.result_bind_ok _ _ _ h
    split at h
    · simp [format_unknown, bind, Run.bind, pure, Run.pure, emit] at h
    · obtain ⟨_, -, h⟩ := Run.result_bind_ok _ _ _ h
      split at h
      · simp [format_unknown, bind, Run.bind, pure, Run.pure, emit] at h
      · obtain ⟨_, -, h⟩ := Run.result_bind_ok _ _ _ h
        obtain ⟨r, hr, h⟩ := Run.result_bind_ok _ _ _ h
        obtain ⟨is_supported, info⟩ := r
        have hc : converter_classify (g_new0_converter device alpha) in_info out_info
            = .ok (is_supported, info) := hr
        cases is_supported with
        | false =>
          simp [conversion_not_supported, gst_d3d11_converter_free, bind, Run.bind,
            pure, Run.pure, emit] at h
        | true =>
          refine ⟨info, hc, ?_⟩
          dsimp only at h
          rw [if_neg (by simp)] at h
          obtain ⟨_, -, h⟩ := Run.result_bind_ok _ _ _ h
          obtain ⟨r2, hr2, h⟩ := Run.result_bind_ok _ _ _ h
          obtain ⟨ret, c2⟩ := r2
          cases ret with
          | false =>
            simp [gst_d3d11_converter_free, bind, Run.bind, pure, Run.pure, emit] at h
          | true =>
            simp [pure, Run.pure] at h
            obtain ⟨q0, q1⟩ := (setup_shader_quads _ _ _ _).2 c2 hr2
            rw [← h]
            refine ⟨q0, ?_⟩
            cases hm : (converter_get_matrix lib in_info out_info).1 <;>
              simpa [hm, g_new0_converter] using q1

/-- C23: the geometry written at construction has the vertices bottom-left
`(-1, -1)`, top-left `(-1, 1)`, top-right `(1, 1)`, bottom-right `(1, -1)` in
that order and the index list `[0, 1, 2, 3, 0, 2]`; its two triangles
(vertices 0, 1, 2 and vertices 3, 0, 2) have negative signed area in the y-up
position plane, that is clockwise winding; every constructed converter holds
this vertex buffer and every quad this index list. -/
theorem initial_geometry :
    (((initial_vertex_data 0).position_x, (initial_vertex_data 0).position_y) = (-1, -1) ∧
      ((initial_vertex_data 1).position_x, (initial_vertex_data 1).position_y) = (-1, 1) ∧
      ((initial_vertex_data 2).position_x, (initial_vertex_data 2).position_y) = (1, 1) ∧
      ((initial_vertex_data 3).position_x, (initial_vertex_data 3).position_y) = (1, -1)) ∧
    initial_indices = [0, 1, 2, 3, 0, 2] ∧
    index_triangles initial_indices = [(0, 1, 2), (3, 0, 2)] ∧
    (∀ t ∈ index_triangles initial_indices, triangle_area initial_vertex_data t < 0) ∧
    (∀ (lib : GstVideoLib) (device : GstD3D11Device) (in_info out_info : GstVideoInfo)
        (alpha : ℚ) (c : GstD3D11Converter),
      (gst_d3d11_converter_new_internal lib device in_info out_info alpha).result
          = .ok (some c) →
        c.vertex_buffer = some initial_vertex_data ∧
        ∀ i q, c.quad i = some q →
          q.index_buffer = initial_indices ∧ q.index_count = 6) := by
  refine ⟨by decide, rfl, rfl, ?_, ?_⟩
  · intro t ht
    simp only [initial_indices, index_triangles, List.mem_cons, List.mem_singleton,
      List.not_mem_nil, or_false] at ht
    have v0 : vertex_of initial_vertex_data 0 = ⟨-1, -1, 0, 0, 1⟩ := rfl
    have v1 : vertex_of initial_vertex_data 1 = ⟨-1, 1, 0, 0, 0⟩ := rfl
    have v2 : vertex_of initial_vertex_data 2 = ⟨1, 1, 0, 1, 0⟩ := rfl
    have v3 : vertex_of initial_vertex_data 3 = ⟨1, -1, 0, 1, 1⟩ := rfl
    rcases ht with rfl | rfl <;>
      simp only [triangle_area, signed_area, v0, v1, v2, v3] <;>
      norm_num
  · intro lib device in_info out_info alpha c h
    obtain ⟨info, -, hc⟩ := new_internal_some lib device in_info out_info alpha c h
    obtain ⟨_, -, ⟨ps0, cb0, q0⟩, q1⟩ :=
      (new_internal_quads lib device in_info out_info alpha).2 c h
    constructor
    · have hv := congrArg GstD3D11Converter.vertex_buffer hc
      simpa [setup_shader_done] using hv
    · intro i q hq
      fin_cases i
      · have hq' : c.quad 0 = some q := hq
        rw [q0] at hq'
        cases hq'
        exact ⟨rfl, rfl⟩
      · have hq' : c.quad 1 = some q := hq
        rcases q1 with ⟨-, ps1, cb1, q1⟩ | ⟨-, q1⟩
        · rw [q1] at hq'
          cases hq'
          exact ⟨rfl, rfl⟩
        · rw [q1] at hq'
          cases hq'

/-- C25: an accepted plan has body 0, at most `CONVERTER_MAX_QUADS = 2` bodies,
and an output declaration for every present body, so shader setup fails no
assertion on such a plan and construction fails none but those of the
classifier; a constructed converter owns as many quads as the plan has bodies
(quad 1 exactly when body 1 is present). -/
theorem plan_bodies_and_quads (lib : GstVideoLib) (device : GstD3D11Device)
    (in_info out_info : GstVideoInfo) (alpha : ℚ) :
    (∀ info, converter_classify (g_new0_converter device alpha) in_info out_info
        = .ok (true, info) →
      (info.ps_body 0).isSome = true ∧
      1 ≤ plan_bodies info ∧ plan_bodies info ≤ CONVERTER_MAX_QUADS ∧
      CONVERTER_MAX_QUADS = 2 ∧
      (∀ i, (info.ps_body i).isSome = true → (info.ps_output i).isSome = true) ∧
      ∀ (self : GstD3D11Converter) (e : Fault),
        self.convert_info.ps_body = info.ps_body →
        self.convert_info.ps_output = info.ps_output →
        (gst_d3d11_color_convert_setup_shader self device in_info out_info).result
          ≠ .error e) ∧
    (∀ e, (gst_d3d11_converter_new_internal lib device in_info out_info alpha).result
        = .error e →
      converter_classify (g_new0_converter device alpha) in_info out_info = .error e) ∧
    (∀ c, (gst_d3d11_converter_new_internal lib device in_info out_info alpha).result
        = .ok (some c) →
      ∃ info, converter_classify (g_new0_converter device alpha) in_info out_info
          = .ok (true, info) ∧
        (c.quad 0).isSome = true ∧
        (c.quad 1).isSome = (info.ps_body 1).isSome ∧
        converter_quads c = plan_bodies info) := by
  refine ⟨?_, (new_internal_quads lib device in_info out_info alpha).1, ?_⟩
  · intro info hc
    obtain ⟨-, b0, o0, b1, -⟩ := classify_accepted_bool device alpha _ _ _ hc
    have hbo : ∀ i, (info.ps_body i).isSome = true → (info.ps_output i).isSome = true := by
      intro i hi
      fin_cases i
      · simp [o0]
      · have hi' : (info.ps_body 1).isSome = true := hi
        show (info.ps_output 1).isSome = true
        rw [← b1]
        exact hi'
    refine ⟨b0, ?_, ?_, rfl, hbo, ?_⟩
    · simp [plan_bodies, b0]
    · unfold plan_bodies CONVERTER_MAX_QUADS
      split <;> split <;> omega
    · intro self e hb ho he
      obtain ⟨i, h1, h2⟩ := (setup_shader_quads self device in_info out_info).1 e he
      rw [hb] at h1
      rw [ho] at h2
      have := hbo i h1
      rw [h2] at this
      cases this
  · intro c h
    obtain ⟨info, hc, ⟨ps0, cb0, q0⟩, q1⟩ :=
      (new_internal_quads lib device in_info out_info alpha).2 c h
    obtain ⟨-, b0, -⟩ := classify_accepted_bool device alpha _ _ _ hc
    refine ⟨info, hc, by simp [q0], ?_, ?_⟩
    · rcases q1 with ⟨hb, ps1, cb1, q1⟩ | ⟨hb, q1⟩
      · simp [q1, hb]
      · simp [q1, hb]
    · rcases q1 with ⟨hb, ps1, cb1, q1⟩ | ⟨hb, q1⟩
      · simp [converter_quads, plan_bodies, q0, q1, hb, b0]
      · simp [converter_quads, plan_bodies, q0, q1, hb, b0]

/-! ### The draws, the rejected pairs and the scale factors -/

/-- On `guint`, `n - 1` does not wrap for `1 ≤ n`. -/
theorem guint_sub_one (n : Nat) (h1 : 1 ≤ n) (h2 : n < 2 ^ 32) : guint_sub n 1 = n - 1 := by
  unfold guint_sub
  norm_num
  omega

/-- One render target and then the `n - 1` following ones are the first `n`. -/
theorem render_targets_cover (n : Nat) (h1 : 1 ≤ n) :
    List.range' 0 1 ++ List.range' 1 (n - 1) = List.range n := by
  rw [List.range_eq_range']
  obtain ⟨k, rfl⟩ : ∃ k, n = k + 1 := ⟨n - 1, by omega⟩
  simp [List.range'_succ]

/-- An accepted output format is RGB or YUV and has between one and four
planes. -/
theorem classify_accepted_planes (device : GstD3D11Device) (alpha : ℚ)
    (in_info out_info : GstVideoInfo) (info : ConvertInfo)
    (h : converter_classify (g_new0_converter device alpha) in_info out_info
      = .ok (true, info)) :
    1 ≤ GST_VIDEO_INFO_N_PLANES out_info ∧
      GST_VIDEO_INFO_N_PLANES out_info ≤ GST_VIDEO_MAX_PLANES := by
  have hk : GST_VIDEO_INFO_IS_RGB out_info = true ∨ GST_VIDEO_INFO_IS_YUV out_info = true := by
    unfold converter_classify at h
    cases h1 : GST_VIDEO_INFO_IS_RGB out_info
    · cases h2 : GST_VIDEO_INFO_IS_YUV out_info
      · simp [h1, h2] at h
      · exact Or.inr rfl
    · exact Or.inl rfl
  obtain ⟨fo, wo, ho, co⟩ := out_info
  cases fo <;>
    simp [GST_VIDEO_INFO_IS_RGB, GST_VIDEO_INFO_IS_YUV, GST_VIDEO_INFO_N_PLANES,
      GstVideoInfo.finfo, gst_video_format_get_info, GST_VIDEO_MAX_PLANES] at hk ⊢

/-- A constructed converter has between one and four output views. -/
theorem new_internal_num_output_view (lib : GstVideoLib) (device : GstD3D11Device)
    (in_info out_info : GstVideoInfo) (alpha : ℚ) (c : GstD3D11Converter)
    (h : (gst_d3d11_converter_new_internal lib device in_info out_info alpha).result
      = .ok (some c)) :
    1 ≤ c.num_output_view ∧ c.num_output_view ≤ GST_VIDEO_MAX_PLANES := by
  obtain ⟨info, hc, he⟩ := new_internal_some lib device in_info out_info alpha c h
  have hv := congrArg GstD3D11Converter.num_output_view he
  simp only [setup_shader_done] at hv
  rw [hv]
  exact classify_accepted_planes device alpha in_info out_info info hc

/-- C24: a converter with a second quad and at least one output view draws
quad 0 with `viewport[0]` and the single render target `rtv[0]`, and quad 1
with the viewports from index 1 and the `num_output_view - 1` render targets
from `rtv[1]` on, both with all `num_input_view` input views: these are the
only draws of `gst_d3d11_converter_convert_unlocked`, both are issued, in this
order, when the geometry needs no rebuild or the rebuild succeeds and the first
draw succeeds, and the render targets of the two draws together are the output
planes `0 .. num_output_view - 1`, each once. -/
theorem convert_unlocked_draws (converter : GstD3D11Converter) (frame : FrameOutcome)
    (hq : (converter.quad 1).isSome = true)
    (h1 : 1 ≤ converter.num_output_view) (h2 : converter.num_output_view < 2 ^ 32) :
    (∀ e ∈ (gst_d3d11_converter_convert_unlocked converter frame).trace, e.is_draw = true →
      e = .draw_quad ⟨0, converter.viewport, 0, 1, converter.num_input_view, 0, 1⟩ ∨
      e = .draw_quad ⟨1, converter.viewport, 1, converter.num_output_view - 1,
        converter.num_input_view, 1, converter.num_output_view - 1⟩) ∧
    ((convert_needs_update converter frame.desc = false ∨ frame.map_vertex_ok = true) →
      frame.draw_ok 0 = true →
      (gst_d3d11_converter_convert_unlocked converter frame).trace.filter Event.is_draw
        = [.draw_quad ⟨0, converter.viewport, 0, 1, converter.num_input_view, 0, 1⟩,
           .draw_quad ⟨1, converter.viewport, 1, converter.num_output_view - 1,
            converter.num_input_view, 1, converter.num_output_view - 1⟩]) ∧
    DrawCall.render_targets ⟨0, converter.viewport, 0, 1, converter.num_input_view, 0, 1⟩ ++
      DrawCall.render_targets ⟨1, converter.viewport, 1, converter.num_output_view - 1,
        converter.num_input_view, 1, converter.num_output_view - 1⟩
      = List.range converter.num_output_view := by
  have hs := guint_sub_one _ h1 h2
  refine ⟨?_, ?_, ?_⟩
  · intro e he hd
    cases hn : convert_needs_update converter frame.desc
    · rw [convert_unlocked_clean _ _ hn, convert_unlocked_draw_trace, hs] at he
      simp only [List.mem_cons] at he
      rcases he with he | he
      · exact Or.inl he
      · split at he
        · simp only [List.mem_singleton] at he
          exact Or.inr he
        · simp at he
    · cases hm : frame.map_vertex_ok
      · rw [convert_unlocked_map_failed _ _ hn hm] at he
        simp at he
        rcases he with rfl | rfl | rfl <;> simp [Event.is_draw] at hd
      · rw [convert_unlocked_rebuilt _ _ hn hm] at he
        simp only [convert_unlocked_draw_trace, with_rebuilt_geometry, with_texture_size, hs,
          List.mem_cons] at he
        rcases he with rfl | rfl | he | he
        · simp [Event.is_draw] at hd
        · simp [Event.is_draw] at hd
        · exact Or.inl he
        · split at he
          · simp only [List.mem_singleton] at he
            exact Or.inr he
          · simp at he
  · intro hu h0
    cases hn : convert_needs_update converter frame.desc
    · rw [convert_unlocked_clean _ _ hn, convert_unlocked_draw_trace, hs]
      simp [h0, hq, Event.is_draw]
    · rcases hu with hu | hm
      · rw [hn] at hu
        cases hu
      · rw [convert_unlocked_rebuilt _ _ hn hm]
        simp [convert_unlocked_draw_trace, with_rebuilt_geometry, with_texture_size, hs, h0, hq,
          Event.is_draw]
  · exact render_targets_cover _ h1

theorem convert_unlocked_draws_witness :
    (gst_d3d11_converter_convert_unlocked sample_converter sample_frame).trace.filter
        Event.is_draw
      = [.draw_quad ⟨0, sample_converter.viewport, 0, 1, 1, 0, 1⟩,
         .draw_quad ⟨1, sample_converter.viewport, 1, 1, 1, 1, 1⟩] ∧
    DrawCall.render_targets ⟨0, sample_converter.viewport, 0, 1, 1, 0, 1⟩ ++
      DrawCall.render_targets ⟨1, sample_converter.viewport, 1, 1, 1, 1, 1⟩ = [0, 1] :=
  have h := sample_converter_fields
  have hc := convert_unlocked_draws sample_converter sample_frame h.2.2.2.2.2.2.2.2.1
    (by rw [h.2.2.2.2.2.2.1]; decide) (by rw [h.2.2.2.2.2.2.1]; decide)
  ⟨by
    have h2 := hc.2.1 (Or.inr rfl) rfl
    rw [h.2.2.2.2.2.2.1, h.2.2.2.2.2.1] at h2
    exact h2,
   by
    have h3 := hc.2.2
    rw [h.2.2.2.2.2.2.1, h.2.2.2.2.2.1] at h3
    exact h3⟩

/-- C26: when both formats have a native mapping and the classification does
not accept the pair, `gst_d3d11_converter_new_internal` returns no converter
after the two lookups, the classification, the report of both formats and the
release of the converter: no matrix is computed and no resource is created.
This is the case when the input is neither RGB nor YUV and when the output is
neither RGB nor YUV. -/
theorem new_internal_not_supported (lib : GstVideoLib) (device : GstD3D11Device)
    (in_info out_info : GstVideoInfo) (alpha : ℚ)
    (hin : device.format_from_gst in_info.format ≠ none)
    (hout : device.format_from_gst out_info.format ≠ none) :
    (∀ info, converter_classify (g_new0_converter device alpha) in_info out_info
        = .ok (false, info) →
      gst_d3d11_converter_new_internal lib device in_info out_info alpha
        = ⟨[.device_format_from_gst in_info.format,
            .device_format_from_gst out_info.format,
            .setup_convert_info,
            .GST_ERROR (.conversion_not_supported in_info.format out_info.format),
            .converter_free], .ok none⟩ ∧
      ∀ e ∈ (gst_d3d11_converter_new_internal lib device in_info out_info alpha).trace,
        e.is_matrix_computation = false ∧ e.is_resource_creation = false) ∧
    ((GST_VIDEO_INFO_IS_RGB in_info = false ∧ GST_VIDEO_INFO_IS_YUV in_info = false) ∨
        (GST_VIDEO_INFO_IS_RGB out_info = false ∧ GST_VIDEO_INFO_IS_YUV out_info = false) →
      converter_classify (g_new0_converter device alpha) in_info out_info
        = .ok (false, (g_new0_converter device alpha).convert_info)) := by
  constructor
  · intro info hc
    have hrun : gst_d3d11_converter_new_internal lib device in_info out_info alpha
        = ⟨[.device_format_from_gst in_info.format,
            .device_format_from_gst out_info.format,
            .setup_convert_info,
            .GST_ERROR (.conversion_not_supported in_info.format out_info.format),
            .converter_free], .ok none⟩ := by
      cases h1 : device.format_from_gst in_info.format with
      | none => exact absurd h1 hin
      | some fi =>
        cases h2 : device.format_from_gst out_info.format with
        | none => exact absurd h2 hout
        | some fo =>
          simp [gst_d3d11_converter_new_internal, gst_d3d11_device_format_from_gst,
            GST_VIDEO_INFO_FORMAT, h1, h2, hc, conversion_not_supported,
            gst_d3d11_converter_free, bind, Run.bind, pure, Run.pure, emit, Run.lift]
    refine ⟨hrun, ?_⟩
    rw [hrun]
    simp [Event.is_matrix_computation, Event.is_resource_creation]
  · intro h
    unfold converter_classify
    rcases h with ⟨h1, h2⟩ | ⟨h1, h2⟩
    · simp [h1, h2]
    · cases h3 : GST_VIDEO_INFO_IS_RGB in_info <;> cases h4 : GST_VIDEO_INFO_IS_YUV in_info <;>
        simp [h1, h2]

theorem new_internal_not_supported_witness :
    gst_d3d11_converter_new_internal gst_video_lib wide_device
        (video_info .GRAY8 .BT709) (video_info .RGBA .RGB) 1
      = ⟨[.device_format_from_gst .GRAY8, .device_format_from_gst .RGBA,
          .setup_convert_info, .GST_ERROR (.conversion_not_supported .GRAY8 .RGBA),
          .converter_free], .ok none⟩ ∧
    gst_d3d11_converter_new_internal gst_video_lib wide_device
        (video_info .RGBA .RGB) (video_info .Y444 .BT709) 1
      = ⟨[.device_format_from_gst .RGBA, .device_format_from_gst .Y444,
          .setup_convert_info, .GST_ERROR (.conversion_not_supported .RGBA .Y444),
          .converter_free], .ok none⟩ :=
  ⟨((new_internal_not_supported gst_video_lib wide_device
      (video_info .GRAY8 .BT709) (video_info .RGBA .RGB) 1
      (by simp [wide_device]) (by simp [wide_device])).1 _ rfl).1,
   ((new_internal_not_supported gst_video_lib wide_device
      (video_info .RGBA .RGB) (video_info .Y444 .BT709) 1
      (by simp [wide_device]) (by simp [wide_device])).1 _ rfl).1⟩

/-- C27: in the plan of every accepted pair each multiply factor is 64 exactly
when the input format is I420_10LE and 1 otherwise, each divide factor is 64
exactly when the output format is I420_10LE and 1 otherwise, and no factor is
anything but 1 or 64; between the planar formats I420 and I420_10LE the plan
prints `(mul, div)` for a pair and `(div, mul)` for the exchanged pair. -/
theorem classifier_factors (device : GstD3D11Device) (alpha : ℚ)
    (in_info out_info : GstVideoInfo) (info : ConvertInfo)
    (h : converter_classify (g_new0_converter device alpha) in_info out_info
      = .ok (true, info)) :
    (∀ n ∈ plan_factors info .mul,
      (n = 64 ↔ in_info.format = .I420_10LE) ∧ (n = 1 ↔ in_info.format ≠ .I420_10LE)) ∧
    (∀ n ∈ plan_factors info .div,
      (n = 64 ↔ out_info.format = .I420_10LE) ∧ (n = 1 ↔ out_info.format ≠ .I420_10LE)) ∧
    (∀ n ∈ plan_factors info .mul ++ plan_factors info .div, n = 1 ∨ n = 64) ∧
    (in_info.format ∈ [GstVideoFormat.I420, .I420_10LE] →
      out_info.format ∈ [GstVideoFormat.I420, .I420_10LE] →
      ∃ mul div info',
        mul = (if in_info.format = .I420_10LE then 64 else 1) ∧
        div = (if out_info.format = .I420_10LE then 64 else 1) ∧
        converter_classify (g_new0_converter device alpha) out_info in_info
          = .ok (true, info') ∧
        info.ps_body 0 = some (g_strdup_printf .templ_LUMA_to_LUMA_BODY [.d mul, .d div]) ∧
        info.ps_body 1 = some (g_strdup_printf .templ_PLANAR_TO_PLANAR_CHROMA_BODY
          [.d mul, .d mul, .d div, .d div]) ∧
        info'.ps_body 0 = some (g_strdup_printf .templ_LUMA_to_LUMA_BODY [.d div, .d mul]) ∧
        info'.ps_body 1 = some (g_strdup_printf .templ_PLANAR_TO_PLANAR_CHROMA_BODY
          [.d div, .d div, .d mul, .d mul])) := by
  have hb := classify_accepted_bool device alpha in_info out_info info h
  have hmul : ∀ n ∈ plan_factors info .mul,
      n = if in_info.format = .I420_10LE then 64 else 1 := by
    simpa [List.all_eq_true] using hb.2.2.2.2.1
  have hdiv : ∀ n ∈ plan_factors info .div,
      n = if out_info.format = .I420_10LE then 64 else 1 := by
    simpa [List.all_eq_true] using hb.2.2.2.2.2.1
  refine ⟨?_, ?_, ?_, ?_⟩
  · intro n hn
    rw [hmul n hn]
    split <;> simp [*]
  · intro n hn
    rw [hdiv n hn]
    split <;> simp [*]
  · intro n hn
    rcases List.mem_append.mp hn with hn | hn
    · rw [hmul n hn]
      split <;> simp
    · rw [hdiv n hn]
      split <;> simp
  · intro hi ho
    obtain ⟨fi, wi, hi', ci⟩ := in_info
    obtain ⟨fo, wo, ho', co⟩ := out_info
    simp only [List.mem_cons, List.mem_singleton, List.not_mem_nil, or_false] at hi ho
    rcases hi with rfl | rfl <;> rcases ho with rfl | rfl <;> cases h <;>
      exact ⟨_, _, _, rfl, rfl, rfl, rfl, rfl, rfl, rfl⟩

theorem classifier_factors_witness :
    ∃ info, converter_classify (g_new0_converter full_device 1)
        (video_info .I420_10LE .BT709) (video_info .I420 .BT709) = .ok (true, info) ∧
      plan_factors info .mul = [64, 64, 64] ∧ plan_factors info .div = [1, 1, 1] ∧
      ∀ n ∈ plan_factors info .mul ++ plan_factors info .div, n = 1 ∨ n = 64 :=
  ⟨_, rfl, rfl, rfl,
    (classifier_factors full_device 1 (video_info .I420_10LE .BT709)
      (video_info .I420 .BT709) _ rfl).2.2.1⟩

/-! ### Affinity of the working matrix and the translation column -/

/-- The entries of the product `color_matrix_multiply` computes. -/
theorem color_matrix_multiply_dm (a b : MatrixData) (i j : Fin 4) :
    (color_matrix_multiply a b).dm i j
      = a.dm i 0 * b.dm 0 j + a.dm i 1 * b.dm 1 j + a.dm i 2 * b.dm 2 j
        + a.dm i 3 * b.dm 3 j := by
  have hr : List.finRange 4 = [0, 1, 2, 3] := by decide
  simp [color_matrix_multiply, color_matrix_copy, hr]

/-- The product of two affine matrices is affine, and outside the translation
column it depends on the factors only outside their translation columns. -/
theorem color_matrix_multiply_agree (a a' b b' : MatrixData)
    (ha : a.affine) (ha' : a'.affine) (hla : a.linear_agree a')
    (hb : b.affine) (hb' : b'.affine) (hlb : b.linear_agree b') :
    (color_matrix_multiply a b).affine ∧ (color_matrix_multiply a' b').affine ∧
      (color_matrix_multiply a b).linear_agree (color_matrix_multiply a' b') := by
  obtain ⟨a0, a1, a2, a3⟩ := ha
  obtain ⟨a0', a1', a2', a3'⟩ := ha'
  obtain ⟨b0, b1, b2, b3⟩ := hb
  obtain ⟨b0', b1', b2', b3'⟩ := hb'
  refine ⟨?_, ?_, ?_⟩
  · simp [MatrixData.affine, color_matrix_multiply_dm, a0, a1, a2, a3, b0, b1, b2, b3]
  · simp [MatrixData.affine, color_matrix_multiply_dm, a0', a1', a2', a3', b0', b1', b2',
      b3']
  · intro i j hj
    have h0 := hla i 0 (by decide)
    have h1 := hla i 1 (by decide)
    have h2 := hla i 2 (by decide)
    have k0 := hlb 0 j hj
    have k1 := hlb 1 j hj
    have k2 := hlb 2 j hj
    have z : b.dm 3 j = 0 ∧ b'.dm 3 j = 0 := by
      fin_cases j
      · exact ⟨b0, b0'⟩
      · exact ⟨b1, b1'⟩
      · exact ⟨b2, b2'⟩
      · exact absurd rfl hj
    rw [color_matrix_multiply_dm, color_matrix_multiply_dm, h0, h1, h2, k0, k1, k2, z.1, z.2]
    ring

/-- `color_matrix_offset_components` keeps affinity, and its result outside the
translation column does not depend on the offsets. -/
theorem color_matrix_offset_components_agree (m m' : MatrixData) (a1 a2 a3 b1 b2 b3 : ℚ)
    (hm : m.affine) (hm' : m'.affine) (hl : m.linear_agree m') :
    (color_matrix_offset_components m a1 a2 a3).affine ∧
      (color_matrix_offset_components m' b1 b2 b3).affine ∧
      (color_matrix_offset_components m a1 a2 a3).linear_agree
        (color_matrix_offset_components m' b1 b2 b3) := by
  unfold color_matrix_offset_components
  apply color_matrix_multiply_agree _ _ _ _ _ _ _ hm hm' hl
  · simp [MatrixData.affine, MatrixData.set, color_matrix_set_identity, Function.update]
  · simp [MatrixData.affine, MatrixData.set, color_matrix_set_identity, Function.update]
  · intro i j hj
    fin_cases i <;> fin_cases j <;>
      simp [MatrixData.set, color_matrix_set_identity, Function.update] at hj ⊢

/-- `color_matrix_scale_components` keeps affinity and agreement outside the
translation column. -/
theorem color_matrix_scale_components_agree (m m' : MatrixData) (a1 a2 a3 : ℚ)
    (hm : m.affine) (hm' : m'.affine) (hl : m.linear_agree m') :
    (color_matrix_scale_components m a1 a2 a3).affine ∧
      (color_matrix_scale_components m' a1 a2 a3).affine ∧
      (color_matrix_scale_components m a1 a2 a3).linear_agree
        (color_matrix_scale_components m' a1 a2 a3) := by
  unfold color_matrix_scale_components
  apply color_matrix_multiply_agree _ _ _ _ _ _ _ hm hm' hl
  · simp [MatrixData.affine, MatrixData.set, color_matrix_set_identity, Function.update]
  · simp [MatrixData.affine, MatrixData.set, color_matrix_set_identity, Function.update]
  · intro i j _
    rfl

/-- `color_matrix_YCbCr_to_RGB` keeps affinity and agreement outside the
translation column. -/
theorem color_matrix_YCbCr_to_RGB_agree (m m' : MatrixData) (Kr Kb : ℚ)
    (hm : m.affine) (hm' : m'.affine) (hl : m.linear_agree m') :
    (color_matrix_YCbCr_to_RGB m Kr Kb).affine ∧
      (color_matrix_YCbCr_to_RGB m' Kr Kb).affine ∧
      (color_matrix_YCbCr_to_RGB m Kr Kb).linear_agree
        (color_matrix_YCbCr_to_RGB m' Kr Kb) := by
  unfold color_matrix_YCbCr_to_RGB
  apply color_matrix_multiply_agree _ _ _ _ _ _ _ hm hm' hl
  · simp [MatrixData.affine, MatrixData.ofRows, row4]
  · simp [MatrixData.affine, MatrixData.ofRows, row4]
  · intro i j _
    rfl

/-- `color_matrix_RGB_to_YCbCr` keeps affinity and agreement outside the
translation column. -/
theorem color_matrix_RGB_to_YCbCr_agree (m m' : MatrixData) (Kr Kb : ℚ)
    (hm : m.affine) (hm' : m'.affine) (hl : m.linear_agree m') :
    (color_matrix_RGB_to_YCbCr m Kr Kb).affine ∧
      (color_matrix_RGB_to_YCbCr m' Kr Kb).affine ∧
      (color_matrix_RGB_to_YCbCr m Kr Kb).linear_agree
        (color_matrix_RGB_to_YCbCr m' Kr Kb) := by
  unfold color_matrix_RGB_to_YCbCr
  apply color_matrix_multiply_agree _ _ _ _ _ _ _ hm hm' hl
  · simp [MatrixData.affine, MatrixData.ofRows, row4]
  · simp [MatrixData.affine, MatrixData.ofRows, row4]
  · intro i j _
    rfl

/-- `compute_matrix_to_RGB` with two libraries that return the same scales and
the same Kr/Kb for the info keeps affinity and agreement outside the
translation column. -/
theorem compute_matrix_to_RGB_agree (lib lib' : GstVideoLib) (m m' : MatrixData)
    (info : GstVideoInfo)
    (hs : (lib.color_range_offsets info.colorimetry.range info.finfo).2
      = (lib'.color_range_offsets info.colorimetry.range info.finfo).2)
    (hk : lib.color_matrix_get_Kr_Kb info.colorimetry.matrix
      = lib'.color_matrix_get_Kr_Kb info.colorimetry.matrix)
    (hm : m.affine) (hm' : m'.affine) (hl : m.linear_agree m') :
    (compute_matrix_to_RGB lib m info).affine ∧ (compute_matrix_to_RGB lib' m' info).affine ∧
      (compute_matrix_to_RGB lib m info).linear_agree (compute_matrix_to_RGB lib' m' info) := by
  unfold compute_matrix_to_RGB
  simp only [← hs, ← hk]
  obtain ⟨o1, o2, o3⟩ := color_matrix_offset_components_agree m m'
    (-((lib.color_range_offsets info.colorimetry.range info.finfo).1 0 : ℚ))
    (-((lib.color_range_offsets info.colorimetry.range info.finfo).1 1 : ℚ))
    (-((lib.color_range_offsets info.colorimetry.range info.finfo).1 2 : ℚ))
    (-((lib'.color_range_offsets info.colorimetry.range info.finfo).1 0 : ℚ))
    (-((lib'.color_range_offsets info.colorimetry.range info.finfo).1 1 : ℚ))
    (-((lib'.color_range_offsets info.colorimetry.range info.finfo).1 2 : ℚ)) hm hm' hl
  have hsc := color_matrix_scale_components_agree _ _
    (1 / ((lib.color_range_offsets info.colorimetry.range info.finfo).2 0 : ℚ))
    (1 / ((lib.color_range_offsets info.colorimetry.range info.finfo).2 1 : ℚ))
    (1 / ((lib.color_range_offsets info.colorimetry.range info.finfo).2 2 : ℚ)) o1 o2 o3
  cases GST_VIDEO_INFO_IS_RGB info
  · cases lib.color_matrix_get_Kr_Kb info.colorimetry.matrix with
    | none => exact hsc
    | some p => exact color_matrix_YCbCr_to_RGB_agree _ _ p.1 p.2 hsc.1 hsc.2.1 hsc.2.2
  · exact hsc

/-- `compute_matrix_to_YUV` with two libraries that return the same scales and
the same Kr/Kb for the info keeps affinity and agreement outside the
translation column. -/
theorem compute_matrix_to_YUV_agree (lib lib' : GstVideoLib) (m m' : MatrixData)
    (info : GstVideoInfo)
    (hs : (lib.color_range_offsets info.colorimetry.range info.finfo).2
      = (lib'.color_range_offsets info.colorimetry.range info.finfo).2)
    (hk : lib.color_matrix_get_Kr_Kb info.colorimetry.matrix
      = lib'.color_matrix_get_Kr_Kb info.colorimetry.matrix)
    (hm : m.affine) (hm' : m'.affine) (hl : m.linear_agree m') :
    (compute_matrix_to_YUV lib m info).affine ∧ (compute_matrix_to_YUV lib' m' info).affine ∧
      (compute_matrix_to_YUV lib m info).linear_agree (compute_matrix_to_YUV lib' m' info) := by
  unfold compute_matrix_to_YUV
  simp only [← hs, ← hk]
  have hrot : ∀ d d' : MatrixData, d.affine → d'.affine → d.linear_agree d' →
      (color_matrix_offset_components
        (color_matrix_scale_components d
          ((lib.color_range_offsets info.colorimetry.range info.finfo).2 0 : ℚ)
          ((lib.color_range_offsets info.colorimetry.range info.finfo).2 1 : ℚ)
          ((lib.color_range_offsets info.colorimetry.range info.finfo).2 2 : ℚ))
        ((lib.color_range_offsets info.colorimetry.range info.finfo).1 0 : ℚ)
        ((lib.color_range_offsets info.colorimetry.range info.finfo).1 1 : ℚ)
        ((lib.color_range_offsets info.colorimetry.range info.finfo).1 2 : ℚ)).affine ∧
      (color_matrix_offset_components
        (color_matrix_scale_components d'
          ((lib.color_range_offsets info.colorimetry.range info.finfo).2 0 : ℚ)
          ((lib.color_range_offsets info.colorimetry.range info.finfo).2 1 : ℚ)
          ((lib.color_range_offsets info.colorimetry.range info.finfo).2 2 : ℚ))
        ((lib'.color_range_offsets info.colorimetry.range info.finfo).1 0 : ℚ)
        ((lib'.color_range_offsets info.colorimetry.range info.finfo).1 1 : ℚ)
        ((lib'.color_range_offsets info.colorimetry.range info.finfo).1 2 : ℚ)).affine ∧
      (color_matrix_offset_components
        (color_matrix_scale_components d
          ((lib.color_range_offsets info.colorimetry.range info.finfo).2 0 : ℚ)
          ((lib.color_range_offsets info.colorimetry.range info.finfo).2 1 : ℚ)
          ((lib.color_range_offsets info.colorimetry.range info.finfo).2 2 : ℚ))
        ((lib.color_range_offsets info.colorimetry.range info.finfo).1 0 : ℚ)
        ((lib.color_range_offsets info.colorimetry.range info.finfo).1 1 : ℚ)
        ((lib.color_range_offsets info.colorimetry.range info.finfo).1 2 : ℚ)).linear_agree
      (color_matrix_offset_components
        (color_matrix_scale_components d'
          ((lib.color_range_offsets info.colorimetry.range info.finfo).2 0 : ℚ)
          ((lib.color_range_offsets info.colorimetry.range info.finfo).2 1 : ℚ)
          ((lib.color_range_offsets info.colorimetry.range info.finfo).2 2 : ℚ))
        ((lib'.color_range_offsets info.colorimetry.range info.finfo).1 0 : ℚ)
        ((lib'.color_range_offsets info.colorimetry.range info.finfo).1 1 : ℚ)
        ((lib'.color_range_offsets info.colorimetry.range info.finfo).1 2 : ℚ)) := by
    intro d d' hd hd' hdl
    obtain ⟨s1, s2, s3⟩ := color_matrix_scale_components_agree d d'
      ((lib.color_range_offsets info.colorimetry.range info.finfo).2 0 : ℚ)
      ((lib.color_range_offsets info.colorimetry.range info.finfo).2 1 : ℚ)
      ((lib.color_range_offsets info.colorimetry.range info.finfo).2 2 : ℚ) hd hd' hdl
    exact color_matrix_offset_components_agree _ _ _ _ _ _ _ _ s1 s2 s3
  cases GST_VIDEO_INFO_IS_RGB info
  · cases lib.color_matrix_get_Kr_Kb info.colorimetry.matrix with
    | none => exact hrot m m' hm hm' hl
    | some p =>
      obtain ⟨r1, r2, r3⟩ := color_matrix_RGB_to_YCbCr_agree m m' p.1 p.2 hm hm' hl
      exact hrot _ _ r1 r2 r3
  · exact hrot m m' hm hm' hl
/-- The identity working matrix is affine. -/
theorem color_matrix_set_identity_affine : color_matrix_set_identity.affine := by
  simp [MatrixData.affine, color_matrix_set_identity]

/-- `converter_get_matrix` with two libraries that return the same scales and
the same Kr/Kb for both infos: the same result flag, affine matrices, and
agreement outside the translation column. -/
theorem converter_get_matrix_agree (lib lib' : GstVideoLib) (in_info out_info : GstVideoInfo)
    (hsi : (lib.color_range_offsets in_info.colorimetry.range in_info.finfo).2
      = (lib'.color_range_offsets in_info.colorimetry.range in_info.finfo).2)
    (hso : (lib.color_range_offsets out_info.colorimetry.range out_info.finfo).2
      = (lib'.color_range_offsets out_info.colorimetry.range out_info.finfo).2)
    (hki : lib.color_matrix_get_Kr_Kb in_info.colorimetry.matrix
      = lib'.color_matrix_get_Kr_Kb in_info.colorimetry.matrix)
    (hko : lib.color_matrix_get_Kr_Kb out_info.colorimetry.matrix
      = lib'.color_matrix_get_Kr_Kb out_info.colorimetry.matrix) :
    (converter_get_matrix lib in_info out_info).1
      = (converter_get_matrix lib' in_info out_info).1 ∧
    (converter_get_matrix lib in_info out_info).2.affine ∧
    (converter_get_matrix lib' in_info out_info).2.affine ∧
    (converter_get_matrix lib in_info out_info).2.linear_agree
      (converter_get_matrix lib' in_info out_info).2 := by
  have hid := color_matrix_set_identity_affine
  have hq : ∀ s : ℚ,
      (if GST_VIDEO_INFO_COMP_DEPTH in_info 0 < GST_VIDEO_INFO_COMP_DEPTH out_info 0 then
        color_matrix_scale_components color_matrix_set_identity s s s
      else color_matrix_set_identity).affine := by
    intro s
    split
    · exact (color_matrix_scale_components_agree _ _ s s s hid hid (fun _ _ _ => rfl)).1
    · exact hid
  unfold converter_get_matrix
  by_cases hsame : in_info.colorimetry.matrix = out_info.colorimetry.matrix
  · simp only [hsame, decide_True, if_true]
    exact ⟨trivial, hid, hid, fun _ _ _ => rfl⟩
  · simp only [hsame, decide_False, Bool.false_eq_true, if_false]
    obtain ⟨r1, r2, r3⟩ := compute_matrix_to_RGB_agree lib lib' _ _ in_info hsi hki
      (hq _) (hq _) (fun _ _ _ => rfl)
    obtain ⟨y1, y2, y3⟩ := compute_matrix_to_YUV_agree lib lib' _ _ out_info hso hko r1 r2 r3
    refine ⟨trivial, ?_⟩
    split
    · exact color_matrix_scale_components_agree _ _ _ _ _ y1 y2 y3
    · exact ⟨y1, y2, y3⟩

/-- C38: every colour-matrix primitive preserves affinity: when the bottom row
of `m` is `(0, 0, 0, 1)` before `color_matrix_offset_components`,
`color_matrix_scale_components`, `color_matrix_YCbCr_to_RGB` or
`color_matrix_RGB_to_YCbCr`, it is `(0, 0, 0, 1)` afterwards; the working
matrix `converter_get_matrix` leaves always has the bottom row `(0, 0, 0, 1)`. -/
theorem primitives_preserve_affinity :
    (∀ (m : MatrixData) (a1 a2 a3 : ℚ), m.affine →
      (color_matrix_offset_components m a1 a2 a3).affine ∧
      (color_matrix_scale_components m a1 a2 a3).affine) ∧
    (∀ (m : MatrixData) (Kr Kb : ℚ), m.affine →
      (color_matrix_YCbCr_to_RGB m Kr Kb).affine ∧
      (color_matrix_RGB_to_YCbCr m Kr Kb).affine) ∧
    (∀ (lib : GstVideoLib) (in_info out_info : GstVideoInfo),
      (converter_get_matrix lib in_info out_info).2.dm 3 0 = 0 ∧
      (converter_get_matrix lib in_info out_info).2.dm 3 1 = 0 ∧
      (converter_get_matrix lib in_info out_info).2.dm 3 2 = 0 ∧
      (converter_get_matrix lib in_info out_info).2.dm 3 3 = 1) := by
  refine ⟨fun m a1 a2 a3 hm => ⟨?_, ?_⟩, fun m Kr Kb hm => ⟨?_, ?_⟩,
    fun lib in_info out_info => ?_⟩
  · exact (color_matrix_offset_components_agree m m a1 a2 a3 a1 a2 a3 hm hm
      (fun _ _ _ => rfl)).1
  · exact (color_matrix_scale_components_agree m m a1 a2 a3 hm hm (fun _ _ _ => rfl)).1
  · exact (color_matrix_YCbCr_to_RGB_agree m m Kr Kb hm hm (fun _ _ _ => rfl)).1
  · exact (color_matrix_RGB_to_YCbCr_agree m m Kr Kb hm hm (fun _ _ _ => rfl)).1
  · exact (converter_get_matrix_agree lib lib in_info out_info rfl rfl rfl rfl).2.1

/-- The transform stored from a working matrix depends on the matrix only
outside its translation column. -/
theorem store_trans_matrix_agree (transform : PixelShaderColorTransform)
    (m m' : MatrixData) (h : m.linear_agree m') :
    store_trans_matrix transform m = store_trans_matrix transform m' := by
  unfold store_trans_matrix
  rw [h 0 0 (by decide), h 0 1 (by decide), h 0 2 (by decide), h 1 0 (by decide),
    h 1 1 (by decide), h 1 2 (by decide), h 2 0 (by decide), h 2 1 (by decide),
    h 2 2 (by decide)]

/-- C31: two runs of `converter_get_matrix` followed by the copy into
`trans_matrix` whose libraries return the same scales and the same Kr/Kb for
the two infos, and any offsets, store the same transform (and report the same
result): the range offsets only reach the translation column, which is not
copied. -/
theorem transform_independent_of_offsets (lib lib' : GstVideoLib)
    (in_info out_info : GstVideoInfo)
    (hsi : (lib.color_range_offsets in_info.colorimetry.range in_info.finfo).2
      = (lib'.color_range_offsets in_info.colorimetry.range in_info.finfo).2)
    (hso : (lib.color_range_offsets out_info.colorimetry.range out_info.finfo).2
      = (lib'.color_range_offsets out_info.colorimetry.range out_info.finfo).2)
    (hki : lib.color_matrix_get_Kr_Kb in_info.colorimetry.matrix
      = lib'.color_matrix_get_Kr_Kb in_info.colorimetry.matrix)
    (hko : lib.color_matrix_get_Kr_Kb out_info.colorimetry.matrix
      = lib'.color_matrix_get_Kr_Kb out_info.colorimetry.matrix) :
    (converter_get_matrix lib in_info out_info).1
      = (converter_get_matrix lib' in_info out_info).1 ∧
    (∀ transform, store_trans_matrix transform (converter_get_matrix lib in_info out_info).2
      = store_trans_matrix transform (converter_get_matrix lib' in_info out_info).2) ∧
    (∀ info, new_internal_convert_info lib in_info out_info info
      = new_internal_convert_info lib' in_info out_info info) := by
  obtain ⟨h1, -, -, h4⟩ :=
    converter_get_matrix_agree lib lib' in_info out_info hsi hso hki hko
  refine ⟨h1, fun t => store_trans_matrix_agree t _ _ h4, fun info => ?_⟩
  unfold new_internal_convert_info
  rw [← h1, store_trans_matrix_agree info.transform _ _ h4]

theorem transform_independent_of_offsets_witness :
    (gst_video_lib.color_range_offsets .RANGE_16_235 (video_info .NV12 .BT709).finfo).1 0 = 16 ∧
    (gst_video_lib_zero_offset.color_range_offsets .RANGE_16_235
      (video_info .NV12 .BT709).finfo).1 0 = 0 ∧
    new_internal_convert_info gst_video_lib (video_info .RGBA .RGB) (video_info .NV12 .BT709)
        (g_new0_converter full_device 1).convert_info
      = new_internal_convert_info gst_video_lib_zero_offset (video_info .RGBA .RGB)
        (video_info .NV12 .BT709) (g_new0_converter full_device 1).convert_info :=
  ⟨by decide, rfl,
    (transform_independent_of_offsets gst_video_lib gst_video_lib_zero_offset
      (video_info .RGBA .RGB) (video_info .NV12 .BT709) rfl rfl rfl rfl).2.2 _⟩

/-! ### The rebuilt geometry against the initial one -/

/-- A quad whose left edge is left of its right edge and whose bottom edge is
below its top edge, listed as bottom-left `a`, top-left `b`, top-right `c`,
bottom-right `d`: the triangles `a b c` and `d a c` are clockwise. -/
theorem quad_winding (a b c d : VertexData)
    (hab : a.position_x = b.position_x) (hcd : c.position_x = d.position_x)
    (had : a.position_y = d.position_y) (hbc : b.position_y = c.position_y)
    (hx : a.position_x < c.position_x) (hy : a.position_y < b.position_y) :
    signed_area a b c < 0 ∧ signed_area d a c < 0 := by
  unfold signed_area
  have hp := mul_pos (sub_pos.mpr hx) (sub_pos.mpr hy)
  constructor
  · rw [← hab, ← hbc]
    nlinarith
  · rw [← hcd, ← had, ← hbc]
    nlinarith

/-- The positions the rebuild writes, vertex by vertex. -/
theorem update_vertex_data_positions (self : GstD3D11Converter) :
    (update_vertex_data self 0).position_x
      = (self.dest_rect.left : ℚ) / (GST_VIDEO_INFO_WIDTH self.out_info : ℚ) * 2 - 1 ∧
    (update_vertex_data self 1).position_x = (update_vertex_data self 0).position_x ∧
    (update_vertex_data self 2).position_x
      = (self.dest_rect.right : ℚ) / (GST_VIDEO_INFO_WIDTH self.out_info : ℚ) * 2 - 1 ∧
    (update_vertex_data self 3).position_x = (update_vertex_data self 2).position_x ∧
    (update_vertex_data self 0).position_y
      = (self.dest_rect.bottom : ℚ) / (GST_VIDEO_INFO_HEIGHT self.out_info : ℚ) * -2 + 1 ∧
    (update_vertex_data self 3).position_y = (update_vertex_data self 0).position_y ∧
    (update_vertex_data self 1).position_y
      = (self.dest_rect.top : ℚ) / (GST_VIDEO_INFO_HEIGHT self.out_info : ℚ) * -2 + 1 ∧
    (update_vertex_data self 2).position_y = (update_vertex_data self 1).position_y := by
  simp [update_vertex_data, gst_util_fraction_to_double]

/-- C34: for a destination rectangle with `left < right` and `top < bottom` and
an output of width and height at least 1, the rebuilt geometry read with the
index list `[0, 1, 2, 3, 0, 2]` is two triangles (vertices 0, 1, 2 and
vertices 3, 0, 2) of negative signed area in the y-up position plane, that is
of clockwise winding, like the geometry written at construction. -/
theorem rebuild_winding (self : GstD3D11Converter)
    (hw : 1 ≤ GST_VIDEO_INFO_WIDTH self.out_info)
    (hh : 1 ≤ GST_VIDEO_INFO_HEIGHT self.out_info)
    (hlr : self.dest_rect.left < self.dest_rect.right)
    (htb : self.dest_rect.top < self.dest_rect.bottom) :
    index_triangles initial_indices = [(0, 1, 2), (3, 0, 2)] ∧
    (∀ t ∈ index_triangles initial_indices, triangle_area (update_vertex_data self) t < 0) ∧
    (∀ t ∈ index_triangles initial_indices, triangle_area initial_vertex_data t < 0) := by
  have qw : (0 : ℚ) < GST_VIDEO_INFO_WIDTH self.out_info := by
    have : (1 : ℚ) ≤ GST_VIDEO_INFO_WIDTH self.out_info := by exact_mod_cast hw
    linarith
  have qh : (0 : ℚ) < GST_VIDEO_INFO_HEIGHT self.out_info := by
    have : (1 : ℚ) ≤ GST_VIDEO_INFO_HEIGHT self.out_info := by exact_mod_cast hh
    linarith
  have qlr : (self.dest_rect.left : ℚ) < self.dest_rect.right := by exact_mod_cast hlr
  have qtb : (self.dest_rect.top : ℚ) < self.dest_rect.bottom := by exact_mod_cast htb
  obtain ⟨x0, x1, x2, x3, y0, y3, y1, y2⟩ := update_vertex_data_positions self
  have hx : (update_vertex_data self 0).position_x < (update_vertex_data self 2).position_x := by
    rw [x0, x2]
    have := div_lt_div_of_pos_right qlr qw
    linarith
  have hy : (update_vertex_data self 0).position_y < (update_vertex_data self 1).position_y := by
    rw [y0, y1]
    have := div_lt_div_of_pos_right qtb qh
    linarith
  have hq := quad_winding (update_vertex_data self 0) (update_vertex_data self 1)
    (update_vertex_data self 2) (update_vertex_data self 3) x1.symm x3.symm y3.symm y2.symm hx hy
  have hi := quad_winding (initial_vertex_data 0) (initial_vertex_data 1)
    (initial_vertex_data 2) (initial_vertex_data 3) rfl rfl rfl rfl (by decide) (by decide)
  refine ⟨rfl, ?_, ?_⟩
  · intro t ht
    simp only [initial_indices, index_triangles, List.mem_cons, List.mem_singleton,
      List.not_mem_nil, or_false] at ht
    rcases ht with rfl | rfl
    · exact hq.1
    · exact hq.2
  · intro t ht
    simp only [initial_indices, index_triangles, List.mem_cons, List.mem_singleton,
      List.not_mem_nil, or_false] at ht
    rcases ht with rfl | rfl
    · exact hi.1
    · exact hi.2

theorem rebuild_winding_witness :
    triangle_area (update_vertex_data sample_converter) (0, 1, 2) < 0 ∧
    triangle_area (update_vertex_data sample_converter) (3, 0, 2) < 0 :=
  have h := sample_converter_fields
  have hc := rebuild_winding sample_converter
    (by simp [h.2.2.2.2.2.2.2.2.2, video_info, GST_VIDEO_INFO_WIDTH])
    (by simp [h.2.2.2.2.2.2.2.2.2, video_info, GST_VIDEO_INFO_HEIGHT])
    (by simp [h.2.1]) (by simp [h.2.1])
  ⟨hc.2.1 (0, 1, 2) (by simp [hc.1]), hc.2.1 (3, 0, 2) (by simp [hc.1])⟩

/-- The texture coordinates the rebuild writes, vertex by vertex. -/
theorem update_vertex_data_texture (self : GstD3D11Converter) :
    (∀ i, (update_vertex_data self i).texture_x
      = (if i = 0 ∨ i = 1 then (self.src_rect.left : ℚ) else (self.src_rect.right : ℚ))
          / (self.input_texture_width : ℚ) - (1 / 2) / (self.input_texture_width : ℚ)) ∧
    (∀ i, (update_vertex_data self i).texture_y
      = (if i = 0 ∨ i = 3 then (self.src_rect.bottom : ℚ) else (self.src_rect.top : ℚ))
          / (self.input_texture_height : ℚ) - (1 / 2) / (self.input_texture_height : ℚ)) := by
  constructor <;> intro i <;> fin_cases i <;> simp [update_vertex_data]

/-- The state construction leaves: the initial vertex buffer, the full source
and destination rectangles, and the input size as cached texture size. -/
theorem new_internal_state (lib : GstVideoLib) (device : GstD3D11Device)
    (in_info out_info : GstVideoInfo) (alpha : ℚ) (c : GstD3D11Converter)
    (h : (gst_d3d11_converter_new_internal lib device in_info out_info alpha).result
      = .ok (some c)) :
    c.vertex_buffer = some initial_vertex_data ∧
      c.src_rect = ⟨0, 0, GST_VIDEO_INFO_WIDTH in_info, GST_VIDEO_INFO_HEIGHT in_info⟩ ∧
      c.dest_rect = ⟨0, 0, GST_VIDEO_INFO_WIDTH out_info, GST_VIDEO_INFO_HEIGHT out_info⟩ ∧
      c.input_texture_width = GST_VIDEO_INFO_WIDTH in_info ∧
      c.input_texture_height = GST_VIDEO_INFO_HEIGHT in_info ∧
      c.out_info = out_info ∧
      c.num_output_view = GST_VIDEO_INFO_N_PLANES out_info ∧
      c.update_vertex = false := by
  obtain ⟨info, -, hc⟩ := new_internal_some lib device in_info out_info alpha c h
  refine ⟨?_, ?_, ?_, ?_, ?_, ?_, ?_, ?_⟩
  · have := congrArg GstD3D11Converter.vertex_buffer hc
    simpa [setup_shader_done] using this
  · have := congrArg GstD3D11Converter.src_rect hc
    simpa [setup_shader_done] using this
  · have := congrArg GstD3D11Converter.dest_rect hc
    simpa [setup_shader_done] using this
  · have := congrArg GstD3D11Converter.input_texture_width hc
    simpa [setup_shader_done] using this
  · have := congrArg GstD3D11Converter.input_texture_height hc
    simpa [setup_shader_done] using this
  · have := congrArg GstD3D11Converter.out_info hc
    simpa [setup_shader_done] using this
  · have := congrArg GstD3D11Converter.num_output_view hc
    simpa [setup_shader_done] using this
  · have := congrArg GstD3D11Converter.update_vertex hc
    simpa [setup_shader_done, g_new0_converter] using this

/-- C35 on the code: rebuilding the geometry from the state construction leaves
(full source and destination rectangles, cached texture size the input size)
gives the positions of the initial vertex buffer, but texture coordinates that
are lower by half a texel, `1 / (2 inW)` and `1 / (2 inH)`: the rebuilt
vertices are not the initial ones. For the 640x480 sample converter the
bottom-left vertex is rebuilt with `(u, v) = (-1/1280, 959/960)` where
construction wrote `(0, 1)`. -/
theorem rebuild_differs_from_initial :
    (∀ (lib : GstVideoLib) (device : GstD3D11Device) (in_info out_info : GstVideoInfo)
        (alpha : ℚ) (c : GstD3D11Converter),
      (gst_d3d11_converter_new_internal lib device in_info out_info alpha).result
          = .ok (some c) →
      1 ≤ GST_VIDEO_INFO_WIDTH in_info → 1 ≤ GST_VIDEO_INFO_HEIGHT in_info →
      1 ≤ GST_VIDEO_INFO_WIDTH out_info → 1 ≤ GST_VIDEO_INFO_HEIGHT out_info →
        c.vertex_buffer = some initial_vertex_data ∧
        (∀ i, (update_vertex_data c i).position_x = (initial_vertex_data i).position_x ∧
          (update_vertex_data c i).position_y = (initial_vertex_data i).position_y ∧
          (update_vertex_data c i).position_z = (initial_vertex_data i).position_z) ∧
        (∀ i, (update_vertex_data c i).texture_x
            = (initial_vertex_data i).texture_x - 1 / (2 * (GST_VIDEO_INFO_WIDTH in_info : ℚ)) ∧
          (update_vertex_data c i).texture_y
            = (initial_vertex_data i).texture_y
              - 1 / (2 * (GST_VIDEO_INFO_HEIGHT in_info : ℚ))) ∧
        update_vertex_data c ≠ initial_vertex_data) ∧
    update_vertex_data sample_converter 0 = ⟨-1, -1, 0, -1 / 1280, 959 / 960⟩ ∧
    initial_vertex_data 0 = ⟨-1, -1, 0, 0, 1⟩ ∧
    sample_converter.vertex_buffer = some initial_vertex_data := by
  have hgen := new_internal_state
  refine ⟨?_, ?_, rfl, ?_⟩
  · intro lib device in_info out_info alpha c h hwi hhi hwo hho
    obtain ⟨hv, hs, hd, htw, hth, ho, -, -⟩ := hgen lib device in_info out_info alpha c h
    have qwi : (GST_VIDEO_INFO_WIDTH in_info : ℚ) ≠ 0 := by
      have : (1 : ℚ) ≤ GST_VIDEO_INFO_WIDTH in_info := by exact_mod_cast hwi
      linarith
    have qhi : (GST_VIDEO_INFO_HEIGHT in_info : ℚ) ≠ 0 := by
      have : (1 : ℚ) ≤ GST_VIDEO_INFO_HEIGHT in_info := by exact_mod_cast hhi
      linarith
    have qwo : (GST_VIDEO_INFO_WIDTH out_info : ℚ) ≠ 0 := by
      have : (1 : ℚ) ≤ GST_VIDEO_INFO_WIDTH out_info := by exact_mod_cast hwo
      linarith
    have qho : (GST_VIDEO_INFO_HEIGHT out_info : ℚ) ≠ 0 := by
      have : (1 : ℚ) ≤ GST_VIDEO_INFO_HEIGHT out_info := by exact_mod_cast hho
      linarith
    have htex : ∀ i, (update_vertex_data c i).texture_x
          = (initial_vertex_data i).texture_x - 1 / (2 * (GST_VIDEO_INFO_WIDTH in_info : ℚ)) ∧
        (update_vertex_data c i).texture_y
          = (initial_vertex_data i).texture_y
            - 1 / (2 * (GST_VIDEO_INFO_HEIGHT in_info : ℚ)) := by
      intro i
      rw [(update_vertex_data_texture c).1 i, (update_vertex_data_texture c).2 i, hs, htw, hth]
      constructor <;> fin_cases i <;> simp [initial_vertex_data] <;> (try field_simp) <;>
        (try ring)
    refine ⟨hv, ?_, htex, ?_⟩
    · intro i
      fin_cases i <;>
        simp [update_vertex_data, gst_util_fraction_to_double, initial_vertex_data, hd, ho, qwo,
          qho] <;>
        norm_num
    · intro he
      have h0 := (htex 0).1
      rw [he] at h0
      have hpos : (0 : ℚ) < 1 / (2 * (GST_VIDEO_INFO_WIDTH in_info : ℚ)) := by
        have : (1 : ℚ) ≤ GST_VIDEO_INFO_WIDTH in_info := by exact_mod_cast hwi
        positivity
      linarith
  · obtain ⟨h1, h2, -, h4, h5, -, -, -, -, h10⟩ := sample_converter_fields
    simp only [update_vertex_data, gst_util_fraction_to_double, h1, h2, h4, h5, h10, video_info,
      GST_VIDEO_INFO_WIDTH, GST_VIDEO_INFO_HEIGHT]
    norm_num
  · exact (hgen _ _ _ _ _ _ sample_converter_built).1

/-- C33 on the code: when the mapping of the vertex buffer fails, the call
returns FALSE with the cached texture size already set to the size of the
frame and the dirty flag as it was; the next call with the same texture
rebuilds exactly when the dirty flag was set. A rebuild triggered by the
texture size alone is not attempted again: after the failed call on the
640x480 sample converter with a 1280x720 texture, the next call with the same
texture maps nothing and draws with the vertex buffer of construction. -/
theorem convert_unlocked_map_failure :
    (∀ (converter : GstD3D11Converter) (frame next : FrameOutcome),
      convert_needs_update converter frame.desc = true →
      frame.map_vertex_ok = false →
      frame.desc.Width < 2 ^ 32 → frame.desc.Height < 2 ^ 32 →
      next.desc = frame.desc →
      ∃ c', (gst_d3d11_converter_convert_unlocked converter frame).result = .ok (false, c') ∧
        c'.update_vertex = converter.update_vertex ∧
        c'.vertex_buffer = converter.vertex_buffer ∧
        ((∃ e ∈ (gst_d3d11_converter_convert_unlocked c' next).trace,
          e.is_vertex_map = true) ↔ converter.update_vertex = true)) ∧
    (sample_converter.update_vertex = false ∧
      convert_needs_update sample_converter resized_frame_unmapped.desc = true ∧
      ∃ c', (gst_d3d11_converter_convert_unlocked sample_converter
            resized_frame_unmapped).result = .ok (false, c') ∧
        convert_needs_update c' resized_frame.desc = false ∧
        ((gst_d3d11_converter_convert_unlocked c' resized_frame).trace.all
          fun e => !e.is_vertex_map) = true ∧
        (gst_d3d11_converter_convert_unlocked c' resized_frame).result = .ok (true, c') ∧
        c'.vertex_buffer = some initial_vertex_data ∧
        c'.input_texture_width = 1280 ∧ c'.input_texture_height = 720) := by
  have hgen : ∀ (converter : GstD3D11Converter) (frame : FrameOutcome),
      convert_needs_update converter frame.desc = true →
      frame.map_vertex_ok = false →
      frame.desc.Width < 2 ^ 32 → frame.desc.Height < 2 ^ 32 →
      (gst_d3d11_converter_convert_unlocked converter frame).result
        = .ok (false, with_texture_size converter frame.desc) ∧
      convert_needs_update (with_texture_size converter frame.desc) frame.desc
        = converter.update_vertex := by
    intro converter frame hn hm hw hh
    rw [convert_unlocked_map_failed _ _ hn hm]
    refine ⟨rfl, ?_⟩
    simp [convert_needs_update, with_texture_size, guint_of_gint_of_guint _ hw,
      guint_of_gint_of_guint _ hh]
  constructor
  · intro converter frame next hn hm hw hh hnext
    obtain ⟨hr, hn'⟩ := hgen converter frame hn hm hw hh
    refine ⟨_, hr, rfl, rfl, ?_⟩
    cases hu : converter.update_vertex
    · rw [hu] at hn'
      rw [convert_unlocked_clean _ _ (by rw [hnext]; exact hn'), convert_unlocked_draw_trace]
      constructor
      · rintro ⟨e, he, hv⟩
        simp only [List.mem_cons] at he
        rcases he with rfl | he
        · simp [Event.is_vertex_map] at hv
        · split at he
          · simp only [List.mem_singleton] at he
            subst he
            simp [Event.is_vertex_map] at hv
          · simp at he
      · intro hf
        cases hf
    · rw [hu] at hn'
      constructor
      · intro _
        rfl
      · intro _
        refine ⟨.Map .vertex, ?_, rfl⟩
        cases hm2 : next.map_vertex_ok
        · rw [convert_unlocked_map_failed _ _ (by rw [hnext]; exact hn') hm2]
          simp
        · rw [convert_unlocked_rebuilt _ _ (by rw [hnext]; exact hn') hm2]
          simp
  · obtain ⟨h1, h2, h3, h4, h5, h6, h7, h8, h9, h10⟩ := sample_converter_fields
    have hn : convert_needs_update sample_converter resized_frame_unmapped.desc = true := by
      simp [convert_needs_update, resized_frame_unmapped, h3, h4, h5, guint_of_gint]
    obtain ⟨hr, hn'⟩ := hgen sample_converter resized_frame_unmapped hn rfl
      (by simp [resized_frame_unmapped]) (by simp [resized_frame_unmapped])
    rw [h3] at hn'
    have hn2 : convert_needs_update
        (with_texture_size sample_converter resized_frame_unmapped.desc) resized_frame.desc
        = false := hn'
    refine ⟨h3, hn, _, hr, hn2, ?_, ?_, ?_, ?_, ?_⟩
    · rw [convert_unlocked_clean _ _ hn2, convert_unlocked_draw_trace]
      simp [Event.is_vertex_map, resized_frame, with_texture_size, h9]
    · rw [convert_unlocked_clean _ _ hn2, convert_unlocked_draw_result]
      simp [resized_frame]
    · exact (new_internal_state _ _ _ _ _ _ sample_converter_built).1
    · simp [with_texture_size, resized_frame_unmapped, gint_of_guint]
    · simp [with_texture_size, resized_frame_unmapped, gint_of_guint]

/-! ### The packed YUV selectors -/

/-- The not-reached assertion of the default branch of
`get_packed_yuv_components` fails exactly for a format outside the five packed
formats. -/
theorem get_packed_yuv_components_default (self : GstD3D11Converter)
    (format : GstVideoFormat) :
    get_packed_yuv_components self format = .error .assert_not_reached_packed_format ↔
      format ∉ [GstVideoFormat.YUY2, .UYVY, .VYUY, .Y210, .Y410] := by
  unfold get_packed_yuv_components
  cases format <;> simp
  cases gst_d3d11_device_format_from_gst self.device .YUY2 with
  | none => simp
  | some d =>
    simp only
    split
    · simp
    · split <;> simp

/-- A failed assertion of the classifier is one of `get_packed_yuv_components`
called with the input format, which is then one of the five packed formats. -/
theorem classify_fault (converter : GstD3D11Converter) (in_info out_info : GstVideoInfo)
    (e : Fault) (h : converter_classify converter in_info out_info = .error e) :
    in_info.format ∈ [GstVideoFormat.YUY2, .UYVY, .VYUY, .Y210, .Y410] ∧
      get_packed_yuv_components converter in_info.format = .error e := by
  obtain ⟨fi, wi, hi, ci⟩ := in_info
  obtain ⟨fo, wo, ho, co⟩ := out_info
  cases fi <;> cases fo <;>
    first
      | (cases h)
      | (simp [converter_classify, GST_VIDEO_INFO_IS_RGB, GST_VIDEO_INFO_IS_YUV,
          GstVideoInfo.finfo, gst_video_format_get_info, GST_VIDEO_INFO_FORMAT,
          setup_convert_info_yuv_to_rgb, setup_convert_info_yuv_to_yuv,
          setup_convert_info_packed_yuv_to_vuya, setup_convert_info_packed_yuv_to_planar,
          setup_convert_info_packed_yuv_to_semi_planar] at h ⊢
         split at h <;> simp_all)

/-- C36: the default branch of `get_packed_yuv_components` is entered exactly
for a format outside YUY2, UYVY, VYUY, Y210, Y410, and the classifier never
gets there: whenever it fails an assertion, that is one of a call with the
input format YUY2 (the device has no mapping for YUY2, or one with another
resource format). For each of the five formats, when the device maps YUY2 to
`R8G8B8A8_UNORM` or `G8R8_G8B8_UNORM`, the call returns TRUE with the three
selectors set. -/
theorem packed_yuv_components_reachable :
    (∀ (self : GstD3D11Converter) (format : GstVideoFormat),
      get_packed_yuv_components self format = .error .assert_not_reached_packed_format ↔
        format ∉ [GstVideoFormat.YUY2, .UYVY, .VYUY, .Y210, .Y410]) ∧
    (∀ (converter : GstD3D11Converter) (in_info out_info : GstVideoInfo),
      converter_classify converter in_info out_info
        ≠ .error .assert_not_reached_packed_format) ∧
    (∀ (converter : GstD3D11Converter) (in_info out_info : GstVideoInfo) (e : Fault),
      converter_classify converter in_info out_info = .error e →
        in_info.format = .YUY2 ∧ get_packed_yuv_components converter .YUY2 = .error e ∧
        e ≠ .assert_not_reached_packed_format) ∧
    (∀ (self : GstD3D11Converter) (format : GstVideoFormat),
      format ∈ [GstVideoFormat.YUY2, .UYVY, .VYUY, .Y210, .Y410] →
      (∃ d, gst_d3d11_device_format_from_gst self.device .YUY2 = some d ∧
        (d.resource_format 0 = .R8G8B8A8_UNORM ∨ d.resource_format 0 = .G8R8_G8B8_UNORM)) →
      ∃ y u v, get_packed_yuv_components self format = .ok (some (y, u, v))) := by
  refine ⟨get_packed_yuv_components_default, ?_, ?_, ?_⟩
  · intro converter in_info out_info h
    obtain ⟨hm, hg⟩ := classify_fault converter in_info out_info _ h
    exact (get_packed_yuv_components_default converter in_info.format).mp hg hm
  · intro converter in_info out_info e h
    obtain ⟨hm, hg⟩ := classify_fault converter in_info out_info _ h
    have hne : e ≠ .assert_not_reached_packed_format := by
      intro he
      rw [he] at hg
      exact (get_packed_yuv_components_default converter in_info.format).mp hg hm
    simp only [List.mem_cons, List.mem_singleton, List.not_mem_nil, or_false] at hm
    rcases hm with hm | hm | hm | hm | hm <;> rw [hm] at hg
    · exact ⟨hm, hg, hne⟩
    all_goals simp [get_packed_yuv_components] at hg
  · intro self format hm hd
    obtain ⟨d, hd1, hd2⟩ := hd
    simp only [List.mem_cons, List.mem_singleton, List.not_mem_nil, or_false] at hm
    rcases hm with rfl | rfl | rfl | rfl | rfl
    · rcases hd2 with hd2 | hd2
      · exact ⟨'x', 'y', 'a', by simp [get_packed_yuv_components, hd1, hd2]⟩
      · exact ⟨'y', 'x', 'z', by simp [get_packed_yuv_components, hd1, hd2]⟩
    · exact ⟨_, _, _, rfl⟩
    · exact ⟨_, _, _, rfl⟩
    · exact ⟨_, _, _, rfl⟩
    · exact ⟨_, _, _, rfl⟩

/-- C39: the three selectors `get_packed_yuv_components` returns name three
different texture channels (with `r g b a` read as `x y z w`), whatever the
format and the resource format of YUY2. -/
theorem packed_yuv_selectors_distinct (self : GstD3D11Converter) (format : GstVideoFormat)
    (y u v : Char) (h : get_packed_yuv_components self format = .ok (some (y, u, v))) :
    ∃ cy cu cv, swizzle_channel y = some cy ∧ swizzle_channel u = some cu ∧
      swizzle_channel v = some cv ∧ cy ≠ cu ∧ cy ≠ cv ∧ cu ≠ cv := by
  have key : (y, u, v) ∈ [('x', 'y', 'a'), ('y', 'x', 'z'), ('y', 'z', 'x'), ('r', 'g', 'a'),
      ('g', 'r', 'b')] := by
    unfold get_packed_yuv_components at h
    cases format <;> simp at h
    · cases hd : gst_d3d11_device_format_from_gst self.device .YUY2 with
      | none => simp [hd] at h
      | some d =>
        simp only [hd] at h
        split at h
        · simp at h
          simp [← h.1, ← h.2.1, ← h.2.2]
        · split at h
          · simp at h
            simp [← h.1, ← h.2.1, ← h.2.2]
          · simp at h
    all_goals simp [← h.1, ← h.2.1, ← h.2.2]
  simp only [List.mem_cons, List.mem_singleton, List.not_mem_nil, or_false, Prod.mk.injEq]
    at key
  rcases key with ⟨rfl, rfl, rfl⟩ | ⟨rfl, rfl, rfl⟩ | ⟨rfl, rfl, rfl⟩ | ⟨rfl, rfl, rfl⟩ |
    ⟨rfl, rfl, rfl⟩
  · exact ⟨0, 1, 3, by decide, by decide, by decide, by decide, by decide, by decide⟩
  · exact ⟨1, 0, 2, by decide, by decide, by decide, by decide, by decide, by decide⟩
  · exact ⟨1, 2, 0, by decide, by decide, by decide, by decide, by decide, by decide⟩
  · exact ⟨0, 1, 3, by decide, by decide, by decide, by decide, by decide, by decide⟩
  · exact ⟨1, 0, 2, by decide, by decide, by decide, by decide, by decide, by decide⟩

theorem packed_yuv_selectors_distinct_witness :
    get_packed_yuv_components (g_new0_converter full_device 1) .YUY2
      = .ok (some ('x', 'y', 'a')) ∧
    ∃ cy cu cv, swizzle_channel 'x' = some cy ∧ swizzle_channel 'y' = some cu ∧
      swizzle_channel 'a' = some cv ∧ cy ≠ cu ∧ cy ≠ cv ∧ cu ≠ cv :=
  ⟨rfl, packed_yuv_selectors_distinct (g_new0_converter full_device 1) .YUY2 'x' 'y' 'a' rfl⟩

/-! ### The viewport mutator on constructed converters -/

/-- On every converter the factory builds whose output format is an RGB format
of one plane, VUYA, NV12, P010_10LE, P016_LE, I420 or I420_10LE,
`gst_d3d11_converter_update_viewport` returns TRUE without reaching its
not-reached assertion; outside the five subsampled formats (the default
branch) the converter has `num_output_view = 1`, `viewport[0]` becomes the
argument and every other viewport is unchanged. -/
theorem update_viewport_no_assert (lib : GstVideoLib) (device : GstD3D11Device)
    (in_info out_info : GstVideoInfo) (alpha : ℚ) (c : GstD3D11Converter)
    (v : D3D11_VIEWPORT)
    (h : (gst_d3d11_converter_new_internal lib device in_info out_info alpha).result
      = .ok (some c))
    (hfmt : (GST_VIDEO_INFO_IS_RGB out_info = true ∧ GST_VIDEO_INFO_N_PLANES out_info = 1) ∨
      out_info.format ∈
        [GstVideoFormat.VUYA, .NV12, .P010_10LE, .P016_LE, .I420, .I420_10LE]) :
    ∃ c', gst_d3d11_converter_update_viewport c v = .ok (true, c') ∧
      (out_info.format ∉ [GstVideoFormat.NV12, .P010_10LE, .P016_LE, .I420, .I420_10LE] →
        c.num_output_view = 1 ∧
        c' = { c with viewport := Function.update c.viewport 0 v } ∧
        ∀ i, i ≠ 0 → c'.viewport i = c.viewport i) := by
  obtain ⟨-, -, -, -, -, ho, hn, -⟩ := new_internal_state _ _ _ _ _ _ h
  unfold gst_d3d11_converter_update_viewport
  rw [ho, hn]
  obtain ⟨fo, wo, ho', co⟩ := out_info
  cases fo <;>
    simp [GST_VIDEO_INFO_IS_RGB, GST_VIDEO_INFO_N_PLANES, GstVideoInfo.finfo,
      gst_video_format_get_info, GST_VIDEO_INFO_FORMAT] at hfmt ⊢ <;>
    intro i hi <;> simp [Function.update, hi]

theorem update_viewport_no_assert_witness :
    ∃ c c', (gst_d3d11_converter_new_internal gst_video_lib full_device
          (video_info .NV12 .BT709) (video_info .RGBA .RGB) 1).result = .ok (some c) ∧
      gst_d3d11_converter_update_viewport c ⟨0, 0, 320, 240, 0, 1⟩ = .ok (true, c') ∧
      c.num_output_view = 1 ∧ c'.viewport 0 = ⟨0, 0, 320, 240, 0, 1⟩ := by
  have hex : ∃ c, (gst_d3d11_converter_new_internal gst_video_lib full_device
      (video_info .NV12 .BT709) (video_info .RGBA .RGB) 1).result = .ok (some c) := by
    simp [gst_d3d11_converter_new_internal,
      gst_d3d11_device_format_from_gst, full_device,
      video_info, GST_VIDEO_INFO_FORMAT, bind, Run.bind, pure, Run.pure, emit, Run.lift,
      converter_classify, GST_VIDEO_INFO_IS_RGB, GST_VIDEO_INFO_IS_YUV,
      GstVideoInfo.finfo, gst_video_format_get_info,
      setup_convert_info_yuv_to_rgb, g_new0_converter, ConvertInfo.set_ps_body,
      ConvertInfo.set_ps_output, converter_get_matrix, gst_d3d11_color_convert_setup_shader,
      setup_shader_pixel_shader, setup_shader_const_buffer, setup_shader_geometry,
      templ_YUV_to_RGB]
  obtain ⟨c, hc⟩ := hex
  obtain ⟨c', h1, h2⟩ := update_viewport_no_assert gst_video_lib full_device
    (video_info .NV12 .BT709) (video_info .RGBA .RGB) 1 c ⟨0, 0, 320, 240, 0, 1⟩ hc
    (Or.inl ⟨rfl, rfl⟩)
  obtain ⟨h3, h4, -⟩ := h2 (by decide)
  exact ⟨c, c', hc, h1, h3, by rw [h4]; simp [Function.update]⟩

/-- The pixel-shader round of shader setup creates no constant buffer. -/
theorem setup_shader_pixel_shader_no_constant_buffer (device : GstD3D11Device)
    (convert_info : ConvertInfo) (templ : PixelShaderTemplate) (i : Fin 2) :
    ∀ e ∈ (setup_shader_pixel_shader device convert_info templ i).trace,
      e.is_constant_buffer_creation = false := by
  unfold setup_shader_pixel_shader
  cases convert_info.ps_body i <;> cases convert_info.ps_output i <;>
    simp only [bind, Run.bind, pure, Run.pure, emit, Run.lift] <;>
    (try split) <;>
    simp [Event.is_constant_buffer_creation]

/-- The geometry part of shader setup creates no constant buffer. -/
theorem setup_shader_geometry_no_constant_buffer (self : GstD3D11Converter)
    (device : GstD3D11Device)
    (in_info out_info : GstVideoInfo) (ps : Fin 2 → Option PixelShaderCode)
    (const_buffer : Option PixelShaderColorTransform) :
    ∀ e ∈ (setup_shader_geometry self device in_info out_info ps const_buffer).trace,
      e.is_constant_buffer_creation = false := by
  unfold setup_shader_geometry
  cases device.create_vertex_shader_ok <;> cases device.CreateBuffer_ok .vertex <;>
    cases device.CreateBuffer_ok .index <;> cases device.Map_ok .vertex <;>
    cases device.Map_ok .index <;> cases ps 1 <;>
    simp [bind, Run.bind, pure, Run.pure, emit, Event.is_constant_buffer_creation]

/-- Shader setup with a template that has no constant buffer creates none. -/
theorem setup_shader_no_constant_buffer (self : GstD3D11Converter) (device : GstD3D11Device)
    (in_info out_info : GstVideoInfo)
    (h : (self.convert_info.templ.getD ⟨none, none⟩).constant_buffer = none) :
    ∀ e ∈ (gst_d3d11_color_convert_setup_shader self device in_info out_info).trace,
      e.is_constant_buffer_creation = false := by
  unfold gst_d3d11_color_convert_setup_shader
  apply Run.trace_bind_forall
  · simp [emit, Event.is_constant_buffer_creation]
  · intro _ _
    split
    · simp [bind, Run.bind, pure, Run.pure, emit, Event.is_constant_buffer_creation]
    · apply Run.trace_bind_forall
      · exact setup_shader_pixel_shader_no_constant_buffer _ _ _ _
      · intro r0 _
        split
        · simp [pure, Run.pure]
        · apply Run.trace_bind_forall
          · exact setup_shader_pixel_shader_no_constant_buffer _ _ _ _
          · intro r1 _
            split
            · simp [pure, Run.pure]
            · rw [setup_shader_const_buffer_none _ _ _ h]
              simp only [bind, Run.bind, List.nil_append]
              exact setup_shader_geometry_no_constant_buffer _ _ _ _ _ _

/-- Construction of a pair whose two formats are both RGB or both not RGB
creates no constant buffer. -/
theorem new_internal_no_constant_buffer (lib : GstVideoLib) (device : GstD3D11Device)
    (in_info out_info : GstVideoInfo) (alpha : ℚ)
    (hcat : GST_VIDEO_INFO_IS_RGB in_info = GST_VIDEO_INFO_IS_RGB out_info) :
    ∀ e ∈ (gst_d3d11_converter_new_internal lib device in_info out_info alpha).trace,
      e.is_constant_buffer_creation = false := by
  unfold gst_d3d11_converter_new_internal
  apply Run.trace_bind_forall
  · simp [emit, Event.is_constant_buffer_creation]
  · intro _ _
    split
    · simp [format_unknown, bind, Run.bind, pure, Run.pure, emit, Event.is_constant_buffer_creation]
    · apply Run.trace_bind_forall
      · simp [emit, Event.is_constant_buffer_creation]
      · intro _ _
        split
        · simp [format_unknown, bind, Run.bind, pure, Run.pure, emit,
            Event.is_constant_buffer_creation]
        · apply Run.trace_bind_forall
          · simp [emit, Event.is_constant_buffer_creation]
          · intro _ _
            apply Run.trace_bind_forall
            · simp [Run.lift]
            · intro r hr
              obtain ⟨is_supported, info⟩ := r
              have hc : converter_classify (g_new0_converter device alpha) in_info out_info
                  = .ok (is_supported, info) := hr
              cases is_supported with
              | false =>
                simp [conversion_not_supported, gst_d3d11_converter_free, bind, Run.bind,
                  pure, Run.pure, emit, Event.is_constant_buffer_creation]
              | true =>
                have ht := (classify_accepted_bool device alpha in_info out_info info hc).1
                rw [if_pos hcat] at ht
                dsimp only
                rw [if_neg (by simp)]
                apply Run.trace_bind_forall
                · simp [emit, Event.is_constant_buffer_creation]
                · intro _ _
                  cases hm : converter_get_matrix lib in_info out_info with
                  | mk has_matrix matrix =>
                    dsimp only
                    apply Run.trace_bind_forall
                    · apply setup_shader_no_constant_buffer
                      cases has_matrix <;> simp [ht, templ_REORDER]
                    · intro r2 _
                      obtain ⟨ret, c2⟩ := r2
                      cases ret <;>
                        simp [gst_d3d11_converter_free, bind, Run.bind, pure, Run.pure, emit,
                          Event.is_constant_buffer_creation]

/-- The events of a sequence whose first part returns are those of the first
part followed by those of the rest. -/
theorem Run.trace_bind_ok {α β : Type} (x : Run α) (k : α → Run β) (a : α)
    (h : x.result = .ok a) : (x >>= k).trace = x.trace ++ (k a).trace := by
  show (Run.bind x k).trace = _
  unfold Run.bind
  rw [h]

/-- With a constant buffer in the template, the constant-buffer block that
goes on has created the buffer and written the transform of the plan. -/
theorem setup_shader_const_buffer_written (device : GstD3D11Device)
    (convert_info : ConvertInfo) (templ : PixelShaderTemplate)
    (cb : Option PixelShaderColorTransform)
    (h : (setup_shader_const_buffer device convert_info templ).result = .ok (some cb))
    (ht : templ.constant_buffer.isSome = true) :
    Event.CreateBuffer .constant ∈ (setup_shader_const_buffer device convert_info templ).trace ∧
    Event.memcpy_transform convert_info.transform
      ∈ (setup_shader_const_buffer device convert_info templ).trace ∧
    cb = some convert_info.transform := by
  unfold setup_shader_const_buffer at h ⊢
  cases hc : templ.constant_buffer with
  | none => simp [hc] at ht
  | some decl =>
    cases h1 : device.CreateBuffer_ok .constant <;> cases h2 : device.Map_ok .constant <;>
      simp [hc, h1, h2, bind, Run.bind, pure, Run.pure, emit] at h ⊢
    exact h.symm

/-- With a constant buffer in the template, a shader setup that returns TRUE
has created the constant buffer and written the transform of the plan. -/
theorem setup_shader_constant_buffer_written (self : GstD3D11Converter)
    (device : GstD3D11Device) (in_info out_info : GstVideoInfo) (c' : GstD3D11Converter)
    (h : (gst_d3d11_color_convert_setup_shader self device in_info out_info).result
      = .ok (true, c'))
    (ht : (self.convert_info.templ.getD ⟨none, none⟩).constant_buffer.isSome = true) :
    Event.CreateBuffer .constant
      ∈ (gst_d3d11_color_convert_setup_shader self device in_info out_info).trace ∧
    Event.memcpy_transform self.convert_info.transform
      ∈ (gst_d3d11_color_convert_setup_shader self device in_info out_info).trace := by
  unfold gst_d3d11_color_convert_setup_shader at h ⊢
  obtain ⟨u, hu, h⟩ := Run.result_bind_ok _ _ _ h
  rw [Run.trace_bind_ok _ _ _ hu]
  cases hs : device.CreateSamplerState_ok
  · simp [hs, bind, Run.bind, pure, Run.pure, emit] at h
  · simp only [hs, Bool.not_true, Bool.false_eq_true, if_false] at h ⊢
    obtain ⟨r0, h0, h⟩ := Run.result_bind_ok _ _ _ h
    rw [Run.trace_bind_ok _ _ _ h0]
    cases r0 with
    | none => simp [pure, Run.pure] at h
    | some ps0 =>
      dsimp only at h ⊢
      obtain ⟨r1, h1, h⟩ := Run.result_bind_ok _ _ _ h
      rw [Run.trace_bind_ok _ _ _ h1]
      cases r1 with
      | none => simp [pure, Run.pure] at h
      | some ps1 =>
        dsimp only at h ⊢
        obtain ⟨r2, h2, h⟩ := Run.result_bind_ok _ _ _ h
        rw [Run.trace_bind_ok _ _ _ h2]
        cases r2 with
        | none => simp [pure, Run.pure] at h
        | some cb =>
          obtain ⟨w1, w2, -⟩ := setup_shader_const_buffer_written _ _ _ _ h2 ht
          simp only [List.mem_append]
          exact ⟨Or.inr (Or.inr (Or.inr (Or.inl w1))), Or.inr (Or.inr (Or.inr (Or.inl w2)))⟩

/-- A construction that returns a converter for a pair with one RGB and one
non-RGB format has created the constant buffer and written a transform. -/
theorem new_internal_constant_buffer_written (lib : GstVideoLib) (device : GstD3D11Device)
    (in_info out_info : GstVideoInfo) (alpha : ℚ) (c : GstD3D11Converter)
    (h : (gst_d3d11_converter_new_internal lib device in_info out_info alpha).result
      = .ok (some c))
    (hcat : GST_VIDEO_INFO_IS_RGB in_info ≠ GST_VIDEO_INFO_IS_RGB out_info) :
    Event.CreateBuffer .constant
      ∈ (gst_d3d11_converter_new_internal lib device in_info out_info alpha).trace ∧
    ∃ t, Event.memcpy_transform t
      ∈ (gst_d3d11_converter_new_internal lib device in_info out_info alpha).trace := by
  unfold gst_d3d11_converter_new_internal at h ⊢
  obtain ⟨_, hu1, h⟩ := Run.result_bind_ok _ _ _ h
  rw [Run.trace_bind_ok _ _ _ hu1]
  cases hf1 : gst_d3d11_device_format_from_gst device (GST_VIDEO_INFO_FORMAT in_info) with
  | none => simp [hf1, format_unknown, bind, Run.bind, pure, Run.pure, emit] at h
  | some f1 =>
    simp only [hf1] at h ⊢
    obtain ⟨_, hu2, h⟩ := Run.result_bind_ok _ _ _ h
    rw [Run.trace_bind_ok _ _ _ hu2]
    cases hf2 : gst_d3d11_device_format_from_gst device (GST_VIDEO_INFO_FORMAT out_info) with
    | none => simp [hf2, format_unknown, bind, Run.bind, pure, Run.pure, emit] at h
    | some f2 =>
      simp only [hf2] at h ⊢
      obtain ⟨_, hu3, h⟩ := Run.result_bind_ok _ _ _ h
      rw [Run.trace_bind_ok _ _ _ hu3]
      obtain ⟨r, hr, h⟩ := Run.result_bind_ok _ _ _ h
      rw [Run.trace_bind_ok _ _ _ hr]
      obtain ⟨is_supported, info⟩ := r
      have hc : converter_classify (g_new0_converter device alpha) in_info out_info
          = .ok (is_supported, info) := hr
      cases is_supported with
      | false =>
        simp [conversion_not_supported, gst_d3d11_converter_free, bind, Run.bind,
          pure, Run.pure, emit] at h
      | true =>
        have ht := (classify_accepted_bool device alpha in_info out_info info hc).1
        rw [if_neg hcat] at ht
        dsimp only at h ⊢
        rw [if_neg (by simp)] at h ⊢
        obtain ⟨_, hu4, h⟩ := Run.result_bind_ok _ _ _ h
        rw [Run.trace_bind_ok _ _ _ hu4]
        obtain ⟨r2, hr2, h⟩ := Run.result_bind_ok _ _ _ h
        rw [Run.trace_bind_ok _ _ _ hr2]
        obtain ⟨ret, c2⟩ := r2
        cases ret with
        | false =>
          simp [gst_d3d11_converter_free, bind, Run.bind, pure, Run.pure, emit] at h
        | true =>
          obtain ⟨w1, w2⟩ := setup_shader_constant_buffer_written _ _ _ _ _ hr2 (by
            cases hm : (converter_get_matrix lib in_info out_info).1 <;>
              cases hrgb : GST_VIDEO_INFO_IS_RGB in_info <;>
              simp [hm, ht, hrgb, templ_RGB_to_YUV, templ_YUV_to_RGB])
          simp only [List.mem_append]
          exact ⟨Or.inr (Or.inr (Or.inr (Or.inr (Or.inr (Or.inl w1))))),
            _, Or.inr (Or.inr (Or.inr (Or.inr (Or.inr (Or.inl w2)))))⟩

/-- The two formats of an accepted pair are each RGB or YUV, and not both. -/
theorem classify_accepted_categories (converter : GstD3D11Converter)
    (in_info out_info : GstVideoInfo) (info : ConvertInfo)
    (h : converter_classify converter in_info out_info = .ok (true, info)) :
    GST_VIDEO_INFO_IS_YUV in_info = !GST_VIDEO_INFO_IS_RGB in_info ∧
    GST_VIDEO_INFO_IS_YUV out_info = !GST_VIDEO_INFO_IS_RGB out_info := by
  have hk : (GST_VIDEO_INFO_IS_RGB in_info = true ∨ GST_VIDEO_INFO_IS_YUV in_info = true) ∧
      (GST_VIDEO_INFO_IS_RGB out_info = true ∨ GST_VIDEO_INFO_IS_YUV out_info = true) := by
    unfold converter_classify at h
    cases h1 : GST_VIDEO_INFO_IS_RGB in_info <;> cases h2 : GST_VIDEO_INFO_IS_YUV in_info <;>
      cases h3 : GST_VIDEO_INFO_IS_RGB out_info <;>
      cases h4 : GST_VIDEO_INFO_IS_YUV out_info <;>
      simp [h1, h2, h3, h4] at h ⊢
  exact ⟨is_yuv_of_not_rgb in_info hk.1, is_yuv_of_not_rgb out_info hk.2⟩

/-- C32: the plan of every accepted RGB -> RGB or YUV -> YUV pair has the
template `templ_REORDER`, with neither constant buffer nor transform function,
whatever the colorimetry; the template of an accepted pair has a constant
buffer and a transform function exactly for RGB -> YUV and YUV -> RGB.
Construction of an RGB -> RGB or YUV -> YUV pair never creates or writes a
constant buffer, and a construction that returns a converter has created and
written it exactly for RGB -> YUV and YUV -> RGB. -/
theorem template_constant_buffer (lib : GstVideoLib) (device : GstD3D11Device)
    (in_info out_info : GstVideoInfo) (alpha : ℚ) :
    (∀ info, converter_classify (g_new0_converter device alpha) in_info out_info
        = .ok (true, info) →
      ∃ templ, info.templ = some templ ∧
        ((GST_VIDEO_INFO_IS_RGB in_info = true ∧ GST_VIDEO_INFO_IS_RGB out_info = true) ∨
            (GST_VIDEO_INFO_IS_YUV in_info = true ∧ GST_VIDEO_INFO_IS_YUV out_info = true) →
          templ = templ_REORDER ∧ templ.constant_buffer = none ∧ templ.func = none) ∧
        (templ.constant_buffer.isSome = true ↔
          (GST_VIDEO_INFO_IS_RGB in_info = true ∧ GST_VIDEO_INFO_IS_YUV out_info = true) ∨
            (GST_VIDEO_INFO_IS_YUV in_info = true ∧ GST_VIDEO_INFO_IS_RGB out_info = true)) ∧
        (templ.func.isSome = true ↔
          (GST_VIDEO_INFO_IS_RGB in_info = true ∧ GST_VIDEO_INFO_IS_YUV out_info = true) ∨
            (GST_VIDEO_INFO_IS_YUV in_info = true ∧ GST_VIDEO_INFO_IS_RGB out_info = true))) ∧
    ((GST_VIDEO_INFO_IS_RGB in_info = true ∧ GST_VIDEO_INFO_IS_RGB out_info = true) ∨
        (GST_VIDEO_INFO_IS_YUV in_info = true ∧ GST_VIDEO_INFO_IS_YUV out_info = true) →
      ∀ e ∈ (gst_d3d11_converter_new_internal lib device in_info out_info alpha).trace,
        e.is_constant_buffer_creation = false ∧ e.is_transform_upload = false) ∧
    (∀ c, (gst_d3d11_converter_new_internal lib device in_info out_info alpha).result
        = .ok (some c) →
      ((∃ e ∈ (gst_d3d11_converter_new_internal lib device in_info out_info alpha).trace,
          e.is_constant_buffer_creation = true) ↔
        (GST_VIDEO_INFO_IS_RGB in_info = true ∧ GST_VIDEO_INFO_IS_YUV out_info = true) ∨
          (GST_VIDEO_INFO_IS_YUV in_info = true ∧ GST_VIDEO_INFO_IS_RGB out_info = true)) ∧
      ((∃ e ∈ (gst_d3d11_converter_new_internal lib device in_info out_info alpha).trace,
          e.is_transform_upload = true) ↔
        (GST_VIDEO_INFO_IS_RGB in_info = true ∧ GST_VIDEO_INFO_IS_YUV out_info = true) ∨
          (GST_VIDEO_INFO_IS_YUV in_info = true ∧ GST_VIDEO_INFO_IS_RGB out_info = true))) := by
  have hsame : (GST_VIDEO_INFO_IS_RGB in_info = true ∧ GST_VIDEO_INFO_IS_RGB out_info = true) ∨
      (GST_VIDEO_INFO_IS_YUV in_info = true ∧ GST_VIDEO_INFO_IS_YUV out_info = true) →
      GST_VIDEO_INFO_IS_RGB in_info = GST_VIDEO_INFO_IS_RGB out_info := by
    rintro (⟨h1, h2⟩ | ⟨h1, h2⟩)
    · rw [h1, h2]
    · simp only [GST_VIDEO_INFO_IS_YUV, GST_VIDEO_INFO_IS_RGB, decide_eq_true_eq] at h1 h2 ⊢
      simp [h1, h2]
  refine ⟨?_, ?_, ?_⟩
  · intro info hc
    have ht := (classify_accepted_bool device alpha in_info out_info info hc).1
    obtain ⟨hi, ho⟩ := classify_accepted_categories _ _ _ _ hc
    refine ⟨_, ht, ?_, ?_, ?_⟩
    · intro hs
      rw [if_pos (hsame hs)]
      exact ⟨rfl, rfl, rfl⟩
    · rw [hi, ho]
      cases GST_VIDEO_INFO_IS_RGB in_info <;> cases GST_VIDEO_INFO_IS_RGB out_info <;>
        simp [templ_REORDER, templ_RGB_to_YUV, templ_YUV_to_RGB]
    · rw [hi, ho]
      cases GST_VIDEO_INFO_IS_RGB in_info <;> cases GST_VIDEO_INFO_IS_RGB out_info <;>
        simp [templ_REORDER, templ_RGB_to_YUV, templ_YUV_to_RGB]
  · intro hs e he
    exact ⟨new_internal_no_constant_buffer lib device in_info out_info alpha (hsame hs) e he,
      new_internal_no_upload lib device in_info out_info alpha (hsame hs) e he⟩
  · intro c h
    obtain ⟨info, hc, -⟩ := new_internal_some lib device in_info out_info alpha c h
    obtain ⟨hi, ho⟩ := classify_accepted_categories _ _ _ _ hc
    have hcross : (GST_VIDEO_INFO_IS_RGB in_info = true ∧ GST_VIDEO_INFO_IS_YUV out_info = true) ∨
        (GST_VIDEO_INFO_IS_YUV in_info = true ∧ GST_VIDEO_INFO_IS_RGB out_info = true) ↔
        GST_VIDEO_INFO_IS_RGB in_info ≠ GST_VIDEO_INFO_IS_RGB out_info := by
      rw [hi, ho]
      cases GST_VIDEO_INFO_IS_RGB in_info <;> cases GST_VIDEO_INFO_IS_RGB out_info <;> simp
    rw [hcross]
    constructor
    · constructor
      · rintro ⟨e, he, hv⟩ heq
        rw [new_internal_no_constant_buffer lib device in_info out_info alpha heq e he] at hv
        cases hv
      · intro hne
        exact ⟨_, (new_internal_constant_buffer_written lib device in_info out_info alpha c h
          hne).1, rfl⟩
    · constructor
      · rintro ⟨e, he, hv⟩ heq
        rw [new_internal_no_upload lib device in_info out_info alpha heq e he] at hv
        cases hv
      · intro hne
        obtain ⟨t, ht⟩ := (new_internal_constant_buffer_written lib device in_info out_info
          alpha c h hne).2
        exact ⟨_, ht, rfl⟩

end D3D11Converter
